import Mathlib

/-!
# Joblify backend: accounts, listings and the application, subscription and invitation workflow

A shallow embedding of the controllers of the job-board backend
(`controllers/auth.controller.mjs`, `controllers/jobseeker.controller.mjs`,
`controllers/company.controller.mjs`) and of the failure answers of `index.js`
and `config/db.mjs`.

Every controller is a request handler that reads and writes a relational store
through an ORM client and answers with a JSON envelope.  A handler is embedded
as a function from the store before the request to the store after it together
with the response.  The store is a record of tables, each table a list of rows
in insertion order.

Conventions of the embedding:

* identifiers are natural numbers; the identifier of a created row is drawn
  from the counter `Store.nextId`, which stands for the generator of the
  database;
* `new Date()` and `Date.now()` are the argument `now`, in milliseconds;
* the session user is an `Option Nat`: `none` is a request without a user id;
* a query `findFirst` is `List.find?` on the table, `create` appends a row,
  `update` with a `where: { id }` rewrites the rows carrying that id;
* a handler body runs inside `try/catch`: a storage call that throws ends the
  handler with status 500 and keeps the writes made before it;
* a field of a request body is an `Option`: `none` when the body does not carry
  it; a date field carries the value of `new Date(..)`, which may be the Invalid
  Date;
* a pattern is a regular expression with the backtracking matcher of the
  language, over the characters of a text;
* a read handler is embedded with the envelope of its answer, and a listing with
  its rows and pagination as well.
-/

namespace Joblify

/-! ## Tables -/

/-- Row of the `user` table (the columns the handlers read and write).  Job
seekers and companies share the table; the columns that only one kind of
account fills are null (`none`) for the other. -/
structure User where
  id : Nat
  userType : String
  companyName : Option String
  email : String
  phone : String
  firstName : Option String := none
  lastName : Option String := none
  verificationStatus : String := "PENDING"
  subscriptionStatus : String := "INACTIVE"
  industry : Option String := none
  companySize : Option String := none
  description : Option String := none
deriving DecidableEq, Repr

/-- Row of the `jobSeekerProfile` table. -/
structure JobSeekerProfile where
  id : Nat
  userId : Nat
  profileType : String
  visibility : String
  bio : Option String := none
  skills : List String := []
  education : Option String := none
deriving DecidableEq, Repr

/-- Row of the `companyProfile` table (the key columns). -/
structure CompanyProfile where
  id : Nat
  userId : Nat
  companyName : String
  email : String
  phone : String
deriving DecidableEq, Repr

/-- Row of the `loginSession` table. -/
structure LoginSession where
  id : Nat
  userId : Nat
  isActive : Bool
deriving DecidableEq, Repr

/-- Row of the `jobPost` table (the columns the handlers below decide on; the
other optional columns of a posting, such as the salary, are left out).  The
optional columns `location` and `experienceLevel` are read by the filters of
`getJobPosts`; they are null on a posting made without them. -/
structure JobPost where
  id : Nat
  companyId : Nat
  title : String
  description : String
  industry : String
  jobType : String
  isActive : Bool
  applicationDeadline : Nat
  hasChatArea : Bool
  location : Option String := none
  experienceLevel : Option String := none
deriving DecidableEq, Repr

/-- Row of the `resume` table. -/
structure Resume where
  id : Nat
  userId : Nat
  title : String
  summary : String
  experience : String
  education : String
  skills : String
  custom : Bool
deriving DecidableEq, Repr

/-- Row of the `jobApplication` table. -/
structure JobApplication where
  id : Nat
  jobPostId : Nat
  jobSeekerId : Nat
  resumeId : Option Nat
  coverLetter : Option String
  status : String
deriving DecidableEq, Repr

/-- Row of the `chatArea` table: `companyId` is the owner that `getChatAreas`
filters on. -/
structure ChatArea where
  id : Nat
  jobPostId : Nat
  companyId : Nat
deriving DecidableEq, Repr

/-- Row of the `chatParticipant` table. -/
structure ChatParticipant where
  id : Nat
  chatAreaId : Nat
  userId : Nat
deriving DecidableEq, Repr

/-- Row of the `chatMessage` table. -/
structure ChatMessage where
  id : Nat
  chatAreaId : Nat
  userId : Nat
  content : String
deriving DecidableEq, Repr

/-- Row of the `notification` table. -/
structure Notification where
  id : Nat
  userId : Nat
  title : String
  message : String
  type : String
  relatedId : Nat
deriving DecidableEq, Repr

/-- Row of the `companySubscription` table. -/
structure CompanySubscription where
  id : Nat
  companyId : Nat
  jobSeekerId : Nat
  profileType : String
deriving DecidableEq, Repr

/-- Row of the `invitation` table. -/
structure Invitation where
  id : Nat
  companyId : Nat
  jobSeekerId : Nat
  profileType : String
  message : Option String
  status : String
  expiresAt : Nat
deriving DecidableEq, Repr

/-- The relational store behind the ORM client. -/
structure Store where
  users : List User
  jobSeekerProfiles : List JobSeekerProfile
  jobPosts : List JobPost
  resumes : List Resume
  jobApplications : List JobApplication
  chatAreas : List ChatArea
  chatParticipants : List ChatParticipant
  chatMessages : List ChatMessage
  notifications : List Notification
  companySubscriptions : List CompanySubscription
  invitations : List Invitation
  nextId : Nat
  companyProfiles : List CompanyProfile := []
  loginSessions : List LoginSession := []
deriving DecidableEq, Repr

/-- The JSON envelope of a response, with its HTTP status. -/
structure Response where
  status : Nat
  success : Bool
  message : String
deriving DecidableEq, Repr

/-- Inline resume data of an apply request (`req.body.customResume`). -/
structure CustomResume where
  summary : String
  experience : String
  education : String
  skills : String
deriving DecidableEq, Repr

/-- Body of an apply request.  `resumeId` is `none` when the body does not
carry it; the id 0 is the falsy id (among text ids, the empty text). -/
structure ApplyBody where
  resumeId : Option Nat
  coverLetter : Option String
  customResume : Option CustomResume
deriving DecidableEq, Repr

/-! ## Storage calls -/

/-- The call `prisma.resume.create`: the new row gets the next identifier. -/
def Store.createResume (s : Store) (userId : Nat) (title : String) (c : CustomResume) :
    Store × Resume :=
  let r : Resume :=
    { id := s.nextId, userId := userId, title := title, summary := c.summary,
      experience := c.experience, education := c.education, skills := c.skills,
      custom := true }
  ({ s with resumes := s.resumes ++ [r], nextId := s.nextId + 1 }, r)

/-- The call `prisma.jobApplication.create`. -/
def Store.createJobApplication (s : Store) (jobPostId jobSeekerId : Nat)
    (resumeId : Option Nat) (coverLetter : Option String) (status : String) :
    Store × JobApplication :=
  let a : JobApplication :=
    { id := s.nextId, jobPostId := jobPostId, jobSeekerId := jobSeekerId,
      resumeId := resumeId, coverLetter := coverLetter, status := status }
  ({ s with jobApplications := s.jobApplications ++ [a], nextId := s.nextId + 1 }, a)

/-- The call `prisma.chatParticipant.create`.  The table has the compound unique
key `chatAreaId_userId` (the key the upsert of `updateApplicantStatus` names), so
creating a pair that is already present throws: the result is `none`. -/
def Store.createChatParticipant (s : Store) (chatAreaId userId : Nat) : Option Store :=
  if s.chatParticipants.any (fun p => decide (p.chatAreaId = chatAreaId ∧ p.userId = userId)) then
    none
  else
    some { s with
      chatParticipants :=
        s.chatParticipants ++ [{ id := s.nextId, chatAreaId := chatAreaId, userId := userId }],
      nextId := s.nextId + 1 }

/-- The call `prisma.chatParticipant.upsert` with an empty `update`: the row is
created when the pair is absent and the table is left alone when it is present. -/
def Store.upsertChatParticipant (s : Store) (chatAreaId userId : Nat) : Store :=
  if s.chatParticipants.any (fun p => decide (p.chatAreaId = chatAreaId ∧ p.userId = userId)) then
    s
  else
    { s with
      chatParticipants :=
        s.chatParticipants ++ [{ id := s.nextId, chatAreaId := chatAreaId, userId := userId }],
      nextId := s.nextId + 1 }

/-- The call `prisma.notification.create`. -/
def Store.createNotification (s : Store) (userId : Nat) (title message type : String)
    (relatedId : Nat) : Store :=
  { s with
    notifications :=
      s.notifications ++
        [{ id := s.nextId, userId := userId, title := title, message := message,
           type := type, relatedId := relatedId }],
    nextId := s.nextId + 1 }

/-! ## `applyToJob` (jobseeker.controller.mjs) -/

/-- The block "Create custom resume if provided" of `applyToJob`: the store after
it and the value of `resumeToUse`. -/
def customResumeStep (s : Store) (userId : Nat) (jobTitle : String) (body : ApplyBody) :
    Store × Option Nat :=
  match body.customResume with
  | some c =>
    let created := s.createResume userId ("Custom Resume for " ++ jobTitle) c
    (created.1, some created.2.id)
  | none => (s, body.resumeId)

/-- The block "Validate resume exists" of `applyToJob`, which runs under
`if (resumeToUse)`: an absent id and a falsy id skip the lookup.  The falsy id is
0 (among text ids, the empty text).  The value is `false` when `resumeToUse` is
truthy and the caller owns no resume with that id. -/
def resumeFound (s : Store) (userId : Nat) (resumeToUse : Option Nat) : Bool :=
  match resumeToUse with
  | some r =>
    decide (r = 0) || (s.resumes.find? (fun x => decide (x.id = r ∧ x.userId = userId))).isSome
  | none => true

/-- The block "Add to chat area if job has one" of `applyToJob`: `none` when the
insert of the participant throws. -/
def chatEnrolStep (s : Store) (jobPost : JobPost) (jobId userId : Nat) : Option Store :=
  if jobPost.hasChatArea = true then
    match s.chatAreas.find? (fun c => decide (c.jobPostId = jobId)) with
    | some chatArea => s.createChatParticipant chatArea.id userId
    | none => some s
  else some s

/-- The handler `applyToJob`: `POST /jobs/:jobId/apply`. -/
def applyToJob (now : Nat) (s : Store) (user : Option Nat) (jobId : Nat) (body : ApplyBody) :
    Store × Response :=
  match user with
  | none => (s, { status := 401, success := false, message := "Not authenticated" })
  | some userId =>
    match s.jobPosts.find? (fun j =>
        decide (j.id = jobId ∧ j.isActive = true ∧ now < j.applicationDeadline)) with
    | none => (s, { status := 404, success := false, message := "Job post not found or expired" })
    | some jobPost =>
      match s.jobApplications.find? (fun a =>
          decide (a.jobPostId = jobId ∧ a.jobSeekerId = userId)) with
      | some _ =>
        (s, { status := 400, success := false, message := "You have already applied to this job" })
      | none =>
        let resumed := customResumeStep s userId jobPost.title body
        if resumeFound resumed.1 userId resumed.2 = false then
          (resumed.1, { status := 400, success := false, message := "Resume not found" })
        else
          let created :=
            resumed.1.createJobApplication jobId userId resumed.2 body.coverLetter "NOT_VIEWED"
          match chatEnrolStep created.1 jobPost jobId userId with
          | none =>
            (created.1, { status := 500, success := false, message := "Failed to apply to job" })
          | some s3 =>
            (s3.createNotification jobPost.companyId "New Job Application"
                ("New application received for " ++ jobPost.title) "APPLICATION" created.2.id,
              { status := 201, success := true, message := "Application submitted successfully" })

/-! ## `subscribeToCompany` and `respondToInvitation` (jobseeker.controller.mjs) -/

/-- The simple lower-case mappings of the Unicode Character Database (version
14.0) outside ASCII, as rows `(first, last, step, target)`: the code points
`first`, `first + step`, ... up to `last` are mapped to `target`,
`target + step`, ... -/
def lowerCaseRows : List (Nat × Nat × Nat × Nat) :=
  [(192, 214, 1, 224), (216, 222, 1, 248), (256, 302, 2, 257), (306, 310, 2, 307),
   (313, 327, 2, 314), (330, 374, 2, 331), (376, 376, 1, 255), (377, 381, 2, 378),
   (385, 385, 1, 595), (386, 388, 2, 387), (390, 390, 1, 596), (391, 391, 1, 392),
   (393, 394, 1, 598), (395, 395, 1, 396), (398, 398, 1, 477), (399, 399, 1, 601),
   (400, 400, 1, 603), (401, 401, 1, 402), (403, 403, 1, 608), (404, 404, 1, 611),
   (406, 406, 1, 617), (407, 407, 1, 616), (408, 408, 1, 409), (412, 412, 1, 623),
   (413, 413, 1, 626), (415, 415, 1, 629), (416, 420, 2, 417), (422, 422, 1, 640),
   (423, 423, 1, 424), (425, 425, 1, 643), (428, 428, 1, 429), (430, 430, 1, 648),
   (431, 431, 1, 432), (433, 434, 1, 650), (435, 437, 2, 436), (439, 439, 1, 658),
   (440, 440, 1, 441), (444, 444, 1, 445), (452, 452, 1, 454), (453, 453, 1, 454),
   (455, 455, 1, 457), (456, 456, 1, 457), (458, 458, 1, 460), (459, 475, 2, 460),
   (478, 494, 2, 479), (497, 497, 1, 499), (498, 500, 2, 499), (502, 502, 1, 405),
   (503, 503, 1, 447), (504, 542, 2, 505), (544, 544, 1, 414), (546, 562, 2, 547),
   (570, 570, 1, 11365), (571, 571, 1, 572), (573, 573, 1, 410), (574, 574, 1, 11366),
   (577, 577, 1, 578), (579, 579, 1, 384), (580, 580, 1, 649), (581, 581, 1, 652),
   (582, 590, 2, 583), (880, 882, 2, 881), (886, 886, 1, 887), (895, 895, 1, 1011),
   (902, 902, 1, 940), (904, 906, 1, 941), (908, 908, 1, 972), (910, 911, 1, 973),
   (913, 929, 1, 945), (931, 939, 1, 963), (975, 975, 1, 983), (984, 1006, 2, 985),
   (1012, 1012, 1, 952), (1015, 1015, 1, 1016), (1017, 1017, 1, 1010), (1018, 1018, 1, 1019),
   (1021, 1023, 1, 891), (1024, 1039, 1, 1104), (1040, 1071, 1, 1072), (1120, 1152, 2, 1121),
   (1162, 1214, 2, 1163), (1216, 1216, 1, 1231), (1217, 1229, 2, 1218), (1232, 1326, 2, 1233),
   (1329, 1366, 1, 1377), (4256, 4293, 1, 11520), (4295, 4295, 1, 11559), (4301, 4301, 1, 11565),
   (5024, 5103, 1, 43888), (5104, 5109, 1, 5112), (7312, 7354, 1, 4304), (7357, 7359, 1, 4349),
   (7680, 7828, 2, 7681), (7838, 7838, 1, 223), (7840, 7934, 2, 7841), (7944, 7951, 1, 7936),
   (7960, 7965, 1, 7952), (7976, 7983, 1, 7968), (7992, 7999, 1, 7984), (8008, 8013, 1, 8000),
   (8025, 8031, 2, 8017), (8040, 8047, 1, 8032), (8072, 8079, 1, 8064), (8088, 8095, 1, 8080),
   (8104, 8111, 1, 8096), (8120, 8121, 1, 8112), (8122, 8123, 1, 8048), (8124, 8124, 1, 8115),
   (8136, 8139, 1, 8050), (8140, 8140, 1, 8131), (8152, 8153, 1, 8144), (8154, 8155, 1, 8054),
   (8168, 8169, 1, 8160), (8170, 8171, 1, 8058), (8172, 8172, 1, 8165), (8184, 8185, 1, 8056),
   (8186, 8187, 1, 8060), (8188, 8188, 1, 8179), (8486, 8486, 1, 969), (8490, 8490, 1, 107),
   (8491, 8491, 1, 229), (8498, 8498, 1, 8526), (8544, 8559, 1, 8560), (8579, 8579, 1, 8580),
   (9398, 9423, 1, 9424), (11264, 11311, 1, 11312), (11360, 11360, 1, 11361),
   (11362, 11362, 1, 619), (11363, 11363, 1, 7549), (11364, 11364, 1, 637),
   (11367, 11371, 2, 11368), (11373, 11373, 1, 593), (11374, 11374, 1, 625),
   (11375, 11375, 1, 592), (11376, 11376, 1, 594), (11378, 11378, 1, 11379),
   (11381, 11381, 1, 11382), (11390, 11391, 1, 575), (11392, 11490, 2, 11393),
   (11499, 11501, 2, 11500), (11506, 11506, 1, 11507), (42560, 42604, 2, 42561),
   (42624, 42650, 2, 42625), (42786, 42798, 2, 42787), (42802, 42862, 2, 42803),
   (42873, 42875, 2, 42874), (42877, 42877, 1, 7545), (42878, 42886, 2, 42879),
   (42891, 42891, 1, 42892), (42893, 42893, 1, 613), (42896, 42898, 2, 42897),
   (42902, 42920, 2, 42903), (42922, 42922, 1, 614), (42923, 42923, 1, 604),
   (42924, 42924, 1, 609), (42925, 42925, 1, 620), (42926, 42926, 1, 618), (42928, 42928, 1, 670),
   (42929, 42929, 1, 647), (42930, 42930, 1, 669), (42931, 42931, 1, 43859),
   (42932, 42946, 2, 42933), (42948, 42948, 1, 42900), (42949, 42949, 1, 642),
   (42950, 42950, 1, 7566), (42951, 42953, 2, 42952), (42960, 42960, 1, 42961),
   (42966, 42968, 2, 42967), (42997, 42997, 1, 42998), (65313, 65338, 1, 65345),
   (66560, 66599, 1, 66600), (66736, 66771, 1, 66776), (66928, 66964, 2, 66967),
   (66929, 66937, 2, 66968), (66941, 66953, 2, 66980), (66957, 66961, 2, 66996),
   (66965, 66965, 1, 67004), (68736, 68786, 1, 68800), (71840, 71871, 1, 71872),
   (93760, 93791, 1, 93792), (125184, 125217, 1, 125218)]

/-- The code points with the property `Case_Ignorable` of the Unicode Character
Database (version 14.0), as ranges `(first, last)` in ascending order, in blocks
of 64 ranges. -/
def caseIgnorableRanges : List (List (Nat × Nat)) :=
  [[(39, 39), (46, 46), (58, 58), (94, 94), (96, 96), (168, 168), (173, 173), (175, 175),
    (180, 180), (183, 184), (688, 879), (884, 885), (890, 890), (900, 901), (903, 903),
    (1155, 1161), (1369, 1369), (1375, 1375), (1425, 1469), (1471, 1471), (1473, 1474),
    (1476, 1477), (1479, 1479), (1524, 1524), (1536, 1541), (1552, 1562), (1564, 1564),
    (1600, 1600), (1611, 1631), (1648, 1648), (1750, 1757), (1759, 1768), (1770, 1773),
    (1807, 1807), (1809, 1809), (1840, 1866), (1958, 1968), (2027, 2037), (2042, 2042),
    (2045, 2045), (2070, 2093), (2137, 2139), (2184, 2184), (2192, 2193), (2200, 2207),
    (2249, 2306), (2362, 2362), (2364, 2364), (2369, 2376), (2381, 2381), (2385, 2391),
    (2402, 2403), (2417, 2417), (2433, 2433), (2492, 2492), (2497, 2500), (2509, 2509),
    (2530, 2531), (2558, 2558), (2561, 2562), (2620, 2620), (2625, 2626), (2631, 2632),
    (2635, 2637)],
   [(2641, 2641), (2672, 2673), (2677, 2677), (2689, 2690), (2748, 2748), (2753, 2757),
    (2759, 2760), (2765, 2765), (2786, 2787), (2810, 2815), (2817, 2817), (2876, 2876),
    (2879, 2879), (2881, 2884), (2893, 2893), (2901, 2902), (2914, 2915), (2946, 2946),
    (3008, 3008), (3021, 3021), (3072, 3072), (3076, 3076), (3132, 3132), (3134, 3136),
    (3142, 3144), (3146, 3149), (3157, 3158), (3170, 3171), (3201, 3201), (3260, 3260),
    (3263, 3263), (3270, 3270), (3276, 3277), (3298, 3299), (3328, 3329), (3387, 3388),
    (3393, 3396), (3405, 3405), (3426, 3427), (3457, 3457), (3530, 3530), (3538, 3540),
    (3542, 3542), (3633, 3633), (3636, 3642), (3654, 3662), (3761, 3761), (3764, 3772),
    (3782, 3782), (3784, 3789), (3864, 3865), (3893, 3893), (3895, 3895), (3897, 3897),
    (3953, 3966), (3968, 3972), (3974, 3975), (3981, 3991), (3993, 4028), (4038, 4038),
    (4141, 4144), (4146, 4151), (4153, 4154), (4157, 4158)],
   [(4184, 4185), (4190, 4192), (4209, 4212), (4226, 4226), (4229, 4230), (4237, 4237),
    (4253, 4253), (4348, 4348), (4957, 4959), (5906, 5908), (5938, 5939), (5970, 5971),
    (6002, 6003), (6068, 6069), (6071, 6077), (6086, 6086), (6089, 6099), (6103, 6103),
    (6109, 6109), (6155, 6159), (6211, 6211), (6277, 6278), (6313, 6313), (6432, 6434),
    (6439, 6440), (6450, 6450), (6457, 6459), (6679, 6680), (6683, 6683), (6742, 6742),
    (6744, 6750), (6752, 6752), (6754, 6754), (6757, 6764), (6771, 6780), (6783, 6783),
    (6823, 6823), (6832, 6862), (6912, 6915), (6964, 6964), (6966, 6970), (6972, 6972),
    (6978, 6978), (7019, 7027), (7040, 7041), (7074, 7077), (7080, 7081), (7083, 7085),
    (7142, 7142), (7144, 7145), (7149, 7149), (7151, 7153), (7212, 7219), (7222, 7223),
    (7288, 7293), (7376, 7378), (7380, 7392), (7394, 7400), (7405, 7405), (7412, 7412),
    (7416, 7417), (7468, 7530), (7544, 7544), (7579, 7679)],
   [(8125, 8125), (8127, 8129), (8141, 8143), (8157, 8159), (8173, 8175), (8189, 8190),
    (8203, 8207), (8216, 8217), (8228, 8228), (8231, 8231), (8234, 8238), (8288, 8292),
    (8294, 8303), (8305, 8305), (8319, 8319), (8336, 8348), (8400, 8432), (11388, 11389),
    (11503, 11505), (11631, 11631), (11647, 11647), (11744, 11775), (11823, 11823),
    (12293, 12293), (12330, 12333), (12337, 12341), (12347, 12347), (12441, 12446),
    (12540, 12542), (40981, 40981), (42232, 42237), (42508, 42508), (42607, 42610),
    (42612, 42621), (42623, 42623), (42652, 42655), (42736, 42737), (42752, 42785),
    (42864, 42864), (42888, 42890), (42994, 42996), (43000, 43001), (43010, 43010),
    (43014, 43014), (43019, 43019), (43045, 43046), (43052, 43052), (43204, 43205),
    (43232, 43249), (43263, 43263), (43302, 43309), (43335, 43345), (43392, 43394),
    (43443, 43443), (43446, 43449), (43452, 43453), (43471, 43471), (43493, 43494),
    (43561, 43566), (43569, 43570), (43573, 43574), (43587, 43587), (43596, 43596), (43632, 43632)],
   [(43644, 43644), (43696, 43696), (43698, 43700), (43703, 43704), (43710, 43711),
    (43713, 43713), (43741, 43741), (43756, 43757), (43763, 43764), (43766, 43766),
    (43867, 43871), (43881, 43883), (44005, 44005), (44008, 44008), (44013, 44013),
    (64286, 64286), (64434, 64450), (65024, 65039), (65043, 65043), (65056, 65071),
    (65106, 65106), (65109, 65109), (65279, 65279), (65287, 65287), (65294, 65294),
    (65306, 65306), (65342, 65342), (65344, 65344), (65392, 65392), (65438, 65439),
    (65507, 65507), (65529, 65531), (66045, 66045), (66272, 66272), (66422, 66426),
    (67456, 67461), (67463, 67504), (67506, 67514), (68097, 68099), (68101, 68102),
    (68108, 68111), (68152, 68154), (68159, 68159), (68325, 68326), (68900, 68903),
    (69291, 69292), (69446, 69456), (69506, 69509), (69633, 69633), (69688, 69702),
    (69744, 69744), (69747, 69748), (69759, 69761), (69811, 69814), (69817, 69818),
    (69821, 69821), (69826, 69826), (69837, 69837), (69888, 69890), (69927, 69931),
    (69933, 69940), (70003, 70003), (70016, 70017), (70070, 70078)],
   [(70089, 70092), (70095, 70095), (70191, 70193), (70196, 70196), (70198, 70199),
    (70206, 70206), (70367, 70367), (70371, 70378), (70400, 70401), (70459, 70460),
    (70464, 70464), (70502, 70508), (70512, 70516), (70712, 70719), (70722, 70724),
    (70726, 70726), (70750, 70750), (70835, 70840), (70842, 70842), (70847, 70848),
    (70850, 70851), (71090, 71093), (71100, 71101), (71103, 71104), (71132, 71133),
    (71219, 71226), (71229, 71229), (71231, 71232), (71339, 71339), (71341, 71341),
    (71344, 71349), (71351, 71351), (71453, 71455), (71458, 71461), (71463, 71467),
    (71727, 71735), (71737, 71738), (71995, 71996), (71998, 71998), (72003, 72003),
    (72148, 72151), (72154, 72155), (72160, 72160), (72193, 72202), (72243, 72248),
    (72251, 72254), (72263, 72263), (72273, 72278), (72281, 72283), (72330, 72342),
    (72344, 72345), (72752, 72758), (72760, 72765), (72767, 72767), (72850, 72871),
    (72874, 72880), (72882, 72883), (72885, 72886), (73009, 73014), (73018, 73018),
    (73020, 73021), (73023, 73029), (73031, 73031), (73104, 73105)],
   [(73109, 73109), (73111, 73111), (73459, 73460), (78896, 78904), (92912, 92916),
    (92976, 92982), (92992, 92995), (94031, 94031), (94095, 94111), (94176, 94177),
    (94179, 94180), (110576, 110579), (110581, 110587), (110589, 110590), (113821, 113822),
    (113824, 113827), (118528, 118573), (118576, 118598), (119143, 119145), (119155, 119170),
    (119173, 119179), (119210, 119213), (119362, 119364), (121344, 121398), (121403, 121452),
    (121461, 121461), (121476, 121476), (121499, 121503), (121505, 121519), (122880, 122886),
    (122888, 122904), (122907, 122913), (122915, 122916), (122918, 122922), (123184, 123197),
    (123566, 123566), (123628, 123631), (125136, 125142), (125252, 125259), (127995, 127999),
    (917505, 917505), (917536, 917631), (917760, 917999)]]

/-- The code points with the property `Cased` and without `Case_Ignorable`, as
ranges `(first, last)` in ascending order, in blocks of 64 ranges. -/
def casedRanges : List (List (Nat × Nat)) :=
  [[(65, 90), (97, 122), (170, 170), (181, 181), (186, 186), (192, 214), (216, 246), (248, 442),
    (444, 447), (452, 659), (661, 687), (880, 883), (886, 887), (891, 893), (895, 895),
    (902, 902), (904, 906), (908, 908), (910, 929), (931, 1013), (1015, 1153), (1162, 1327),
    (1329, 1366), (1376, 1416), (4256, 4293), (4295, 4295), (4301, 4301), (4304, 4346),
    (4349, 4351), (5024, 5109), (5112, 5117), (7296, 7304), (7312, 7354), (7357, 7359),
    (7424, 7467), (7531, 7543), (7545, 7578), (7680, 7957), (7960, 7965), (7968, 8005),
    (8008, 8013), (8016, 8023), (8025, 8025), (8027, 8027), (8029, 8029), (8031, 8061),
    (8064, 8116), (8118, 8124), (8126, 8126), (8130, 8132), (8134, 8140), (8144, 8147),
    (8150, 8155), (8160, 8172), (8178, 8180), (8182, 8188), (8450, 8450), (8455, 8455),
    (8458, 8467), (8469, 8469), (8473, 8477), (8484, 8484), (8486, 8486), (8488, 8488)],
   [(8490, 8493), (8495, 8500), (8505, 8505), (8508, 8511), (8517, 8521), (8526, 8526),
    (8544, 8575), (8579, 8580), (9398, 9449), (11264, 11387), (11390, 11492), (11499, 11502),
    (11506, 11507), (11520, 11557), (11559, 11559), (11565, 11565), (42560, 42605),
    (42624, 42651), (42786, 42863), (42865, 42887), (42891, 42894), (42896, 42954),
    (42960, 42961), (42963, 42963), (42965, 42969), (42997, 42998), (43002, 43002),
    (43824, 43866), (43872, 43880), (43888, 43967), (64256, 64262), (64275, 64279),
    (65313, 65338), (65345, 65370), (66560, 66639), (66736, 66771), (66776, 66811),
    (66928, 66938), (66940, 66954), (66956, 66962), (66964, 66965), (66967, 66977),
    (66979, 66993), (66995, 67001), (67003, 67004), (68736, 68786), (68800, 68850),
    (71840, 71903), (93760, 93823), (119808, 119892), (119894, 119964), (119966, 119967),
    (119970, 119970), (119973, 119974), (119977, 119980), (119982, 119993), (119995, 119995),
    (119997, 120003), (120005, 120069), (120071, 120074), (120077, 120084), (120086, 120092),
    (120094, 120121), (120123, 120126)],
   [(120128, 120132), (120134, 120134), (120138, 120144), (120146, 120485), (120488, 120512),
    (120514, 120538), (120540, 120570), (120572, 120596), (120598, 120628), (120630, 120654),
    (120656, 120686), (120688, 120712), (120714, 120744), (120746, 120770), (120772, 120779),
    (122624, 122633), (122635, 122654), (125184, 125251), (127280, 127305), (127312, 127337),
    (127344, 127369)]]

/-- A code point in one of the ranges. -/
def inRanges (ranges : List (List (Nat × Nat))) (c : Char) : Bool :=
  ranges.any (fun block => block.any (fun r => decide (r.1 ≤ c.toNat ∧ c.toNat ≤ r.2)))

/-- One character in lower case: an ASCII capital becomes its small letter, `İ`
(U+0130) becomes `i` with a combining dot, the one unconditional special
mapping, and any other character takes its simple mapping, if it has one. -/
def lowerChar (c : Char) : List Char :=
  if c.toNat < 128 then [c.toLower]
  else if c.toNat = 304 then [Char.ofNat 105, Char.ofNat 775]
  else
    match lowerCaseRows.find? (fun r =>
        decide (r.1 ≤ c.toNat ∧ c.toNat ≤ r.2.1 ∧ (c.toNat - r.1) % r.2.2.1 = 0)) with
    | some r => [Char.ofNat (r.2.2.2 + (c.toNat - r.1))]
    | none => [c]

/-- Whether a cased letter comes first in the text once the case-ignorable
characters are skipped. -/
def reachesCased : List Char → Bool
  | [] => false
  | c :: rest =>
    if inRanges caseIgnorableRanges c = true then reachesCased rest else inRanges casedRanges c

/-- A text in lower case, character by character; `before` holds the characters
already passed, the nearest first.  The capital sigma (U+03A3) becomes the final
small sigma (U+03C2) when a cased letter precedes it and none follows it,
case-ignorable characters aside. -/
def lowerChars (before : List Char) : List Char → List Char
  | [] => []
  | c :: rest =>
    (if c.toNat = 931 ∧ reachesCased before = true ∧ reachesCased rest = false then
        [Char.ofNat 962]
      else lowerChar c) ++ lowerChars (c :: before) rest

/-- The method `String.prototype.toLowerCase`: the locale-insensitive lower-case
mapping of the Unicode Character Database, over the characters of the text. -/
def toLowerCase (x : String) : String :=
  String.mk (lowerChars [] x.data)

/-- Modelled from the spec: the call `prisma.companySubscription.create`, whose
table is declared in the database schema, which is not among the sources.  The
spec describes the storage of subscriptions as accepting a second row for a
triple (section 4.2: the duplicate check "is not re-verified here - potential
double-subscription"), so the call appends the row without a uniqueness check. -/
def Store.createCompanySubscription (s : Store) (companyId jobSeekerId : Nat)
    (profileType : String) : Store × CompanySubscription :=
  let c : CompanySubscription :=
    { id := s.nextId, companyId := companyId, jobSeekerId := jobSeekerId,
      profileType := profileType }
  ({ s with companySubscriptions := s.companySubscriptions ++ [c], nextId := s.nextId + 1 }, c)

/-- The call `prisma.invitation.update` with `where: { id }` and
`data: { status }`. -/
def Store.updateInvitationStatus (s : Store) (invitationId : Nat) (status : String) : Store :=
  { s with
    invitations :=
      s.invitations.map (fun i => if i.id = invitationId then { i with status := status } else i) }

/-- The handler `subscribeToCompany`: `POST /companies/:companyId/subscribe`. -/
def subscribeToCompany (s : Store) (user : Option Nat) (companyId : Nat)
    (profileType : Option String) : Store × Response :=
  match user with
  | none => (s, { status := 401, success := false, message := "Not authenticated" })
  | some userId =>
    match profileType with
    | none =>
      (s, { status := 400, success := false,
            message := "Valid profile type is required (EMPLOYABLE or VIRTUAL_INTERN)" })
    | some profileType =>
      if profileType = "" ∨ ¬ profileType ∈ ["EMPLOYABLE", "VIRTUAL_INTERN"] then
        (s, { status := 400, success := false,
              message := "Valid profile type is required (EMPLOYABLE or VIRTUAL_INTERN)" })
      else
        match s.users.find? (fun u => decide (u.id = companyId ∧ u.userType = "COMPANY")) with
        | none => (s, { status := 404, success := false, message := "Company not found" })
        | some _ =>
          match s.jobSeekerProfiles.find? (fun p => decide (p.userId = userId)) with
          | none =>
            (s, { status := 400, success := false,
                  message := "Please create your job seeker profile first" })
          | some _ =>
            match s.companySubscriptions.find? (fun c =>
                decide (c.companyId = companyId ∧ c.jobSeekerId = userId ∧
                  c.profileType = profileType)) with
            | some _ =>
              (s, { status := 400, success := false,
                    message := "You are already subscribed to this company as " ++ profileType })
            | none =>
              let created := s.createCompanySubscription companyId userId profileType
              (created.1.createNotification companyId "New Subscription"
                  ("New " ++ toLowerCase profileType ++ " subscription received")
                  "SUBSCRIPTION" created.2.id,
                { status := 201, success := true,
                  message := "Successfully subscribed as " ++ profileType })

/-- The handler `respondToInvitation`: `POST /invitations/:invitationId/respond`. -/
def respondToInvitation (s : Store) (user : Option Nat) (invitationId : Nat)
    (action : Option String) : Store × Response :=
  match user with
  | none => (s, { status := 401, success := false, message := "Not authenticated" })
  | some userId =>
    if ¬ (action = some "accept" ∨ action = some "decline") then
      (s, { status := 400, success := false,
            message := "Action must be \x27accept\x27 or \x27decline\x27" })
    else
      match s.invitations.find? (fun i =>
          decide (i.id = invitationId ∧ i.jobSeekerId = userId ∧ i.status = "PENDING")) with
      | none =>
        (s, { status := 404, success := false,
              message := "Invitation not found or already responded" })
      | some invitation =>
        if action = some "accept" then
          let created :=
            s.createCompanySubscription invitation.companyId userId invitation.profileType
          (created.1.updateInvitationStatus invitationId "ACCEPTED",
            { status := 200, success := true,
              message := "Invitation accepted. You are now subscribed as " ++
                invitation.profileType ++ "." })
        else
          (s.updateInvitationStatus invitationId "DECLINED",
            { status := 200, success := true, message := "Invitation declined." })

/-! ## `inviteJobseeker` and `updateApplicantStatus` (company.controller.mjs) -/

/-- Modelled from the spec: the status of a created invitation.  The handler
`inviteJobseeker` passes no `status` to `prisma.invitation.create`, so the column
takes the default of the database schema, which is not among the sources.  The
spec says that the handler "creates a Pending invitation". -/
def invitationDefaultStatus : String := "PENDING"

/-- The call `prisma.invitation.create`. -/
def Store.createInvitation (s : Store) (companyId jobSeekerId : Nat) (profileType : String)
    (message : Option String) (expiresAt : Nat) : Store × Invitation :=
  let i : Invitation :=
    { id := s.nextId, companyId := companyId, jobSeekerId := jobSeekerId,
      profileType := profileType, message := message, status := invitationDefaultStatus,
      expiresAt := expiresAt }
  ({ s with invitations := s.invitations ++ [i], nextId := s.nextId + 1 }, i)

/-- A nullable text column inside a template literal. -/
def renderNullable : Option String → String
  | some x => x
  | none => "null"

/-- The handler `inviteJobseeker`: `POST /jobseekers/:jobseekerId/invite`.
The created row is read back with its `company` relation, the `user` row of the
session user; without such a row the foreign key rejects the insert and the
handler answers 500. -/
def inviteJobseeker (now : Nat) (s : Store) (user : Option Nat) (jobseekerId : Nat)
    (profileType : Option String) (message : Option String) : Store × Response :=
  match user with
  | none => (s, { status := 401, success := false, message := "Not authenticated" })
  | some userId =>
    match profileType with
    | none => (s, { status := 400, success := false, message := "Valid profile type is required" })
    | some profileType =>
      if profileType = "" ∨ ¬ profileType ∈ ["EMPLOYABLE", "VIRTUAL_INTERN"] then
        (s, { status := 400, success := false, message := "Valid profile type is required" })
      else
        match s.users.find? (fun u => decide (u.id = jobseekerId ∧ u.userType = "JOB_SEEKER")) with
        | none => (s, { status := 404, success := false, message := "Jobseeker not found" })
        | some _ =>
          match s.invitations.find? (fun i =>
              decide (i.companyId = userId ∧ i.jobSeekerId = jobseekerId ∧
                i.profileType = profileType ∧ i.status = "PENDING")) with
          | some _ =>
            (s, { status := 400, success := false,
                  message := "Invitation already sent and pending" })
          | none =>
            match s.users.find? (fun u => decide (u.id = userId)) with
            | none =>
              (s, { status := 500, success := false, message := "Failed to send invitation" })
            | some company =>
              let created :=
                s.createInvitation userId jobseekerId profileType message
                  (now + 30 * 24 * 60 * 60 * 1000)
              (created.1.createNotification jobseekerId "New Company Invitation"
                  (renderNullable company.companyName ++ " invited you to subscribe as " ++
                    profileType)
                  "INVITATION" created.2.id,
                { status := 201, success := true, message := "Invitation sent successfully" })

/-- The relation `jobPost` of an application: the job post its foreign key
`jobPostId` names. -/
def Store.jobPostOf (s : Store) (a : JobApplication) : Option JobPost :=
  s.jobPosts.find? (fun j => decide (j.id = a.jobPostId))

/-- The relation filter `jobPost: { companyId }` of a `jobApplication` query. -/
def Store.ownedBy (s : Store) (companyId : Nat) (a : JobApplication) : Bool :=
  match s.jobPostOf a with
  | some j => decide (j.companyId = companyId)
  | none => false

/-- The call `prisma.jobApplication.update` with `where: { id }` and
`data: { status }`. -/
def Store.updateApplicationStatus (s : Store) (applicationId : Nat) (status : String) : Store :=
  { s with
    jobApplications :=
      s.jobApplications.map (fun a =>
        if a.id = applicationId then { a with status := status } else a) }

/-- The handler `updateApplicantStatus`: `PUT /applicants/:applicantId/status`. -/
def updateApplicantStatus (s : Store) (user : Option Nat) (applicantId : Nat)
    (status : Option String) : Store × Response :=
  match user with
  | none => (s, { status := 401, success := false, message := "Not authenticated" })
  | some userId =>
    match status with
    | none => (s, { status := 400, success := false, message := "Invalid status" })
    | some status =>
      if ¬ status ∈ ["VIEWED", "SHORTLISTED", "INTERVIEW_SCHEDULED", "REJECTED", "ACCEPTED"] then
        (s, { status := 400, success := false, message := "Invalid status" })
      else
        match s.jobApplications.find? (fun a =>
            decide (a.id = applicantId) && s.ownedBy userId a) with
        | none => (s, { status := 404, success := false, message := "Application not found" })
        | some application =>
          match s.jobPostOf application with
          | none =>
            (s, { status := 500, success := false,
                  message := "Failed to update applicant status" })
          | some jobPost =>
            let s1 := s.updateApplicationStatus applicantId status
            let s2 :=
              if status = "ACCEPTED" ∧ jobPost.hasChatArea = true then
                match s1.chatAreas.find? (fun c => decide (c.jobPostId = application.jobPostId)) with
                | some chatArea => s1.upsertChatParticipant chatArea.id application.jobSeekerId
                | none => s1
              else s1
            (s2.createNotification application.jobSeekerId "Application Status Updated"
                ("Your application for " ++ jobPost.title ++ " has been " ++ toLowerCase status)
                "APPLICATION_STATUS" application.id,
              { status := 200, success := true,
                message := "Application status updated successfully" })

/-! ## `createJobPost` (auth.controller.mjs) -/

/-- The value of `new Date(x)` for a truthy request field `x`: a time in
milliseconds since the epoch, or the Invalid Date when `x` does not denote a
date. -/
inductive JsDate where
  | time (ms : Nat)
  | invalid
deriving DecidableEq, Repr

/-- Body of a `createJobPost` request (the fields of the columns the embedding
keeps).  A field is `none` when the body does not carry it;
`applicationDeadline` is `none` when the field is falsy and otherwise the value
of `new Date(applicationDeadline)`. -/
structure JobPostBody where
  title : Option String
  description : Option String
  industry : Option String
  jobType : Option String
  applicationDeadline : Option JsDate
  hasChatArea : Option Bool
deriving DecidableEq, Repr

/-- The test `!x` on a text field of a body: absent and empty texts are falsy. -/
def falsy : Option String → Bool
  | some x => decide (x = "")
  | none => true

/-- Modelled from the spec: the value of `isActive` of a created job post.  The
handler `createJobPost` passes no `isActive` to `prisma.jobPost.create`, so the
column takes the default of the database schema, which is not among the
sources.  In the spec a job post that a company has just posted accepts
applications, which `applyToJob` grants to active posts only. -/
def jobPostDefaultIsActive : Bool := true

/-- The call `prisma.jobPost.create`. -/
def Store.createJobPost (s : Store) (companyId : Nat) (title description industry jobType : String)
    (applicationDeadline : Nat) (hasChatArea : Bool) : Store × JobPost :=
  let j : JobPost :=
    { id := s.nextId, companyId := companyId, title := title, description := description,
      industry := industry, jobType := jobType, isActive := jobPostDefaultIsActive,
      applicationDeadline := applicationDeadline, hasChatArea := hasChatArea }
  ({ s with jobPosts := s.jobPosts ++ [j], nextId := s.nextId + 1 }, j)

/-- The handler `createJobPost`: `POST` of a job post by a company.  The
comparison `new Date(applicationDeadline) <= new Date()` is false for the
Invalid Date, which passes the check; the storage client then rejects the
Invalid Date in `data`, the call throws and the handler answers 500. -/
def createJobPost (now : Nat) (s : Store) (user : Option Nat) (body : JobPostBody) :
    Store × Response :=
  match user with
  | none => (s, { status := 401, success := false, message := "Not authenticated" })
  | some userId =>
    match s.users.find? (fun u => decide (u.id = userId ∧ u.userType = "COMPANY")) with
    | none => (s, { status := 403, success := false, message := "Only companies can post jobs" })
    | some _ =>
      if falsy body.title = true ∨ falsy body.description = true ∨ falsy body.industry = true ∨
          falsy body.jobType = true ∨ body.applicationDeadline = none then
        (s, { status := 400, success := false,
              message := "Title, description, industry, job type, and deadline are required" })
      else
        match body.applicationDeadline with
        | some (.time t) =>
          if t ≤ now then
            (s, { status := 400, success := false,
                  message := "Application deadline must be in the future" })
          else
            ((s.createJobPost userId (body.title.getD "") (body.description.getD "")
                (body.industry.getD "") (body.jobType.getD "") t
                (body.hasChatArea.getD false)).1,
              { status := 201, success := true, message := "Job post created successfully" })
        | _ =>
          (s, { status := 500, success := false, message := "Job post creation failed" })

/-! ## `updateJobPost` and `deleteJobPost` (company.controller.mjs) -/

/-- Body of an `updateJobPost` request: the partial field set `updateData`, over
the columns the embedding keeps other than the primary key.  A field is `none`
when the body does not name it; `applicationDeadline` is the date the storage
client receives, `invalid` when the body names the field with a value that is
not a date. -/
structure JobPostUpdate where
  title : Option String
  description : Option String
  industry : Option String
  jobType : Option String
  applicationDeadline : Option JsDate
  hasChatArea : Option Bool
  isActive : Option Bool
  companyId : Option Nat
deriving DecidableEq, Repr

/-- A job post after the field merge of `prisma.jobPost.update`: a named field
takes the value of `data`, the others keep theirs. -/
def JobPost.merge (j : JobPost) (data : JobPostUpdate) (deadline : Option Nat) : JobPost :=
  { j with
    title := data.title.getD j.title,
    description := data.description.getD j.description,
    industry := data.industry.getD j.industry,
    jobType := data.jobType.getD j.jobType,
    applicationDeadline := deadline.getD j.applicationDeadline,
    hasChatArea := data.hasChatArea.getD j.hasChatArea,
    isActive := data.isActive.getD j.isActive,
    companyId := data.companyId.getD j.companyId }

/-- The deadline that `data` sets, if it names one that is a date. -/
def JobPostUpdate.deadline (data : JobPostUpdate) : Option Nat :=
  match data.applicationDeadline with
  | some (.time t) => some t
  | _ => none

/-- The updates that `prisma.jobPost.update` rejects by throwing: a deadline in
`data` that is not a date, and a company in `data` that has no `user` row
(foreign key). -/
def Store.rejectsJobPostUpdate (s : Store) (data : JobPostUpdate) : Bool :=
  decide (data.applicationDeadline = some .invalid) ||
    (match data.companyId with
      | some c => !(s.users.any (fun u => decide (u.id = c)))
      | none => false)

/-- The call `prisma.jobPost.update` with `where: { id }` and the body as
`data`: `none` when the call throws. -/
def Store.updateJobPost (s : Store) (jobId : Nat) (data : JobPostUpdate) : Option Store :=
  if s.rejectsJobPostUpdate data = true then none
  else
    some { s with
      jobPosts := s.jobPosts.map (fun j => if j.id = jobId then j.merge data data.deadline else j) }

/-- The handler `updateJobPost`: `PUT /jobs/:jobId`. -/
def updateJobPost (s : Store) (user : Option Nat) (jobId : Nat) (updateData : JobPostUpdate) :
    Store × Response :=
  match user with
  | none => (s, { status := 401, success := false, message := "Not authenticated" })
  | some userId =>
    match s.jobPosts.find? (fun j => decide (j.id = jobId ∧ j.companyId = userId)) with
    | none => (s, { status := 404, success := false, message := "Job post not found" })
    | some _ =>
      match s.updateJobPost jobId updateData with
      | none => (s, { status := 500, success := false, message := "Failed to update job post" })
      | some s1 =>
        (s1, { status := 200, success := true, message := "Job post updated successfully" })

/-- The call `prisma.jobPost.update` with `where: { id }` and
`data: { isActive: false }`. -/
def Store.deactivateJobPost (s : Store) (jobId : Nat) : Store :=
  { s with
    jobPosts := s.jobPosts.map (fun j => if j.id = jobId then { j with isActive := false } else j) }

/-- Modelled from the spec: the call `prisma.jobPost.delete` with
`where: { id }`.  What the delete does to rows that refer to the job post is
set by the referential actions of the database schema, which is not among the
sources.  The spec says that deleting a job post without applications "removes
it entirely", so the call takes the rows of the job post out of its table and
leaves the other tables as they are. -/
def Store.deleteJobPost (s : Store) (jobId : Nat) : Store :=
  { s with jobPosts := s.jobPosts.filter (fun j => decide (j.id ≠ jobId)) }

/-- The handler `deleteJobPost`: `DELETE /jobs/:jobId`. -/
def deleteJobPost (s : Store) (user : Option Nat) (jobId : Nat) : Store × Response :=
  match user with
  | none => (s, { status := 401, success := false, message := "Not authenticated" })
  | some userId =>
    match s.jobPosts.find? (fun j => decide (j.id = jobId ∧ j.companyId = userId)) with
    | none => (s, { status := 404, success := false, message := "Job post not found" })
    | some _ =>
      let applicationCount :=
        (s.jobApplications.filter (fun a => decide (a.jobPostId = jobId))).length
      if applicationCount > 0 then
        (s.deactivateJobPost jobId,
          { status := 200, success := true,
            message := "Job post deactivated (has existing applications)" })
      else
        (s.deleteJobPost jobId,
          { status := 200, success := true, message := "Job post deleted successfully" })

/-! ## `getChatMessages` and `sendChatMessage` (company.controller.mjs) -/

/-- The white space and line terminator characters that `String.prototype.trim`
strips. -/
def isJsWhitespace (c : Char) : Bool :=
  c.toNat ∈ [9, 10, 11, 12, 13, 32, 160, 5760, 8232, 8233, 8239, 8287, 12288, 65279] ||
    (8192 ≤ c.toNat && c.toNat ≤ 8202)

/-- The method `String.prototype.trim`. -/
def jsTrim (x : String) : String :=
  String.mk ((x.data.dropWhile isJsWhitespace).reverse.dropWhile isJsWhitespace).reverse

/-- The handler `getChatMessages`: `GET /chats/:chatAreaId/messages`, with the
messages of the answer (in the order of their creation).  The envelope of the
success answer carries no message text. -/
def getChatMessages (s : Store) (user : Option Nat) (chatAreaId : Nat) :
    Response × List ChatMessage :=
  match user with
  | none => ({ status := 401, success := false, message := "Not authenticated" }, [])
  | some userId =>
    match s.chatParticipants.find? (fun p =>
        decide (p.chatAreaId = chatAreaId ∧ p.userId = userId)) with
    | none => ({ status := 403, success := false, message := "Access denied to chat area" }, [])
    | some _ =>
      ({ status := 200, success := true, message := "" },
        s.chatMessages.filter (fun m => decide (m.chatAreaId = chatAreaId)))

/-- The handler `sendChatMessage`: `POST /chats/:chatAreaId/messages`. -/
def sendChatMessage (s : Store) (user : Option Nat) (chatAreaId : Nat)
    (content : Option String) : Store × Response :=
  match user with
  | none => (s, { status := 401, success := false, message := "Not authenticated" })
  | some userId =>
    if falsy content = true ∨ (jsTrim (content.getD "")).length = 0 then
      (s, { status := 400, success := false, message := "Message content is required" })
    else
      match s.chatParticipants.find? (fun p =>
          decide (p.chatAreaId = chatAreaId ∧ p.userId = userId)) with
      | none =>
        (s, { status := 403, success := false, message := "Access denied to chat area" })
      | some _ =>
        ({ s with
            chatMessages :=
              s.chatMessages ++
                [{ id := s.nextId, chatAreaId := chatAreaId, userId := userId,
                   content := jsTrim (content.getD "") }],
            nextId := s.nextId + 1 },
          { status := 201, success := true, message := "Message sent successfully" })

/-! ## Invariants of the data model and runs of requests -/

/-- The invariant "at most one application per (job post, job seeker) pair". -/
def Store.oneApplicationPerPair (s : Store) : Prop :=
  s.jobApplications.Pairwise (fun a b => ¬ (a.jobPostId = b.jobPostId ∧ a.jobSeekerId = b.jobSeekerId))

/-- The invariant "at most one subscription per (company, job seeker, profile
type) triple". -/
def Store.oneSubscriptionPerTriple (s : Store) : Prop :=
  s.companySubscriptions.Pairwise (fun a b =>
    ¬ (a.companyId = b.companyId ∧ a.jobSeekerId = b.jobSeekerId ∧ a.profileType = b.profileType))

/-- The invariant "at most one pending invitation per (company, job seeker,
profile type) triple". -/
def Store.onePendingPerTriple (s : Store) : Prop :=
  s.invitations.Pairwise (fun a b =>
    ¬ (a.status = "PENDING" ∧ b.status = "PENDING" ∧ a.companyId = b.companyId ∧
      a.jobSeekerId = b.jobSeekerId ∧ a.profileType = b.profileType))

/-- The invitation ids of the store were issued by its identifier counter. -/
def Store.invitationIdsIssued (s : Store) : Prop :=
  ∀ i ∈ s.invitations, i.id < s.nextId

instance (s : Store) : Decidable s.invitationIdsIssued := by
  unfold Store.invitationIdsIssued; infer_instance

instance (s : Store) : Decidable s.oneApplicationPerPair := by
  unfold Store.oneApplicationPerPair; infer_instance

instance (s : Store) : Decidable s.oneSubscriptionPerTriple := by
  unfold Store.oneSubscriptionPerTriple; infer_instance

instance (s : Store) : Decidable s.onePendingPerTriple := by
  unfold Store.onePendingPerTriple; infer_instance

/-- A request of the subscription and invitation workflow, with the arguments of
its handler. -/
inductive InvitationRequest where
  | subscribe (user : Option Nat) (companyId : Nat) (profileType : Option String)
  | invite (now : Nat) (user : Option Nat) (jobseekerId : Nat) (profileType : Option String)
      (message : Option String)
  | respond (user : Option Nat) (invitationId : Nat) (action : Option String)
deriving DecidableEq, Repr

/-- The store after a request of the subscription and invitation workflow. -/
def InvitationRequest.run (s : Store) : InvitationRequest → Store
  | .subscribe user companyId profileType => (subscribeToCompany s user companyId profileType).1
  | .invite now user jobseekerId profileType message =>
    (inviteJobseeker now s user jobseekerId profileType message).1
  | .respond user invitationId action => (respondToInvitation s user invitationId action).1

/-- The store after a sequence of requests, served one after the other. -/
def runRequests (s : Store) (requests : List InvitationRequest) : Store :=
  requests.foldl InvitationRequest.run s

/-! ## Example stores -/

/-- A store with a job seeker with a profile (user 1), a job seeker without a
profile (user 4), two companies (users 2 and 5) and an open job post of company
2 (job 10, deadline 1000, with a chat area). -/
def demoStore : Store :=
  { users :=
      [{ id := 1, userType := "JOB_SEEKER", companyName := none,
         email := "amina@example.com", phone := "0712345678" },
       { id := 2, userType := "COMPANY", companyName := some "Acme",
         email := "jobs@acme.example", phone := "0712000002" },
       { id := 4, userType := "JOB_SEEKER", companyName := none,
         email := "brian@example.com", phone := "0712000004" },
       { id := 5, userType := "COMPANY", companyName := some "Globex",
         email := "hr@globex.example", phone := "0712000005" }],
    jobSeekerProfiles :=
      [{ id := 3, userId := 1, profileType := "EMPLOYABLE", visibility := "PUBLIC" }],
    jobPosts :=
      [{ id := 10, companyId := 2, title := "Engineer", description := "Builds things",
         industry := "Software", jobType := "FULL_TIME", isActive := true,
         applicationDeadline := 1000, hasChatArea := true }],
    resumes := [],
    jobApplications := [],
    chatAreas := [{ id := 20, jobPostId := 10, companyId := 2 }],
    chatParticipants := [],
    chatMessages := [],
    notifications := [],
    companySubscriptions := [],
    invitations := [],
    nextId := 100 }

/-- An apply request without a resume and without a cover letter. -/
def plainApply : ApplyBody :=
  { resumeId := none, coverLetter := none, customResume := none }

/-- An apply request naming resume 99, which no user owns in `demoStore`. -/
def foreignResumeApply : ApplyBody :=
  { resumeId := some 99, coverLetter := none, customResume := none }

/-- The store `demoStore` after job seeker 1 applied to job post 10 at time 500:
it holds application 100, of a job post owned by company 2. -/
def appliedStore : Store :=
  (applyToJob 500 demoStore (some 1) 10 plainApply).1

/-- Job seeker 1 subscribes to company 2 as `EMPLOYABLE`, company 2 then invites
job seeker 1 as `EMPLOYABLE` (invitation 102), and the job seeker accepts. -/
def subscribeThenAccept : List InvitationRequest :=
  [.subscribe (some 1) 2 (some "EMPLOYABLE"),
   .invite 500 (some 2) 1 (some "EMPLOYABLE") none,
   .respond (some 1) 102 (some "accept")]

/-- The store `demoStore` after company 2 invited job seeker 1 as `EMPLOYABLE`
at time 500: it holds the pending invitation 100. -/
def invitedStore : Store :=
  (inviteJobseeker 500 demoStore (some 2) 1 (some "EMPLOYABLE") none).1

/-- The invitation that `invitedStore` holds. -/
def demoInvitation : Invitation :=
  { id := 100, companyId := 2, jobSeekerId := 1, profileType := "EMPLOYABLE", message := none,
    status := "PENDING", expiresAt := 2592000500 }

/-- Company 2 invites job seeker 1 as `EMPLOYABLE` once more, the job seeker
declines invitation 100, and the company invites again. -/
def reinviteRun : List InvitationRequest :=
  [.invite 600 (some 2) 1 (some "EMPLOYABLE") none,
   .respond (some 1) 100 (some "decline"),
   .invite 700 (some 2) 1 (some "EMPLOYABLE") none]

/-- The block "Add to chat area if accepted and job has chat" of
`updateApplicantStatus`, on the store after the status update. -/
def acceptedEnrolStep (s : Store) (status : String) (jobPost : JobPost)
    (application : JobApplication) : Store :=
  if status = "ACCEPTED" ∧ jobPost.hasChatArea = true then
    match s.chatAreas.find? (fun c => decide (c.jobPostId = application.jobPostId)) with
    | some chatArea => s.upsertChatParticipant chatArea.id application.jobSeekerId
    | none => s
  else s

/-- The store after a sequence of `updateApplicantStatus` calls, each given by
its session user, application id and status. -/
def runStatusUpdates (s : Store) (calls : List (Option Nat × Nat × Option String)) : Store :=
  calls.foldl (fun st c => (updateApplicantStatus st c.1 c.2.1 c.2.2).1) s

/-- The store `appliedStore` after company 2 set application 100 to `REJECTED`. -/
def rejectedStore : Store :=
  (updateApplicantStatus appliedStore (some 2) 100 (some "REJECTED")).1

/-- The job post of `demoStore`. -/
def demoJobPost : JobPost :=
  { id := 10, companyId := 2, title := "Engineer", description := "Builds things",
    industry := "Software", jobType := "FULL_TIME", isActive := true,
    applicationDeadline := 1000, hasChatArea := true }

/-- The application that `appliedStore` holds. -/
def demoApplication : JobApplication :=
  { id := 100, jobPostId := 10, jobSeekerId := 1, resumeId := none, coverLetter := none,
    status := "NOT_VIEWED" }

/-- The (chat area, user) pairs of the participant rows, in table order. -/
def Store.participantKeys (s : Store) : List (Nat × Nat) :=
  s.chatParticipants.map (fun p => (p.chatAreaId, p.userId))

/-- The compound unique key `chatAreaId_userId` of the participant table: no
pair has two rows. -/
def Store.uniqueParticipants (s : Store) : Prop :=
  s.participantKeys.Nodup

instance (s : Store) : Decidable s.uniqueParticipants := by
  unfold Store.uniqueParticipants; infer_instance

/-- The (job post, job seeker) pairs of the application rows, in table order. -/
def Store.applicationPairs (s : Store) : List (Nat × Nat) :=
  s.jobApplications.map (fun a => (a.jobPostId, a.jobSeekerId))

/-- Every participant row belongs to a chat area of a chat-enabled job post to
which the user of the row has applied. -/
def Store.participantsApplied (s : Store) : Prop :=
  ∀ p ∈ s.chatParticipants, ∃ c ∈ s.chatAreas, c.id = p.chatAreaId ∧
    (∃ j ∈ s.jobPosts, j.id = c.jobPostId ∧ j.hasChatArea = true) ∧
    (c.jobPostId, p.userId) ∈ s.applicationPairs

/-- Every job seeker who has applied to a chat-enabled job post has a participant
row in the chat areas of the job post. -/
def Store.applicantsEnrolled (s : Store) : Prop :=
  ∀ a ∈ s.jobApplications, ∀ j ∈ s.jobPosts, j.id = a.jobPostId → j.hasChatArea = true →
    ∀ c ∈ s.chatAreas, c.jobPostId = a.jobPostId → (c.id, a.jobSeekerId) ∈ s.participantKeys

/-- The primary keys of the job post and chat area tables and the one-to-one
relation between chat areas and job posts: no two job posts share an id, no two
chat areas share a job post, and no two chat areas share an id. -/
def Store.chatKeysUnique (s : Store) : Prop :=
  (∀ j ∈ s.jobPosts, ∀ k ∈ s.jobPosts, j.id = k.id → j = k) ∧
    (∀ c ∈ s.chatAreas, ∀ d ∈ s.chatAreas, c.jobPostId = d.jobPostId → c = d) ∧
    ∀ c ∈ s.chatAreas, ∀ d ∈ s.chatAreas, c.id = d.id → c = d

instance (s : Store) : Decidable s.participantsApplied := by
  unfold Store.participantsApplied; infer_instance

instance (s : Store) : Decidable s.applicantsEnrolled := by
  unfold Store.applicantsEnrolled; infer_instance

instance (s : Store) : Decidable s.chatKeysUnique := by
  unfold Store.chatKeysUnique; infer_instance

/-- A request of the application workflow, with the arguments of its handler. -/
inductive ApplicationRequest where
  | apply (now : Nat) (user : Option Nat) (jobId : Nat) (body : ApplyBody)
  | updateStatus (user : Option Nat) (applicantId : Nat) (status : Option String)
deriving DecidableEq, Repr

/-- The store after a request of the application workflow. -/
def ApplicationRequest.run (s : Store) : ApplicationRequest → Store
  | .apply now user jobId body => (applyToJob now s user jobId body).1
  | .updateStatus user applicantId status => (updateApplicantStatus s user applicantId status).1

/-- The store after a sequence of requests of the application workflow. -/
def runApplications (s : Store) (requests : List ApplicationRequest) : Store :=
  requests.foldl ApplicationRequest.run s

/-- The chat area of `demoStore`, owned by company 2. -/
def demoChatArea : ChatArea :=
  { id := 20, jobPostId := 10, companyId := 2 }

/-- A `createJobPost` body with every required field and a deadline that is not a
date (for example the text "next friday"). -/
def undatedJobBody : JobPostBody :=
  { title := some "Analyst", description := some "Reads reports", industry := some "Finance",
    jobType := some "PART_TIME", applicationDeadline := some .invalid, hasChatArea := none }

/-- A `createJobPost` body with every required field and the deadline 2000. -/
def datedJobBody : JobPostBody :=
  { title := some "Analyst", description := some "Reads reports", industry := some "Finance",
    jobType := some "PART_TIME", applicationDeadline := some (.time 2000), hasChatArea := none }

/-- An `updateJobPost` body that names no field. -/
def emptyUpdate : JobPostUpdate :=
  { title := none, description := none, industry := none, jobType := none,
    applicationDeadline := none, hasChatArea := none, isActive := none, companyId := none }

/-- The store `appliedStore` after company 2 deleted its job post 10, which has an
application: the job post is kept, inactive. -/
def deactivatedStore : Store :=
  (deleteJobPost appliedStore (some 2) 10).1

/-- The store `demoStore` with a participant row of company 2 in its chat area
20. -/
def ownerEnrolledStore : Store :=
  { demoStore with chatParticipants := [{ id := 30, chatAreaId := 20, userId := 2 }] }

/-- The job post ids of the store were issued by its identifier counter. -/
def Store.jobPostIdsIssued (s : Store) : Prop :=
  ∀ j ∈ s.jobPosts, j.id < s.nextId

instance (s : Store) : Decidable s.jobPostIdsIssued := by
  unfold Store.jobPostIdsIssued; infer_instance

/-- A request to one of the handlers that write the store, with the arguments of
the handler. -/
inductive ApiRequest where
  | apply (now : Nat) (user : Option Nat) (jobId : Nat) (body : ApplyBody)
  | subscribe (user : Option Nat) (companyId : Nat) (profileType : Option String)
  | invite (now : Nat) (user : Option Nat) (jobseekerId : Nat) (profileType : Option String)
      (message : Option String)
  | respond (user : Option Nat) (invitationId : Nat) (action : Option String)
  | updateStatus (user : Option Nat) (applicantId : Nat) (status : Option String)
  | createJob (now : Nat) (user : Option Nat) (body : JobPostBody)
  | updateJob (user : Option Nat) (jobId : Nat) (updateData : JobPostUpdate)
  | deleteJob (user : Option Nat) (jobId : Nat)
  | sendMessage (user : Option Nat) (chatAreaId : Nat) (content : Option String)
deriving DecidableEq, Repr

/-- The store after a request. -/
def ApiRequest.run (s : Store) : ApiRequest → Store
  | .apply now user jobId body => (applyToJob now s user jobId body).1
  | .subscribe user companyId profileType => (subscribeToCompany s user companyId profileType).1
  | .invite now user jobseekerId profileType message =>
    (inviteJobseeker now s user jobseekerId profileType message).1
  | .respond user invitationId action => (respondToInvitation s user invitationId action).1
  | .updateStatus user applicantId status => (updateApplicantStatus s user applicantId status).1
  | .createJob now user body => (createJobPost now s user body).1
  | .updateJob user jobId updateData => (updateJobPost s user jobId updateData).1
  | .deleteJob user jobId => (deleteJobPost s user jobId).1
  | .sendMessage user chatAreaId content => (sendChatMessage s user chatAreaId content).1

/-- The store after a sequence of requests, served one after the other. -/
def runApi (s : Store) (requests : List ApiRequest) : Store :=
  requests.foldl ApiRequest.run s

/-- The requests whose body sets the active flag of a job post to true: an
`updateJobPost` that names `isActive` with the value true. -/
def ApiRequest.setsActive : ApiRequest → Bool
  | .updateJob _ _ updateData => decide (updateData.isActive = some true)
  | _ => false

/-- Company 2 sets `isActive` of its job post 10 to true. -/
def reactivateRun : List ApiRequest :=
  [.updateJob (some 2) 10 { emptyUpdate with isActive := some true }]

/-- Company 2 renames its job post 10, posts another job, deletes job post 10 once
more, and job seeker 4 tries to apply to it: no request names `isActive`. -/
def quietRun : List ApiRequest :=
  [.updateJob (some 2) 10 { emptyUpdate with title := some "Senior Engineer" },
   .createJob 500 (some 2) datedJobBody,
   .deleteJob (some 2) 10,
   .apply 600 (some 4) 10 plainApply]

/-! ## Validation of a registration (auth.controller.mjs) -/

/-- A regular expression without anchors and without unbounded repetition, which
is what the patterns of the registration handlers are made of: the empty
pattern, a character class, `a|b`, `ab`, `a?` and `a{n}`. -/
inductive Regex where
  | eps
  | chars (p : Char → Bool)
  | alt (a b : Regex)
  | seq (a b : Regex)
  | opt (a : Regex)
  | times (n : Nat) (a : Regex)

/-- Backtracking matcher with a continuation, as the language definition gives
it: `r.matchFrom cs k` holds when `r` matches a front part of `cs` after which the
continuation `k` accepts what is left. -/
def Regex.matchFrom : Regex → List Char → (List Char → Bool) → Bool
  | .eps, cs, k => k cs
  | .chars _, [], _ => false
  | .chars p, c :: cs, k => p c && k cs
  | .alt a b, cs, k => a.matchFrom cs k || b.matchFrom cs k
  | .seq a b, cs, k => a.matchFrom cs (fun rest => b.matchFrom rest k)
  | .opt a, cs, k => a.matchFrom cs k || k cs
  | .times n a, cs, k => (Nat.iterate (fun k1 rest => a.matchFrom rest k1) n k) cs

/-- The pattern of a literal text. -/
def Regex.text (t : String) : Regex :=
  t.data.foldr (fun c r => .seq (.chars (fun x => x == c)) r) .eps

/-- A class of the characters from `lo` to `hi`, such as `a-z`. -/
def Regex.range (lo hi : Char) : Regex :=
  .chars (fun c => decide (lo ≤ c ∧ c ≤ hi))

/-- The class `\d` (without the `u` flag): the decimal digits. -/
def Regex.digit : Regex := Regex.range '0' '9'

/-- The method `test` of a pattern written `/^r$/`: the whole text matches `r`. -/
def Regex.testWhole (r : Regex) (x : String) : Bool :=
  r.matchFrom x.data (fun rest => rest.isEmpty)

/-- The method `test` of a pattern written `/r/`: `r` matches somewhere in the
text. -/
def Regex.test (r : Regex) (x : String) : Bool :=
  x.data.tails.any (fun rest => r.matchFrom rest (fun _ => true))

/-- The pattern between the anchors of `phoneRegex`, `/^(\+?256|0)[17]\d{8}$/`. -/
def phoneRegex : Regex :=
  .seq (.alt (.seq (.opt (Regex.text "+")) (Regex.text "256")) (Regex.text "0"))
    (.seq (.alt (Regex.text "1") (Regex.text "7")) (.times 8 Regex.digit))

/-- The property `length` of a text: the number of its UTF-16 code units, two for
a character outside the basic plane. -/
def jsLength (x : String) : Nat :=
  (x.data.map (fun c => if c.toNat < 65536 then 1 else 2)).sum

/-- The password strength condition of both registration handlers:
`password.length < 8 || !/\d/.test(password) || !/[a-zA-Z]/.test(password)`. -/
def weakPassword (password : String) : Bool :=
  decide (jsLength password < 8) || !(Regex.digit.test password) ||
    !((Regex.alt (Regex.range 'a' 'z') (Regex.range 'A' 'Z')).test password)

/-- The phone numbers of the specification: one of the openings `0`, `256` and
`+256`, then one digit that is 1 or 7, then exactly eight decimal digits, and
nothing else. -/
def UgandanPhoneSpec (x : String) : Prop :=
  ∃ opening ∈ ["0", "256", "+256"], ∃ d ∈ ['1', '7'], ∃ rest : List Char,
    rest.length = 8 ∧ (∀ c ∈ rest, c.isDigit = true) ∧ x.data = opening.data ++ d :: rest

/-- The weak passwords of the specification: fewer than 8 code units, or no
decimal digit, or no ASCII letter. -/
def WeakPasswordSpec (password : String) : Prop :=
  jsLength password < 8 ∨ (∀ c ∈ password.data, c.isDigit = false) ∨
    ∀ c ∈ password.data, c.isAlpha = false

/-! ## `registerJobseeker`, `registerCompany` and `updatePrivacySettings` (auth.controller.mjs) -/

/-- Body of a `registerJobseeker` request.  A text field is `none` when the body
does not carry it; `agreeToTerms` is the truth value of its field. -/
structure JobseekerRegistration where
  firstName : Option String
  lastName : Option String
  email : Option String
  phoneNumber : Option String
  password : Option String
  confirmPassword : Option String
  agreeToTerms : Bool
deriving DecidableEq, Repr

/-- The value of `parseInt(x)` for a truthy request field `x`: an integer, or
`NaN` when `x` does not start with a number. -/
inductive JsInt where
  | value (n : Int)
  | nan
deriving DecidableEq, Repr

/-- Body of a `registerCompany` request (the optional fields `website` and
`linkedin` are left out).  A text field is `none` when the body does not carry
it; `establishmentYear` is `none` when the field is falsy and otherwise the
value of `parseInt(establishmentYear)`; `agreeToTerms` is the truth value of its
field. -/
structure CompanyRegistration where
  companyName : Option String
  email : Option String
  password : Option String
  confirmPassword : Option String
  industry : Option String
  phone : Option String
  address : Option String
  companySize : Option String
  establishmentYear : Option JsInt
  description : Option String
  contactPersonName : Option String
  contactPersonPosition : Option String
  agreeToTerms : Bool
deriving DecidableEq, Repr

/-- Body of an `updatePrivacySettings` request (the JSON column
`privacySettings` is left out). -/
structure PrivacyUpdate where
  firstName : Option String
  lastName : Option String
  phone : Option String
deriving DecidableEq, Repr

/-- Modelled from the spec: whether the column `phone` of the `user` table
carries a unique key.  The key is declared in the database schema, which is not
among the sources (the handlers look a phone up with `findFirst`, which needs no
key).  The data model of the spec lists "email (unique), phone (unique)" and
treats the database as "providing durable, transactional CRUD with
unique-constraint enforcement". -/
def userPhoneUnique : Bool := true

/-- The call `prisma.user.create`: the new row gets the next identifier.  The
column `email` carries a unique key (the handlers look it up with
`findUnique`), and so does `phone` under `userPhoneUnique`: a row that repeats a
stored value makes the call throw, and the result is `none`. -/
def Store.createUser (s : Store) (row : User) : Option (Store × User) :=
  if s.users.any (fun u => decide (u.email = row.email)) then none
  else if userPhoneUnique && s.users.any (fun u => decide (u.phone = row.phone)) then none
  else
    let u : User := { row with id := s.nextId }
    some ({ s with users := s.users ++ [u], nextId := s.nextId + 1 }, u)

/-- Modelled from the spec: the visibility of a profile created without one.
`registerJobseeker` passes no `visibility` to `prisma.jobSeekerProfile.create`,
so the column takes the default of the database schema, which is not among the
sources.  The spec gives the values Public and Private; `createJobSeekerProfile`
writes `PRIVATE` when a request names no visibility. -/
def profileDefaultVisibility : String := "PRIVATE"

/-- The call `prisma.jobSeekerProfile.create` of `registerJobseeker`.  The column
`userId` carries a unique key (`createJobSeekerProfile` upserts on it): a second
profile of a user makes the call throw, and the result is `none`. -/
def Store.createJobSeekerProfile (s : Store) (userId : Nat) (profileType : String) :
    Option Store :=
  if s.jobSeekerProfiles.any (fun p => decide (p.userId = userId)) then none
  else
    some { s with
      jobSeekerProfiles :=
        s.jobSeekerProfiles ++
          [{ id := s.nextId, userId := userId, profileType := profileType,
             visibility := profileDefaultVisibility }],
      nextId := s.nextId + 1 }

/-- The handler `registerJobseeker`: `POST /register/jobseeker`.  The password
is stored as a hash, a column the embedding leaves out. -/
def registerJobseeker (s : Store) (body : JobseekerRegistration) : Store × Response :=
  if falsy body.firstName = true ∨ falsy body.lastName = true ∨ falsy body.email = true ∨
      falsy body.phoneNumber = true ∨ falsy body.password = true ∨
      falsy body.confirmPassword = true then
    (s, { status := 400, success := false, message := "All fields are required" })
  else if body.agreeToTerms = false then
    (s, { status := 400, success := false,
          message := "You must agree to the terms and conditions" })
  else if body.password ≠ body.confirmPassword then
    (s, { status := 400, success := false, message := "Passwords do not match" })
  else if phoneRegex.testWhole (body.phoneNumber.getD "") = false then
    (s, { status := 400, success := false,
          message := "Please provide a valid Ugandan phone number" })
  else if weakPassword (body.password.getD "") = true then
    (s, { status := 400, success := false,
          message := "Password must be at least 8 characters with letters and numbers" })
  else
    match s.users.find? (fun u => decide (u.email = toLowerCase (body.email.getD ""))) with
    | some _ =>
      (s, { status := 400, success := false, message := "User with this email already exists" })
    | none =>
      match s.users.find? (fun u => decide (u.phone = body.phoneNumber.getD "")) with
      | some _ =>
        (s, { status := 400, success := false,
              message := "User with this phone number already exists" })
      | none =>
        match s.createUser
            { id := 0, userType := "JOB_SEEKER", companyName := none,
              email := jsTrim (toLowerCase (body.email.getD "")),
              phone := jsTrim (body.phoneNumber.getD ""),
              firstName := some (jsTrim (body.firstName.getD "")),
              lastName := some (jsTrim (body.lastName.getD "")),
              verificationStatus := "PENDING", subscriptionStatus := "INACTIVE" } with
        | none =>
          (s, { status := 500, success := false,
                message := "Registration failed. Please try again." })
        | some created =>
          match created.1.createJobSeekerProfile created.2.id "EMPLOYABLE" with
          | none =>
            (created.1, { status := 500, success := false,
                          message := "Registration failed. Please try again." })
          | some s2 =>
            (s2, { status := 201, success := true,
                   message := "Account created successfully. Please login." })

/-- The label of a field in the message of `registerCompany`:
`field.replace(/([A-Z])/g, ' $1').toLowerCase()`. -/
def fieldLabel (field : String) : String :=
  toLowerCase (String.mk (field.data.foldr
    (fun c rest => if c.isUpper then ' ' :: c :: rest else c :: rest) []))

/-- The fields of `requiredFields` that are falsy in the body, in the order of
the list. -/
def CompanyRegistration.missing (body : CompanyRegistration) : List String :=
  ([("companyName", falsy body.companyName), ("email", falsy body.email),
    ("password", falsy body.password), ("confirmPassword", falsy body.confirmPassword),
    ("industry", falsy body.industry), ("phone", falsy body.phone),
    ("address", falsy body.address), ("companySize", falsy body.companySize),
    ("establishmentYear", body.establishmentYear.isNone),
    ("description", falsy body.description),
    ("contactPersonName", falsy body.contactPersonName),
    ("contactPersonPosition", falsy body.contactPersonPosition),
    ("agreeToTerms", !body.agreeToTerms)].filter (fun f => f.2)).map (fun f => f.1)

/-- The years that `prisma.user.create` takes for the integer column
`establishmentYear`: `NaN` and integers outside 32 bits make the call throw. -/
def JsInt.storable : JsInt → Bool
  | .value n => decide (-2147483648 ≤ n ∧ n ≤ 2147483647)
  | .nan => false

/-- The call `prisma.companyProfile.create` of `registerCompany`. -/
def Store.createCompanyProfile (s : Store) (userId : Nat) (companyName email phone : String) :
    Store :=
  { s with
    companyProfiles :=
      s.companyProfiles ++
        [{ id := s.nextId, userId := userId, companyName := companyName, email := email,
           phone := phone }],
    nextId := s.nextId + 1 }

/-- The handler `registerCompany`: `POST /register/company`. -/
def registerCompany (s : Store) (body : CompanyRegistration) : Store × Response :=
  match body.missing.head? with
  | some field =>
    (s, { status := 400, success := false, message := fieldLabel field ++ " is required" })
  | none =>
    if body.password ≠ body.confirmPassword then
      (s, { status := 400, success := false, message := "Passwords do not match" })
    else if weakPassword (body.password.getD "") = true then
      (s, { status := 400, success := false,
            message := "Password must be at least 8 characters with letters and numbers" })
    else if phoneRegex.testWhole (body.phone.getD "") = false then
      (s, { status := 400, success := false,
            message := "Please provide a valid Ugandan phone number" })
    else
      match s.users.find? (fun u => decide (u.email = toLowerCase (body.email.getD ""))) with
      | some _ =>
        (s, { status := 400, success := false,
              message := "Company with this email already exists" })
      | none =>
        if (body.establishmentYear.getD .nan).storable = false then
          (s, { status := 500, success := false, message := "Company registration failed" })
        else
          match s.createUser
              { id := 0, userType := "COMPANY",
                companyName := some (jsTrim (body.companyName.getD "")),
                email := jsTrim (toLowerCase (body.email.getD "")),
                phone := jsTrim (body.phone.getD ""),
                verificationStatus := "PENDING", subscriptionStatus := "INACTIVE",
                industry := body.industry, companySize := body.companySize,
                description := some (jsTrim (body.description.getD "")) } with
          | none =>
            (s, { status := 500, success := false, message := "Company registration failed" })
          | some created =>
            (created.1.createCompanyProfile created.2.id (jsTrim (body.companyName.getD ""))
                (jsTrim (toLowerCase (body.email.getD ""))) (jsTrim (body.phone.getD "")),
              { status := 201, success := true,
                message := "Company account created successfully. Please login." })

/-- A user row after the field merge of `updatePrivacySettings`: a truthy field
of the body replaces the column, the others keep theirs. -/
def User.mergePrivacy (u : User) (data : PrivacyUpdate) : User :=
  { u with
    firstName := if falsy data.firstName = true then u.firstName else data.firstName,
    lastName := if falsy data.lastName = true then u.lastName else data.lastName,
    phone := if falsy data.phone = true then u.phone else data.phone.getD u.phone }

/-- The call `prisma.user.update` with `where: { id }` of
`updatePrivacySettings`: `none` when the call throws, which it does when no row
has the id and, under `userPhoneUnique`, when another row holds the new phone. -/
def Store.updateUser (s : Store) (userId : Nat) (data : PrivacyUpdate) : Option Store :=
  if s.users.any (fun u => decide (u.id = userId)) = false then none
  else if falsy data.phone = false ∧ userPhoneUnique = true ∧
      s.users.any (fun u => decide (u.id ≠ userId ∧ u.phone = data.phone.getD "")) = true then
    none
  else
    some { s with users := s.users.map (fun u => if u.id = userId then u.mergePrivacy data else u) }

/-- The handler `updatePrivacySettings`: `PUT /privacy-settings`. -/
def updatePrivacySettings (s : Store) (user : Option Nat) (body : PrivacyUpdate) :
    Store × Response :=
  match user with
  | none => (s, { status := 401, success := false, message := "Not authenticated" })
  | some userId =>
    match s.updateUser userId body with
    | none =>
      (s, { status := 500, success := false, message := "Failed to update privacy settings" })
    | some s1 =>
      (s1, { status := 200, success := true,
             message := "Privacy settings updated successfully" })

/-- The invariant "email and phone unique across all accounts". -/
def Store.accountsUnique (s : Store) : Prop :=
  (s.users.map (fun u => u.email)).Nodup ∧ (s.users.map (fun u => u.phone)).Nodup

/-- The primary key of the `user` table: no two rows share an id, and the ids
were issued by the identifier counter of the store. -/
def Store.userIdsIssued (s : Store) : Prop :=
  (s.users.map (fun u => u.id)).Nodup ∧ ∀ u ∈ s.users, u.id < s.nextId

instance (s : Store) : Decidable s.accountsUnique := by
  unfold Store.accountsUnique; infer_instance

instance (s : Store) : Decidable s.userIdsIssued := by
  unfold Store.userIdsIssued; infer_instance

/-- A request to one of the handlers that write the account columns, with the
arguments of the handler. -/
inductive AccountRequest where
  | jobseeker (body : JobseekerRegistration)
  | company (body : CompanyRegistration)
  | privacy (user : Option Nat) (body : PrivacyUpdate)
deriving DecidableEq, Repr

/-- The store after a request of the account handlers. -/
def AccountRequest.run (s : Store) : AccountRequest → Store
  | .jobseeker body => (registerJobseeker s body).1
  | .company body => (registerCompany s body).1
  | .privacy user body => (updatePrivacySettings s user body).1

/-- The store after a sequence of requests of the account handlers. -/
def runAccounts (s : Store) (requests : List AccountRequest) : Store :=
  requests.foldl AccountRequest.run s

/-- The store without rows. -/
def emptyStore : Store :=
  { users := [], jobSeekerProfiles := [], jobPosts := [], resumes := [], jobApplications := [],
    chatAreas := [], chatParticipants := [], chatMessages := [], notifications := [],
    companySubscriptions := [], invitations := [], nextId := 1 }

/-- A complete registration of a job seeker with phone `0712345678`. -/
def aminaRegistration : JobseekerRegistration :=
  { firstName := some "Amina", lastName := some "Nakato", email := some "Amina@Example.com",
    phoneNumber := some "0712345678", password := some "secret123",
    confirmPassword := some "secret123", agreeToTerms := true }

/-- A complete registration of a company. -/
def acmeRegistration : CompanyRegistration :=
  { companyName := some "Acme", email := some "jobs@acme.example", password := some "secret123",
    confirmPassword := some "secret123", industry := some "Software",
    phone := some "+256712000002", address := some "Kampala", companySize := some "11-50",
    establishmentYear := some (.value 2015), description := some "Makes things",
    contactPersonName := some "Carol", contactPersonPosition := some "Recruiter",
    agreeToTerms := true }

/-- The store after the registration `aminaRegistration` on the empty store:
user 1 with profile 2. -/
def registeredStore : Store :=
  (registerJobseeker emptyStore aminaRegistration).1

/-- Requests on `registeredStore`: a company registers, a second job seeker
tries the phone of user 1 with another email, a company tries the phone of user
1, user 1 tries to take the phone of the company, and user 1 then moves to a
free phone. -/
def accountRun : List AccountRequest :=
  [.company acmeRegistration,
   .jobseeker { aminaRegistration with email := some "brian@example.com" },
   .company { acmeRegistration with
     email := some "hr@globex.example", phone := some "0712345678" },
   .privacy (some 1) { firstName := none, lastName := none, phone := some "+256712000002" },
   .privacy (some 1) { firstName := none, lastName := none, phone := some "0712000009" }]

/-! ## The handlers that notify, under a storage that may refuse the notification -/

/-- The call `prisma.notification.create` under a storage that persists the
notification (`up = true`) or refuses it (`up = false`): `none` when the call
throws. -/
def Store.tryCreateNotification (up : Bool) (s : Store) (userId : Nat)
    (title message type : String) (relatedId : Nat) : Option Store :=
  if up = true then some (s.createNotification userId title message type relatedId) else none

/-- The handler `applyToJob` under a storage that may refuse the notification.
The insert of the notification is the last storage call inside the `try` block
of the handler, with no `try` of its own: when it throws, the `catch` of the
handler answers 500 and the writes made before it stay. -/
def applyToJobUnder (up : Bool) (now : Nat) (s : Store) (user : Option Nat) (jobId : Nat)
    (body : ApplyBody) : Store × Response :=
  match user with
  | none => (s, { status := 401, success := false, message := "Not authenticated" })
  | some userId =>
    match s.jobPosts.find? (fun j =>
        decide (j.id = jobId ∧ j.isActive = true ∧ now < j.applicationDeadline)) with
    | none => (s, { status := 404, success := false, message := "Job post not found or expired" })
    | some jobPost =>
      match s.jobApplications.find? (fun a =>
          decide (a.jobPostId = jobId ∧ a.jobSeekerId = userId)) with
      | some _ =>
        (s, { status := 400, success := false, message := "You have already applied to this job" })
      | none =>
        let resumed := customResumeStep s userId jobPost.title body
        if resumeFound resumed.1 userId resumed.2 = false then
          (resumed.1, { status := 400, success := false, message := "Resume not found" })
        else
          let created :=
            resumed.1.createJobApplication jobId userId resumed.2 body.coverLetter "NOT_VIEWED"
          match chatEnrolStep created.1 jobPost jobId userId with
          | none =>
            (created.1, { status := 500, success := false, message := "Failed to apply to job" })
          | some s3 =>
            match s3.tryCreateNotification up jobPost.companyId "New Job Application"
                ("New application received for " ++ jobPost.title) "APPLICATION" created.2.id with
            | none =>
              (s3, { status := 500, success := false, message := "Failed to apply to job" })
            | some s4 =>
              (s4, { status := 201, success := true,
                     message := "Application submitted successfully" })

/-- The handler `subscribeToCompany` under a storage that may refuse the
notification. -/
def subscribeToCompanyUnder (up : Bool) (s : Store) (user : Option Nat) (companyId : Nat)
    (profileType : Option String) : Store × Response :=
  match user with
  | none => (s, { status := 401, success := false, message := "Not authenticated" })
  | some userId =>
    match profileType with
    | none =>
      (s, { status := 400, success := false,
            message := "Valid profile type is required (EMPLOYABLE or VIRTUAL_INTERN)" })
    | some profileType =>
      if profileType = "" ∨ ¬ profileType ∈ ["EMPLOYABLE", "VIRTUAL_INTERN"] then
        (s, { status := 400, success := false,
              message := "Valid profile type is required (EMPLOYABLE or VIRTUAL_INTERN)" })
      else
        match s.users.find? (fun u => decide (u.id = companyId ∧ u.userType = "COMPANY")) with
        | none => (s, { status := 404, success := false, message := "Company not found" })
        | some _ =>
          match s.jobSeekerProfiles.find? (fun p => decide (p.userId = userId)) with
          | none =>
            (s, { status := 400, success := false,
                  message := "Please create your job seeker profile first" })
          | some _ =>
            match s.companySubscriptions.find? (fun c =>
                decide (c.companyId = companyId ∧ c.jobSeekerId = userId ∧
                  c.profileType = profileType)) with
            | some _ =>
              (s, { status := 400, success := false,
                    message := "You are already subscribed to this company as " ++ profileType })
            | none =>
              let created := s.createCompanySubscription companyId userId profileType
              match created.1.tryCreateNotification up companyId "New Subscription"
                  ("New " ++ toLowerCase profileType ++ " subscription received")
                  "SUBSCRIPTION" created.2.id with
              | none =>
                (created.1, { status := 500, success := false,
                              message := "Failed to subscribe to company" })
              | some s2 =>
                (s2, { status := 201, success := true,
                       message := "Successfully subscribed as " ++ profileType })

/-- The handler `inviteJobseeker` under a storage that may refuse the
notification. -/
def inviteJobseekerUnder (up : Bool) (now : Nat) (s : Store) (user : Option Nat)
    (jobseekerId : Nat) (profileType : Option String) (message : Option String) :
    Store × Response :=
  match user with
  | none => (s, { status := 401, success := false, message := "Not authenticated" })
  | some userId =>
    match profileType with
    | none => (s, { status := 400, success := false, message := "Valid profile type is required" })
    | some profileType =>
      if profileType = "" ∨ ¬ profileType ∈ ["EMPLOYABLE", "VIRTUAL_INTERN"] then
        (s, { status := 400, success := false, message := "Valid profile type is required" })
      else
        match s.users.find? (fun u => decide (u.id = jobseekerId ∧ u.userType = "JOB_SEEKER")) with
        | none => (s, { status := 404, success := false, message := "Jobseeker not found" })
        | some _ =>
          match s.invitations.find? (fun i =>
              decide (i.companyId = userId ∧ i.jobSeekerId = jobseekerId ∧
                i.profileType = profileType ∧ i.status = "PENDING")) with
          | some _ =>
            (s, { status := 400, success := false,
                  message := "Invitation already sent and pending" })
          | none =>
            match s.users.find? (fun u => decide (u.id = userId)) with
            | none =>
              (s, { status := 500, success := false, message := "Failed to send invitation" })
            | some company =>
              let created :=
                s.createInvitation userId jobseekerId profileType message
                  (now + 30 * 24 * 60 * 60 * 1000)
              match created.1.tryCreateNotification up jobseekerId "New Company Invitation"
                  (renderNullable company.companyName ++ " invited you to subscribe as " ++
                    profileType)
                  "INVITATION" created.2.id with
              | none =>
                (created.1, { status := 500, success := false,
                              message := "Failed to send invitation" })
              | some s2 =>
                (s2, { status := 201, success := true,
                       message := "Invitation sent successfully" })

/-- The handler `updateApplicantStatus` under a storage that may refuse the
notification. -/
def updateApplicantStatusUnder (up : Bool) (s : Store) (user : Option Nat) (applicantId : Nat)
    (status : Option String) : Store × Response :=
  match user with
  | none => (s, { status := 401, success := false, message := "Not authenticated" })
  | some userId =>
    match status with
    | none => (s, { status := 400, success := false, message := "Invalid status" })
    | some status =>
      if ¬ status ∈ ["VIEWED", "SHORTLISTED", "INTERVIEW_SCHEDULED", "REJECTED", "ACCEPTED"] then
        (s, { status := 400, success := false, message := "Invalid status" })
      else
        match s.jobApplications.find? (fun a =>
            decide (a.id = applicantId) && s.ownedBy userId a) with
        | none => (s, { status := 404, success := false, message := "Application not found" })
        | some application =>
          match s.jobPostOf application with
          | none =>
            (s, { status := 500, success := false,
                  message := "Failed to update applicant status" })
          | some jobPost =>
            let s2 :=
              acceptedEnrolStep (s.updateApplicationStatus applicantId status) status jobPost
                application
            match s2.tryCreateNotification up application.jobSeekerId
                "Application Status Updated"
                ("Your application for " ++ jobPost.title ++ " has been " ++ toLowerCase status)
                "APPLICATION_STATUS" application.id with
            | none =>
              (s2, { status := 500, success := false,
                     message := "Failed to update applicant status" })
            | some s3 =>
              (s3, { status := 200, success := true,
                     message := "Application status updated successfully" })

/-! ## Failure responses (`index.js`, `config/db.mjs` and the `catch` blocks of the controllers) -/

/-- A JSON answer with its HTTP status, with the keys that a failure answer can
carry.  A key is `none` when the object does not have it or holds `undefined`
under it, which the JSON text drops. -/
structure Envelope where
  status : Nat
  success : Bool
  message : String
  error : Option String
  timestamp : Option String
deriving DecidableEq, Repr

/-- The answer of a `catch` block of a controller and of the global error
handler of `index.js`: status 500, the fixed message of the block, and
`error: process.env.NODE_ENV === 'development' ? error.message : undefined`.
`nodeEnv` is the value of `NODE_ENV` (`none` when it is not set) and `thrown`
the message of the error caught. -/
def catchResponse (nodeEnv : Option String) (message thrown : String) : Envelope :=
  { status := 500, success := false, message := message,
    error := if nodeEnv = some "development" then some thrown else none,
    timestamp := none }

/-- The global error handler of `index.js`. -/
def globalErrorHandler (nodeEnv : Option String) (thrown : String) : Envelope :=
  catchResponse nodeEnv "Internal server error" thrown

/-- The 404 handler of `index.js`. -/
def notFoundHandler (originalUrl : String) : Envelope :=
  { status := 404, success := false, message := "Route " ++ originalUrl ++ " not found",
    error := none, timestamp := none }

/-- The function `checkDatabaseHealth` of `config/db.mjs`, as the body that the
route sends.  `query` is the outcome of the query `SELECT 1`, with the message of
the error when it throws; `timestamp` is the text of the current time. -/
def checkDatabaseHealth (query : Except String Unit) (timestamp : String) : Envelope :=
  match query with
  | .ok _ =>
    { status := 200, success := true, message := "Database connection is healthy",
      error := none, timestamp := some timestamp }
  | .error thrown =>
    { status := 200, success := false, message := "Database connection failed",
      error := some thrown, timestamp := some timestamp }

/-- The route `GET /api/db-health` of `index.js`: it sends what
`checkDatabaseHealth` returns, with `res.json`, so with status 200.  The function
catches every error of the query itself, so the `catch` of the route (status 500,
`error: error.message`, in every mode as well) is not reached by a failing
database.  The route does not read `NODE_ENV`. -/
def dbHealthRoute (_nodeEnv : Option String) (query : Except String Unit) (timestamp : String) :
    Envelope :=
  checkDatabaseHealth query timestamp

/-! ## The listings: `getCompanies`, `getJobPosts` (jobseeker.controller.mjs) and `getJobseekers` (company.controller.mjs) -/

/-- The paging parameters of a listing.  A parameter is `none` when the query
does not carry it, and then takes the default of the destructuring (`page = 1`,
`limit = 10`); otherwise it is the natural number that `parseInt` reads from its
text. -/
structure Paging where
  page : Option Nat
  limit : Option Nat
deriving DecidableEq, Repr

/-- The value of `parseInt(page)`. -/
def Paging.pageNumber (p : Paging) : Nat := p.page.getD 1

/-- The value of `parseInt(limit)`. -/
def Paging.pageSize (p : Paging) : Nat := p.limit.getD 10

/-- The object `pagination` of a listing answer.  `pages` is `none` when
`Math.ceil(total / limit)` is not a number of pages (a limit of 0). -/
structure Pagination where
  page : Nat
  limit : Nat
  total : Nat
  pages : Option Nat
deriving DecidableEq, Repr

/-- The answer of a listing: the envelope, the rows and the pagination. -/
structure Listing (α : Type) where
  status : Nat
  success : Bool
  message : String
  rows : List α
  pagination : Option Pagination

/-- The expression `Math.ceil(total / limit)`: the quotient of the two numbers,
rounded up; `none` for a limit of 0, where the quotient is not finite. -/
def mathCeilDiv (total limit : Nat) : Option Nat :=
  if limit = 0 then none else some ⌈(total : ℚ) / (limit : ℚ)⌉₊

/-- The rows that `findMany` returns under `skip: (page - 1) * limit` and
`take: limit`, out of the matching rows in their order. -/
def pageRows {α : Type} (matching : List α) (page limit : Nat) : List α :=
  (matching.drop ((page - 1) * limit)).take limit

/-- The answer of a listing whose `where` selects `matching`, in the order of
`orderBy`.  A page of 0 with a positive limit gives a negative `skip`, which
`findMany` rejects by throwing: the `catch` of the handler answers 500 with
`failure`. -/
def listingAnswer {α : Type} (matching : List α) (p : Paging) (failure : String) : Listing α :=
  if p.pageNumber = 0 ∧ p.pageSize ≠ 0 then
    { status := 500, success := false, message := failure, rows := [], pagination := none }
  else
    { status := 200, success := true, message := "",
      rows := pageRows matching p.pageNumber p.pageSize,
      pagination :=
        some { page := p.pageNumber, limit := p.pageSize, total := matching.length,
               pages := mathCeilDiv matching.length p.pageSize } }

/-- The answer 401 of a listing. -/
def listingNotAuthenticated {α : Type} : Listing α :=
  { status := 401, success := false, message := "Not authenticated", rows := [],
    pagination := none }

/-- The filter `{ contains: search, mode: 'insensitive' }` on a nullable text
column: the search text occurs in the column, letter case aside. -/
def containsInsensitive (column : Option String) (search : String) : Bool :=
  match column with
  | some text => decide ((toLowerCase search).data <:+: (toLowerCase text).data)
  | none => false

/-- The filter `column: value` of a `where` object on a nullable column, added
under `if (value)`: no condition when the query value is falsy. -/
def equalsIfGiven (column : Option String) (value : Option String) : Bool :=
  falsy value || decide (column = value)

/-- The query of `getCompanies`. -/
structure CompaniesQuery where
  search : Option String
  industry : Option String
  companySize : Option String
  paging : Paging
deriving DecidableEq, Repr

/-- The `where` object of `getCompanies`, as a condition on a user row. -/
def CompaniesQuery.matches (q : CompaniesQuery) (u : User) : Bool :=
  decide (u.userType = "COMPANY") && decide (u.verificationStatus = "VERIFIED") &&
    (falsy q.search ||
      (containsInsensitive u.companyName (q.search.getD "") ||
        containsInsensitive u.description (q.search.getD ""))) &&
    equalsIfGiven u.industry q.industry && equalsIfGiven u.companySize q.companySize

/-- The handler `getCompanies`: `GET /companies`.  `collation` is the order of
the database on the column `companyName`, for `orderBy: { companyName: 'asc' }`. -/
def getCompanies (collation : Option String → Option String → Bool) (s : Store)
    (user : Option Nat) (q : CompaniesQuery) : Listing User :=
  match user with
  | none => listingNotAuthenticated
  | some _ =>
    listingAnswer
      ((s.users.filter q.matches).insertionSort
        (fun a b => collation a.companyName b.companyName = true))
      q.paging "Failed to fetch companies"

/-- The query of `getJobPosts`. -/
structure JobPostsQuery where
  search : Option String
  industry : Option String
  jobType : Option String
  location : Option String
  experienceLevel : Option String
  paging : Paging
deriving DecidableEq, Repr

/-- The relation `company` of a job post: the user row its foreign key names. -/
def Store.companyOf (s : Store) (j : JobPost) : Option User :=
  s.users.find? (fun u => decide (u.id = j.companyId))

/-- The `where` object of `getJobPosts`, as a condition on a job post row. -/
def JobPostsQuery.matches (q : JobPostsQuery) (now : Nat) (s : Store) (j : JobPost) : Bool :=
  decide (j.isActive = true) && decide (now < j.applicationDeadline) &&
    (falsy q.search ||
      (containsInsensitive (some j.title) (q.search.getD "") ||
        containsInsensitive (some j.description) (q.search.getD "") ||
        (match s.companyOf j with
          | some c => containsInsensitive c.companyName (q.search.getD "")
          | none => false))) &&
    equalsIfGiven (some j.industry) q.industry && equalsIfGiven (some j.jobType) q.jobType &&
    (falsy q.location || containsInsensitive j.location (q.location.getD "")) &&
    equalsIfGiven j.experienceLevel q.experienceLevel

/-- The handler `getJobPosts`: `GET /jobs`.  The rows of a table are in the
order of their creation, so `orderBy: { createdAt: 'desc' }` is the table
reversed. -/
def getJobPosts (now : Nat) (s : Store) (user : Option Nat) (q : JobPostsQuery) :
    Listing JobPost :=
  match user with
  | none => listingNotAuthenticated
  | some _ =>
    listingAnswer (s.jobPosts.filter (q.matches now s)).reverse q.paging
      "Failed to fetch job posts"

/-- A value of the query key `skills`: one text, or a list of texts when the key
is repeated. -/
inductive QueryValue where
  | text (x : String)
  | list (xs : List String)
deriving DecidableEq, Repr

/-- The query of `getJobseekers` (`location` is read from the query and not
used). -/
structure JobseekersQuery where
  search : Option String
  profileType : Option String
  skills : Option QueryValue
  location : Option String
  paging : Paging
deriving DecidableEq, Repr

/-- The object under the key `jobSeekerProfile` of the `where` of
`getJobseekers`: a key is `none` when the object does not have it. -/
structure ProfileWhere where
  visibility : Option String
  profileType : Option String
  skillsHasSome : Option (List String)
deriving DecidableEq, Repr

/-- The `where` object of `getJobseekers`: `search` is the text of the `OR`
list, `none` when the object has no `OR`. -/
structure JobseekersWhere where
  userType : String
  jobSeekerProfile : ProfileWhere
  search : Option String
deriving DecidableEq, Repr

/-- The expression `Array.isArray(skills) ? skills : [skills]`. -/
def QueryValue.toArray : QueryValue → List String
  | .text x => [x]
  | .list xs => xs

/-- The test `if (skills)`: an empty text is falsy, a list is truthy. -/
def QueryValue.truthy : QueryValue → Bool
  | .text x => decide (x ≠ "")
  | .list _ => true

/-- The `where` object that `getJobseekers` builds from the query: the literal
object first, then the three `if` blocks in their order, each spreading the
object it replaces. -/
def JobseekersQuery.where (q : JobseekersQuery) : JobseekersWhere :=
  let where0 : JobseekersWhere :=
    { userType := "JOB_SEEKER",
      jobSeekerProfile := { visibility := some "PUBLIC", profileType := none, skillsHasSome := none },
      search := none }
  let where1 : JobseekersWhere :=
    if falsy q.search = false then { where0 with search := q.search } else where0
  let where2 : JobseekersWhere :=
    if falsy q.profileType = false then
      { where1 with jobSeekerProfile := { where1.jobSeekerProfile with profileType := q.profileType } }
    else where1
  match q.skills with
  | some skills =>
    if skills.truthy = true then
      { where2 with
        jobSeekerProfile := { where2.jobSeekerProfile with skillsHasSome := some skills.toArray } }
    else where2
  | none => where2

/-- The relation `jobSeekerProfile` of a user: the profile row whose unique
`userId` is the id of the user. -/
def Store.profileOf (s : Store) (u : User) : Option JobSeekerProfile :=
  s.jobSeekerProfiles.find? (fun p => decide (p.userId = u.id))

/-- A profile under the conditions of a `ProfileWhere`: each key that the object
has must hold, `hasSome` meaning that the lists share an element. -/
def ProfileWhere.matches (w : ProfileWhere) (p : JobSeekerProfile) : Bool :=
  (w.visibility.isNone || decide (w.visibility = some p.visibility)) &&
    (w.profileType.isNone || decide (w.profileType = some p.profileType)) &&
    (match w.skillsHasSome with
      | some wanted => wanted.any (fun x => decide (x ∈ p.skills))
      | none => true)

/-- A user under a `JobseekersWhere`: the keys of the object hold together.  The
relation filter holds when the user has a profile that matches it; the `OR` list
holds when the search text occurs in the first name, the last name, the email or
the bio of the profile. -/
def JobseekersWhere.matches (w : JobseekersWhere) (s : Store) (u : User) : Bool :=
  decide (u.userType = w.userType) &&
    (match s.profileOf u with
      | some p => w.jobSeekerProfile.matches p
      | none => false) &&
    (match w.search with
      | some x =>
        containsInsensitive u.firstName x || containsInsensitive u.lastName x ||
          containsInsensitive (some u.email) x ||
          (match s.profileOf u with
            | some p => containsInsensitive p.bio x
            | none => false)
      | none => true)

/-- The handler `getJobseekers`: `GET /jobseekers`.  A `profileType` outside the
values of its enumeration is rejected by the storage client, which throws. -/
def getJobseekers (s : Store) (user : Option Nat) (q : JobseekersQuery) : Listing User :=
  match user with
  | none => listingNotAuthenticated
  | some _ =>
    if falsy q.profileType = false ∧ ¬ q.profileType.getD "" ∈ ["EMPLOYABLE", "VIRTUAL_INTERN"] then
      { status := 500, success := false, message := "Failed to fetch jobseekers", rows := [],
        pagination := none }
    else
      listingAnswer (s.users.filter (q.where.matches s)).reverse q.paging
        "Failed to fetch jobseekers"

/-- The pagination of the specification, for a listing answer `L` over the
matching rows `matching`: the answer is a success, its pagination is
`{page, limit, total, pages}` with `total` the number of matching rows and
`pages` the least number `n` with `n * limit >= total`, and its rows are the at
most `limit` rows after the first `(page - 1) * limit`. -/
def Listing.paginates {α : Type} (L : Listing α) (matching : List α) (page limit : Nat) : Prop :=
  L.status = 200 ∧
    (∃ n, L.pagination =
        some { page := page, limit := limit, total := matching.length, pages := some n } ∧
      matching.length ≤ n * limit ∧ ∀ m, matching.length ≤ m * limit → n ≤ m) ∧
    L.rows = (matching.drop ((page - 1) * limit)).take limit ∧ L.rows.length ≤ limit

/-- The store `demoStore` after company 2 posted a second job at time 500: job
post 100 beside job post 10. -/
def twoJobsStore : Store :=
  (createJobPost 500 demoStore (some 2) datedJobBody).1

/-- A `getJobPosts` query without filters for page 2 of pages of one row. -/
def secondPageQuery : JobPostsQuery :=
  { search := none, industry := none, jobType := none, location := none,
    experienceLevel := none, paging := { page := some 2, limit := some 1 } }

/-- The store `demoStore` with a public profile of job seeker 1 and a private
profile of job seeker 4, both `EMPLOYABLE` with the skill `lean`. -/
def profilesStore : Store :=
  { demoStore with
    jobSeekerProfiles :=
      [{ id := 3, userId := 1, profileType := "EMPLOYABLE", visibility := "PUBLIC",
         skills := ["lean"] },
       { id := 6, userId := 4, profileType := "EMPLOYABLE", visibility := "PRIVATE",
         skills := ["lean"] }] }

/-- A `getJobseekers` query that names a profile type and a skill. -/
def skilledQuery : JobseekersQuery :=
  { search := none, profileType := some "EMPLOYABLE", skills := some (.text "lean"),
    location := none, paging := { page := none, limit := none } }

/-! ## The other protected handlers -/

/-- The handler `getPrivacySettings`: `GET /privacy-settings`.  The envelope of
the success answer carries no message text. -/
def getPrivacySettings (s : Store) (user : Option Nat) : Response :=
  match user with
  | none => { status := 401, success := false, message := "Not authenticated" }
  | some userId =>
    match s.users.find? (fun u => decide (u.id = userId)) with
    | none => { status := 404, success := false, message := "User not found" }
    | some _ => { status := 200, success := true, message := "" }

/-- The handler `getLoginActivity`: `GET /login-activity`. -/
def getLoginActivity (_s : Store) (user : Option Nat) : Response :=
  match user with
  | none => { status := 401, success := false, message := "Not authenticated" }
  | some _ => { status := 200, success := true, message := "" }

/-- The handler `signOutAllDevices`: `POST /signout-all`.  `destroyFails` tells
whether `req.session.destroy` hands an error to its callback. -/
def signOutAllDevices (destroyFails : Bool) (s : Store) (user : Option Nat) : Store × Response :=
  match user with
  | none => (s, { status := 401, success := false, message := "Not authenticated" })
  | some userId =>
    let s1 : Store :=
      { s with
        loginSessions :=
          s.loginSessions.map (fun l =>
            if l.userId = userId ∧ l.isActive = true then { l with isActive := false } else l) }
    if destroyFails = true then
      (s1, { status := 500, success := false, message := "Failed to sign out" })
    else
      (s1, { status := 200, success := true,
             message := "Signed out from all devices successfully" })

/-- Body of a `createJobSeekerProfile` request (the optional fields
`experience`, `certifications` and `portfolio` are left out). -/
structure ProfileBody where
  profileType : Option String
  bio : Option String
  skills : Option QueryValue
  education : Option String
  visibility : Option String
deriving DecidableEq, Repr

/-- The call `prisma.jobSeekerProfile.upsert` with `where: { userId }`: the
profile of the user takes the fields, or a profile is created with them. -/
def Store.upsertJobSeekerProfile (s : Store) (userId : Nat) (profileType visibility : String)
    (bio education : Option String) (skills : List String) : Store :=
  if s.jobSeekerProfiles.any (fun p => decide (p.userId = userId)) then
    { s with
      jobSeekerProfiles :=
        s.jobSeekerProfiles.map (fun p =>
          if p.userId = userId then
            { p with profileType := profileType, visibility := visibility, bio := bio,
                     skills := skills, education := education }
          else p) }
  else
    { s with
      jobSeekerProfiles :=
        s.jobSeekerProfiles ++
          [{ id := s.nextId, userId := userId, profileType := profileType,
             visibility := visibility, bio := bio, skills := skills, education := education }],
      nextId := s.nextId + 1 }

/-- The handler `createJobSeekerProfile`: `POST /job-seeker/profile`.  A profile
type or a visibility outside the values of its enumeration is rejected by the
storage client, which throws. -/
def createJobSeekerProfile (s : Store) (user : Option Nat) (body : ProfileBody) :
    Store × Response :=
  match user with
  | none => (s, { status := 401, success := false, message := "Not authenticated" })
  | some userId =>
    match s.users.find? (fun u => decide (u.id = userId ∧ u.userType = "JOB_SEEKER")) with
    | none =>
      (s, { status := 403, success := false, message := "Only job seekers can create profiles" })
    | some _ =>
      if falsy body.profileType = true then
        (s, { status := 400, success := false, message := "Profile type is required" })
      else if falsy body.bio = true then
        (s, { status := 400, success := false, message := "Bio is required" })
      else if falsy body.education = true then
        (s, { status := 400, success := false, message := "Education information is required" })
      else
        match body.skills with
        | none =>
          (s, { status := 400, success := false, message := "At least one skill is required" })
        | some skills =>
          if skills.truthy = false ∨ skills = .list [] then
            (s, { status := 400, success := false, message := "At least one skill is required" })
          else
            let visibility := if falsy body.visibility = true then "PRIVATE" else
              body.visibility.getD ""
            if ¬ body.profileType.getD "" ∈ ["EMPLOYABLE", "VIRTUAL_INTERN"] ∨
                ¬ visibility ∈ ["PUBLIC", "PRIVATE"] then
              (s, { status := 500, success := false, message := "Profile update failed" })
            else
              (s.upsertJobSeekerProfile userId (body.profileType.getD "") visibility body.bio
                  body.education skills.toArray,
                { status := 200, success := true, message := "Profile saved successfully" })

/-- The handler `getCompanyDashboard`: `GET /dashboard` of a company. -/
def getCompanyDashboard (s : Store) (user : Option Nat) : Response :=
  match user with
  | none => { status := 401, success := false, message := "Not authenticated" }
  | some userId =>
    match s.users.find? (fun u => decide (u.id = userId ∧ u.userType = "COMPANY")) with
    | none => { status := 404, success := false, message := "Company not found" }
    | some _ => { status := 200, success := true, message := "" }

/-- The handler `getJobApplicants`: `GET /jobs/:jobId/applicants`.  A `status`
outside the values of the enumeration is rejected by the storage client, which
throws. -/
def getJobApplicants (s : Store) (user : Option Nat) (jobId : Nat) (status : Option String) :
    Response :=
  match user with
  | none => { status := 401, success := false, message := "Not authenticated" }
  | some userId =>
    match s.jobPosts.find? (fun j => decide (j.id = jobId ∧ j.companyId = userId)) with
    | none => { status := 404, success := false, message := "Job post not found" }
    | some _ =>
      if falsy status = false ∧
          ¬ status.getD "" ∈ ["NOT_VIEWED", "VIEWED", "SHORTLISTED", "INTERVIEW_SCHEDULED",
            "REJECTED", "ACCEPTED"] then
        { status := 500, success := false, message := "Failed to fetch applicants" }
      else { status := 200, success := true, message := "" }

/-- The handler `shareJobWithJobseeker`: `POST /jobseekers/:jobseekerId/share-job`.
`jobId` is `none` when the body does not carry it, and the `where` then has no
condition on the id.  The job post is read without its relation `company`, so
the message of the notification, which reads `jobPost.company.companyName`,
throws before the notification is created: a request that passes both lookups is
answered 500. -/
def shareJobWithJobseeker (s : Store) (user : Option Nat) (jobseekerId : Nat)
    (jobId : Option Nat) : Store × Response :=
  match user with
  | none => (s, { status := 401, success := false, message := "Not authenticated" })
  | some userId =>
    match s.jobPosts.find? (fun j =>
        decide ((jobId = none ∨ jobId = some j.id) ∧ j.companyId = userId)) with
    | none => (s, { status := 404, success := false, message := "Job post not found" })
    | some _ =>
      match s.users.find? (fun u => decide (u.id = jobseekerId ∧ u.userType = "JOB_SEEKER")) with
      | none => (s, { status := 404, success := false, message := "Jobseeker not found" })
      | some _ => (s, { status := 500, success := false, message := "Failed to share job" })

/-- The handler `getChatAreas`: `GET /chats`, with the chat areas of the answer,
the latest first.  A company gets the chat areas it owns
(`where: { companyId: userId }`), another user the chat areas in which the user
has a participant row.  Without a user row of the caller the read of
`user.userType` throws. -/
def getChatAreas (s : Store) (user : Option Nat) : Response × List ChatArea :=
  match user with
  | none => ({ status := 401, success := false, message := "Not authenticated" }, [])
  | some userId =>
    match s.users.find? (fun u => decide (u.id = userId)) with
    | none => ({ status := 500, success := false, message := "Failed to fetch chat areas" }, [])
    | some u =>
      if u.userType = "COMPANY" then
        ({ status := 200, success := true, message := "" },
          (s.chatAreas.filter (fun c => decide (c.companyId = userId))).reverse)
      else
        ({ status := 200, success := true, message := "" },
          (s.chatAreas.filter (fun c =>
            s.chatParticipants.any (fun p => decide (p.chatAreaId = c.id ∧ p.userId = userId))
            )).reverse)

/-- The handler `getJobseekerDashboard`: `GET /dashboard` of a job seeker. -/
def getJobseekerDashboard (s : Store) (user : Option Nat) : Response :=
  match user with
  | none => { status := 401, success := false, message := "Not authenticated" }
  | some userId =>
    match s.users.find? (fun u => decide (u.id = userId ∧ u.userType = "JOB_SEEKER")) with
    | none => { status := 404, success := false, message := "Jobseeker not found" }
    | some _ => { status := 200, success := true, message := "" }

/-- The handler `getApplicationTracking`: `GET /applications/tracking`.  Without
a user row of the caller the read of `user.subscriptionStatus` throws. -/
def getApplicationTracking (s : Store) (user : Option Nat) : Response :=
  match user with
  | none => { status := 401, success := false, message := "Not authenticated" }
  | some userId =>
    match s.users.find? (fun u => decide (u.id = userId)) with
    | none =>
      { status := 500, success := false, message := "Failed to fetch application tracking" }
    | some u =>
      if u.subscriptionStatus ≠ "ACTIVE" then
        { status := 403, success := false,
          message := "Premium feature requires active subscription" }
      else { status := 200, success := true, message := "" }

/-- The handler `getJobseekerProfile`: `GET /profile`. -/
def getJobseekerProfile (s : Store) (user : Option Nat) : Response :=
  match user with
  | none => { status := 401, success := false, message := "Not authenticated" }
  | some userId =>
    match s.users.find? (fun u => decide (u.id = userId)) with
    | none => { status := 404, success := false, message := "User profile not found" }
    | some _ => { status := 200, success := true, message := "Profile loaded successfully" }

/-- The envelope of a listing answer. -/
def Listing.response {α : Type} (L : Listing α) : Response :=
  { status := L.status, success := L.success, message := L.message }

/-- A request to a handler of the three controllers other than the two
registrations and the login, with the arguments of the handler other than the
session user. -/
inductive ProtectedRequest where
  | privacySettings
  | privacyUpdate (body : PrivacyUpdate)
  | loginActivity
  | signOutAll (destroyFails : Bool)
  | profile (body : ProfileBody)
  | createJob (now : Nat) (body : JobPostBody)
  | companyDashboard
  | jobseekers (q : JobseekersQuery)
  | jobApplicants (jobId : Nat) (status : Option String)
  | updateStatus (applicantId : Nat) (status : Option String)
  | updateJob (jobId : Nat) (updateData : JobPostUpdate)
  | deleteJob (jobId : Nat)
  | invite (now : Nat) (jobseekerId : Nat) (profileType : Option String)
      (message : Option String)
  | shareJob (jobseekerId : Nat) (jobId : Option Nat)
  | chatAreas
  | chatMessages (chatAreaId : Nat)
  | sendMessage (chatAreaId : Nat) (content : Option String)
  | jobseekerDashboard
  | companies (collation : Option String → Option String → Bool) (q : CompaniesQuery)
  | jobPosts (now : Nat) (q : JobPostsQuery)
  | apply (now : Nat) (jobId : Nat) (body : ApplyBody)
  | subscribe (companyId : Nat) (profileType : Option String)
  | respond (invitationId : Nat) (action : Option String)
  | applicationTracking
  | jobseekerProfile

/-- The store after a request to a protected handler, and the envelope of the
answer, for the session user `user`. -/
def ProtectedRequest.run (s : Store) (user : Option Nat) : ProtectedRequest → Store × Response
  | .privacySettings => (s, getPrivacySettings s user)
  | .privacyUpdate body => updatePrivacySettings s user body
  | .loginActivity => (s, getLoginActivity s user)
  | .signOutAll destroyFails => signOutAllDevices destroyFails s user
  | .profile body => createJobSeekerProfile s user body
  | .createJob now body => createJobPost now s user body
  | .companyDashboard => (s, getCompanyDashboard s user)
  | .jobseekers q => (s, (getJobseekers s user q).response)
  | .jobApplicants jobId status => (s, getJobApplicants s user jobId status)
  | .updateStatus applicantId status => updateApplicantStatus s user applicantId status
  | .updateJob jobId updateData => updateJobPost s user jobId updateData
  | .deleteJob jobId => deleteJobPost s user jobId
  | .invite now jobseekerId profileType message =>
    inviteJobseeker now s user jobseekerId profileType message
  | .shareJob jobseekerId jobId => shareJobWithJobseeker s user jobseekerId jobId
  | .chatAreas => (s, (getChatAreas s user).1)
  | .chatMessages chatAreaId => (s, (getChatMessages s user chatAreaId).1)
  | .sendMessage chatAreaId content => sendChatMessage s user chatAreaId content
  | .jobseekerDashboard => (s, getJobseekerDashboard s user)
  | .companies collation q => (s, (getCompanies collation s user q).response)
  | .jobPosts now q => (s, (getJobPosts now s user q).response)
  | .apply now jobId body => applyToJob now s user jobId body
  | .subscribe companyId profileType => subscribeToCompany s user companyId profileType
  | .respond invitationId action => respondToInvitation s user invitationId action
  | .applicationTracking => (s, getApplicationTracking s user)
  | .jobseekerProfile => (s, getJobseekerProfile s user)

/-- An apply request naming the falsy resume id 0, without an inline resume. -/
def falsyResumeApply : ApplyBody :=
  { resumeId := some 0, coverLetter := none, customResume := none }

/-- The store after the registration of `éva@example.com` on the empty store. -/
def evaStore : Store :=
  (registerJobseeker emptyStore
    { aminaRegistration with email := some "éva@example.com" }).1

/-! ## The application workflow: `applyToJob` -/

/-- The block that creates the inline resume writes only the table of resumes. -/
theorem customResumeStep_jobApplications (s : Store) (userId : Nat) (t : String)
    (body : ApplyBody) :
    (customResumeStep s userId t body).1.jobApplications = s.jobApplications := by
  unfold customResumeStep; split <;> rfl

theorem customResumeStep_notifications (s : Store) (userId : Nat) (t : String)
    (body : ApplyBody) :
    (customResumeStep s userId t body).1.notifications = s.notifications := by
  unfold customResumeStep; split <;> rfl

theorem customResumeStep_jobPosts (s : Store) (userId : Nat) (t : String) (body : ApplyBody) :
    (customResumeStep s userId t body).1.jobPosts = s.jobPosts := by
  unfold customResumeStep; split <;> rfl

theorem customResumeStep_chatAreas (s : Store) (userId : Nat) (t : String) (body : ApplyBody) :
    (customResumeStep s userId t body).1.chatAreas = s.chatAreas := by
  unfold customResumeStep; split <;> rfl

theorem customResumeStep_chatParticipants (s : Store) (userId : Nat) (t : String)
    (body : ApplyBody) :
    (customResumeStep s userId t body).1.chatParticipants = s.chatParticipants := by
  unfold customResumeStep; split <;> rfl

/-- A chat enrolment that does not throw leaves applications, notifications and
job posts alone. -/
theorem chatEnrolStep_frame {s s3 : Store} {jobPost : JobPost} {jobId userId : Nat}
    (h : chatEnrolStep s jobPost jobId userId = some s3) :
    s3.jobApplications = s.jobApplications ∧ s3.notifications = s.notifications ∧
      s3.jobPosts = s.jobPosts := by
  unfold chatEnrolStep at h
  split at h
  · split at h
    · unfold Store.createChatParticipant at h
      split at h
      · cases h
      · cases h; exact ⟨rfl, rfl, rfl⟩
    · cases h; exact ⟨rfl, rfl, rfl⟩
  · cases h; exact ⟨rfl, rfl, rfl⟩

/-- What `applyToJob` does to the table of applications, on every path: it is
left alone, or one row for the pair of the request is appended after the
duplicate check found none. -/
theorem applyToJob_jobApplications (now : Nat) (s : Store) (user : Option Nat) (jobId : Nat)
    (body : ApplyBody) :
    ((applyToJob now s user jobId body).1.jobApplications = s.jobApplications ∧
        (applyToJob now s user jobId body).2.status ≠ 201) ∨
      ∃ userId a, user = some userId ∧
        (∀ b ∈ s.jobApplications, ¬ (b.jobPostId = jobId ∧ b.jobSeekerId = userId)) ∧
        a.jobPostId = jobId ∧ a.jobSeekerId = userId ∧ a.status = "NOT_VIEWED" ∧
        (applyToJob now s user jobId body).1.jobApplications = s.jobApplications ++ [a] := by
  unfold applyToJob
  split
  · exact Or.inl ⟨rfl, by simp⟩
  · rename_i userId
    split
    · exact Or.inl ⟨rfl, by simp⟩
    · rename_i jobPost hjp
      split
      · exact Or.inl ⟨rfl, by simp⟩
      · rename_i happ
        simp only
        split
        · exact Or.inl ⟨customResumeStep_jobApplications _ _ _ _, by simp⟩
        · right
          have hc1 : ((customResumeStep s userId jobPost.title body).1.createJobApplication jobId
              userId (customResumeStep s userId jobPost.title body).2 body.coverLetter
              "NOT_VIEWED").1.jobApplications =
              s.jobApplications ++ [((customResumeStep s userId jobPost.title body).1.createJobApplication
                jobId userId (customResumeStep s userId jobPost.title body).2 body.coverLetter
                "NOT_VIEWED").2] := by
            simp [Store.createJobApplication, customResumeStep_jobApplications]
          refine ⟨userId, ((customResumeStep s userId jobPost.title body).1.createJobApplication
            jobId userId (customResumeStep s userId jobPost.title body).2 body.coverLetter
            "NOT_VIEWED").2, rfl, ?_, ?_, ?_, ?_, ?_⟩
          pick_goal 5
          · split
            · exact hc1
            · rename_i s3 hs3
              have hf := chatEnrolStep_frame hs3
              simp only [Store.createNotification, hf.1, hc1]
          · intro b hb
            have := List.find?_eq_none.mp happ b hb
            simpa using this
          · rfl
          · rfl
          · rfl

/-- The chat enrolment does not throw when the caller is in no chat area of the
job post. -/
theorem chatEnrolStep_succeeds (s : Store) (jobPost : JobPost) (jobId userId : Nat)
    (h : ∀ c ∈ s.chatAreas, c.jobPostId = jobId →
      ∀ p ∈ s.chatParticipants, ¬ (p.chatAreaId = c.id ∧ p.userId = userId)) :
    ∃ s3, chatEnrolStep s jobPost jobId userId = some s3 := by
  unfold chatEnrolStep
  split
  · split
    · rename_i chatArea hca
      have hm := List.mem_of_find?_eq_some hca
      have hj : chatArea.jobPostId = jobId := by
        have := List.find?_some hca
        simpa using this
      unfold Store.createChatParticipant
      rw [if_neg]
      · exact ⟨_, rfl⟩
      · simp only [List.any_eq_true, decide_eq_true_eq, not_exists, not_and]
        intro p hp hpa
        exact fun hu => h chatArea hm hj p hp ⟨hpa, hu⟩
    · exact ⟨_, rfl⟩
  · exact ⟨_, rfl⟩

/-- The handler `applyToJob` never writes the table of job posts. -/
theorem applyToJob_jobPosts (now : Nat) (s : Store) (user : Option Nat) (jobId : Nat)
    (body : ApplyBody) : (applyToJob now s user jobId body).1.jobPosts = s.jobPosts := by
  unfold applyToJob
  split
  · rfl
  · split
    · rfl
    · split
      · rfl
      · simp only
        split
        · exact customResumeStep_jobPosts _ _ _ _
        · split
          · simp [Store.createJobApplication, customResumeStep_jobPosts]
          · rename_i s3 hs3
            have hf := chatEnrolStep_frame hs3
            simp [Store.createNotification, hf.2.2, Store.createJobApplication,
              customResumeStep_jobPosts]

/-- The handler `applyToJob` keeps the invariant "at most one application per
(job post, job seeker) pair". -/
theorem applyToJob_oneApplicationPerPair (now : Nat) (s : Store) (user : Option Nat)
    (jobId : Nat) (body : ApplyBody) (h : s.oneApplicationPerPair) :
    (applyToJob now s user jobId body).1.oneApplicationPerPair := by
  unfold Store.oneApplicationPerPair at h ⊢
  rcases applyToJob_jobApplications now s user jobId body with
    ⟨heq, -⟩ | ⟨userId, a, -, hno, hj, hu, -, heq⟩
  · rw [heq]; exact h
  · rw [heq, List.pairwise_append]
    refine ⟨h, List.pairwise_singleton _ _, ?_⟩
    intro b hb c hc
    rw [List.mem_singleton] at hc
    subst hc
    intro hbc
    exact hno b hb ⟨hbc.1.trans hj, hbc.2.trans hu⟩

/-- A `findFirst` over a table that holds a matching row returns a row. -/
theorem exists_find_of_mem {α : Type} (p : α → Bool) (l : List α) (x : α) (hx : x ∈ l)
    (hp : p x = true) : ∃ y, l.find? p = some y := by
  cases hf : l.find? p with
  | some y => exact ⟨y, rfl⟩
  | none =>
    have := List.find?_eq_none.mp hf x hx
    exact absurd hp this

/-- The first attempt of `applyToJob` succeeds when the job post is open, the
pair has no application yet, the resume named by the request (if any) is one of
the caller, and the caller is not yet enrolled in a chat area of the job post. -/
theorem applyToJob_first_succeeds (now : Nat) (s : Store) (S J : Nat) (body : ApplyBody)
    (hJ : ∃ j ∈ s.jobPosts, j.id = J ∧ j.isActive = true ∧ now < j.applicationDeadline)
    (hfirst : ∀ a ∈ s.jobApplications, ¬ (a.jobPostId = J ∧ a.jobSeekerId = S))
    (hresume : body.customResume = none → ∀ r, body.resumeId = some r →
      ∃ x ∈ s.resumes, x.id = r ∧ x.userId = S)
    (hchat : ∀ c ∈ s.chatAreas, c.jobPostId = J →
      ∀ p ∈ s.chatParticipants, ¬ (p.chatAreaId = c.id ∧ p.userId = S)) :
    (applyToJob now s (some S) J body).2.status = 201 := by
  obtain ⟨j, hj, hjq⟩ := hJ
  obtain ⟨jobPost, hjp⟩ := exists_find_of_mem
    (fun j => decide (j.id = J ∧ j.isActive = true ∧ now < j.applicationDeadline))
    s.jobPosts j hj (by simpa using hjq)
  have happ : s.jobApplications.find? (fun a => decide (a.jobPostId = J ∧ a.jobSeekerId = S))
      = none := by
    rw [List.find?_eq_none]
    intro a ha
    simpa using hfirst a ha
  have hrf : resumeFound (customResumeStep s S jobPost.title body).1 S
      (customResumeStep s S jobPost.title body).2 = true := by
    unfold customResumeStep
    cases hc : body.customResume with
    | some c =>
      simp only [resumeFound, Store.createResume]
      rw [Bool.or_eq_true, List.find?_isSome]
      exact Or.inr ⟨_, List.mem_append_right _ (List.mem_singleton_self _), by simp⟩
    | none =>
      simp only [resumeFound]
      cases hr : body.resumeId with
      | none => rfl
      | some r =>
        obtain ⟨x, hx, hxq⟩ := hresume hc r hr
        simp only
        rw [Bool.or_eq_true, List.find?_isSome]
        exact Or.inr ⟨x, hx, by simpa using hxq⟩
  obtain ⟨s3, hs3⟩ := chatEnrolStep_succeeds
    ((customResumeStep s S jobPost.title body).1.createJobApplication J S
      (customResumeStep s S jobPost.title body).2 body.coverLetter "NOT_VIEWED").1 jobPost J S
    (by simpa [Store.createJobApplication, customResumeStep_chatAreas,
      customResumeStep_chatParticipants] using hchat)
  simp only [applyToJob, hjp, happ, hrf, hs3]
  simp

/-- C1, counterexample. In `demoStore` job post 10 is active with deadline 1000
and job seeker 1 has not applied; at time 500 the first `applyToJob` of seeker 1
that names the foreign resume 99 is answered 400 "Resume not found", not 201,
the store is unchanged, and the same request sent again is not answered with the
conflict response. -/
theorem applyToJob_first_attempt_can_fail :
    (∃ j ∈ demoStore.jobPosts, j.id = 10 ∧ j.isActive = true ∧ 500 < j.applicationDeadline) ∧
    demoStore.jobApplications = [] ∧
    applyToJob 500 demoStore (some 1) 10 foreignResumeApply =
      (demoStore, { status := 400, success := false, message := "Resume not found" }) ∧
    (applyToJob 500 demoStore (some 1) 10 foreignResumeApply).2.status ≠ 201 ∧
    (applyToJob 500 (applyToJob 500 demoStore (some 1) 10 foreignResumeApply).1 (some 1) 10
      foreignResumeApply).2.message ≠ "You have already applied to this job" := by
  decide

/-- C1, amended. Let job post `J` be active with its deadline after both request
times, let job seeker `S` have no application for `J`, let the first request
name no resume or a resume of `S` (or carry an inline resume), and let `S` not
yet be enrolled in a chat area of `J`. Then the first `applyToJob` succeeds
(201), a second `applyToJob` of `S` for `J`, with any body, is answered 400
"You have already applied to this job" and leaves the store as it is, and, when
the store held at most one application per (job post, job seeker) pair, it still
does after the first request and after any `applyToJob` request. -/
theorem applyToJob_twice (now1 now2 : Nat) (s : Store) (S J : Nat) (body1 body2 : ApplyBody)
    (hJ1 : ∃ j ∈ s.jobPosts, j.id = J ∧ j.isActive = true ∧ now1 < j.applicationDeadline)
    (hJ2 : ∃ j ∈ s.jobPosts, j.id = J ∧ j.isActive = true ∧ now2 < j.applicationDeadline)
    (hfirst : ∀ a ∈ s.jobApplications, ¬ (a.jobPostId = J ∧ a.jobSeekerId = S))
    (hresume : body1.customResume = none → ∀ r, body1.resumeId = some r →
      ∃ x ∈ s.resumes, x.id = r ∧ x.userId = S)
    (hchat : ∀ c ∈ s.chatAreas, c.jobPostId = J →
      ∀ p ∈ s.chatParticipants, ¬ (p.chatAreaId = c.id ∧ p.userId = S))
    (hinv : s.oneApplicationPerPair) :
    (applyToJob now1 s (some S) J body1).2.status = 201 ∧
    applyToJob now2 (applyToJob now1 s (some S) J body1).1 (some S) J body2 =
      ((applyToJob now1 s (some S) J body1).1,
        { status := 400, success := false, message := "You have already applied to this job" }) ∧
    (applyToJob now1 s (some S) J body1).1.oneApplicationPerPair ∧
    ∀ (now : Nat) (user : Option Nat) (jobId : Nat) (body : ApplyBody),
      (applyToJob now s user jobId body).1.oneApplicationPerPair := by
  have h201 := applyToJob_first_succeeds now1 s S J body1 hJ1 hfirst hresume hchat
  refine ⟨h201, ?_, applyToJob_oneApplicationPerPair _ _ _ _ _ hinv,
    fun now user jobId body => applyToJob_oneApplicationPerPair now s user jobId body hinv⟩
  rcases applyToJob_jobApplications now1 s (some S) J body1 with
    ⟨-, hne⟩ | ⟨userId, a, hu, -, haj, has, -, happs⟩
  · exact absurd h201 hne
  cases hu
  obtain ⟨j, hj, hjq⟩ := hJ2
  obtain ⟨jobPost, hjp⟩ := exists_find_of_mem
    (fun j => decide (j.id = J ∧ j.isActive = true ∧ now2 < j.applicationDeadline))
    (applyToJob now1 s (some S) J body1).1.jobPosts j
    (by rw [applyToJob_jobPosts]; exact hj) (by simpa using hjq)
  obtain ⟨b, hb⟩ := exists_find_of_mem
    (fun x => decide (x.jobPostId = J ∧ x.jobSeekerId = S))
    (applyToJob now1 s (some S) J body1).1.jobApplications a
    (by rw [happs]; exact List.mem_append_right _ (List.mem_singleton_self _))
    (by simp [haj, has])
  generalize (applyToJob now1 s (some S) J body1).1 = s1 at hjp hb ⊢
  simp only [applyToJob, hjp, hb]

/-- C1, witness: seeker 1 applies twice to job post 10 of `demoStore`. -/
theorem applyToJob_twice_witness :
    (applyToJob 500 demoStore (some 1) 10 plainApply).2.status = 201 ∧
    applyToJob 600 (applyToJob 500 demoStore (some 1) 10 plainApply).1 (some 1) 10 plainApply =
      ((applyToJob 500 demoStore (some 1) 10 plainApply).1,
        { status := 400, success := false, message := "You have already applied to this job" }) ∧
    (applyToJob 500 demoStore (some 1) 10 plainApply).1.oneApplicationPerPair ∧
    ∀ (now : Nat) (user : Option Nat) (jobId : Nat) (body : ApplyBody),
      (applyToJob now demoStore user jobId body).1.oneApplicationPerPair :=
  applyToJob_twice 500 600 demoStore 1 10 plainApply plainApply (by decide) (by decide)
    (by decide) (fun _ r hr => by simp [plainApply] at hr) (by decide) (by decide)

/-- C2. For an authenticated job seeker, `applyToJob` answers 404 and returns the
store as it was whenever no job post with the requested id is active with a
deadline strictly after the current time: the post is missing, inactive, or its
deadline has passed, whatever its active flag. -/
theorem applyToJob_notFound (now : Nat) (s : Store) (userId jobId : Nat) (body : ApplyBody)
    (h : ∀ j ∈ s.jobPosts, j.id = jobId → j.isActive = false ∨ j.applicationDeadline ≤ now) :
    applyToJob now s (some userId) jobId body =
      (s, { status := 404, success := false, message := "Job post not found or expired" }) := by
  have hfind : s.jobPosts.find? (fun j =>
      decide (j.id = jobId ∧ j.isActive = true ∧ now < j.applicationDeadline)) = none := by
    rw [List.find?_eq_none]
    intro j hj
    simp only [decide_eq_true_eq, not_and]
    intro hid hact
    rcases h j hj hid with h1 | h1
    · simp [h1] at hact
    · omega
  simp only [applyToJob, hfind]

/-- C2, witness: at time 1000 the deadline of the active job post 10 of
`demoStore` is no longer in the future. -/
theorem applyToJob_notFound_witness :
    (∀ j ∈ demoStore.jobPosts, j.id = 10 → j.isActive = false ∨ j.applicationDeadline ≤ 1000) ∧
    applyToJob 1000 demoStore (some 1) 10 plainApply =
      (demoStore, { status := 404, success := false, message := "Job post not found or expired" }) :=
  ⟨by decide, applyToJob_notFound 1000 demoStore 1 10 plainApply (by decide)⟩

/-- C3. Every successful `applyToJob` (status 201) appends exactly one application,
for the pair of the request and with status `NOT_VIEWED`, and exactly one
notification, owned by the company of the job post, of type `APPLICATION` and
related to the new application. -/
theorem applyToJob_success_effects (now : Nat) (s : Store) (user : Option Nat) (jobId : Nat)
    (body : ApplyBody) (h : (applyToJob now s user jobId body).2.status = 201) :
    ∃ userId a n jp,
      user = some userId ∧
      (applyToJob now s user jobId body).1.jobApplications = s.jobApplications ++ [a] ∧
      a.jobPostId = jobId ∧ a.jobSeekerId = userId ∧ a.status = "NOT_VIEWED" ∧
      (applyToJob now s user jobId body).1.notifications = s.notifications ++ [n] ∧
      jp ∈ s.jobPosts ∧ jp.id = jobId ∧ n.userId = jp.companyId ∧
      n.type = "APPLICATION" ∧ n.relatedId = a.id := by
  rcases hres : applyToJob now s user jobId body with ⟨s', r⟩
  rw [hres] at h
  simp only at h ⊢
  unfold applyToJob at hres
  split at hres
  · simp only [Prod.mk.injEq] at hres; obtain ⟨-, rfl⟩ := hres; simp at h
  · rename_i userId
    split at hres
    · simp only [Prod.mk.injEq] at hres; obtain ⟨-, rfl⟩ := hres; simp at h
    · rename_i jobPost hjp
      have hmem := List.mem_of_find?_eq_some hjp
      have hid : jobPost.id = jobId := by
        have := List.find?_some hjp
        simp only [decide_eq_true_eq] at this
        exact this.1
      split at hres
      · simp only [Prod.mk.injEq] at hres; obtain ⟨-, rfl⟩ := hres; simp at h
      · simp only at hres
        split at hres
        · simp only [Prod.mk.injEq] at hres; obtain ⟨-, rfl⟩ := hres; simp at h
        · split at hres
          · simp only [Prod.mk.injEq] at hres; obtain ⟨-, rfl⟩ := hres; simp at h
          · rename_i s3 hs3
            simp only [Prod.mk.injEq] at hres
            obtain ⟨rfl, -⟩ := hres
            have hf := chatEnrolStep_frame hs3
            refine ⟨userId, ((customResumeStep s userId jobPost.title body).1.createJobApplication
              jobId userId (customResumeStep s userId jobPost.title body).2 body.coverLetter
              "NOT_VIEWED").2,
              { id := s3.nextId, userId := jobPost.companyId, title := "New Job Application",
                message := "New application received for " ++ jobPost.title,
                type := "APPLICATION",
                relatedId := ((customResumeStep s userId jobPost.title body).1.createJobApplication
                  jobId userId (customResumeStep s userId jobPost.title body).2 body.coverLetter
                  "NOT_VIEWED").2.id },
              jobPost, rfl, ?_, rfl, rfl, rfl, ?_, hmem, hid, rfl, rfl, rfl⟩
            · simp [Store.createNotification, hf.1, Store.createJobApplication,
                customResumeStep_jobApplications]
            · simp [Store.createNotification, hf.2.1, Store.createJobApplication,
                customResumeStep_notifications]

/-- C3, witness: the first application of seeker 1 to job post 10 of `demoStore`. -/
theorem applyToJob_success_effects_witness :
    (applyToJob 500 demoStore (some 1) 10 plainApply).2.status = 201 ∧
    ∃ userId a n jp,
      some 1 = some userId ∧
      (applyToJob 500 demoStore (some 1) 10 plainApply).1.jobApplications =
        demoStore.jobApplications ++ [a] ∧
      a.jobPostId = 10 ∧ a.jobSeekerId = userId ∧ a.status = "NOT_VIEWED" ∧
      (applyToJob 500 demoStore (some 1) 10 plainApply).1.notifications =
        demoStore.notifications ++ [n] ∧
      jp ∈ demoStore.jobPosts ∧ jp.id = 10 ∧ n.userId = jp.companyId ∧
      n.type = "APPLICATION" ∧ n.relatedId = a.id :=
  ⟨by decide, applyToJob_success_effects 500 demoStore (some 1) 10 plainApply (by decide)⟩

/-! ## The direct subscription: `subscribeToCompany` -/

/-- C4. For an existing company `C`, an authenticated job seeker `S` and a valid
profile type `T`: when `S` has no job-seeker profile, `subscribeToCompany` answers
400 "Please create your job seeker profile first" and returns the store as it
was, so no subscription and no notification is created; when `S` has a profile,
the request is not answered with that validation error. -/
theorem subscribeToCompany_requires_profile (s : Store) (S C : Nat) (T : String)
    (hT : T = "EMPLOYABLE" ∨ T = "VIRTUAL_INTERN")
    (hC : ∃ u ∈ s.users, u.id = C ∧ u.userType = "COMPANY") :
    ((∀ p ∈ s.jobSeekerProfiles, p.userId ≠ S) →
      subscribeToCompany s (some S) C (some T) =
        (s, { status := 400, success := false,
              message := "Please create your job seeker profile first" })) ∧
    ((∃ p ∈ s.jobSeekerProfiles, p.userId = S) →
      (subscribeToCompany s (some S) C (some T)).2.message ≠
        "Please create your job seeker profile first") := by
  obtain ⟨u, hu, huq⟩ := hC
  obtain ⟨company, hcompany⟩ := exists_find_of_mem
    (fun u => decide (u.id = C ∧ u.userType = "COMPANY")) s.users u hu (by simpa using huq)
  have hvalid : ¬ (T = "" ∨ ¬ T ∈ ["EMPLOYABLE", "VIRTUAL_INTERN"]) := by
    rcases hT with rfl | rfl <;> decide
  constructor
  · intro hno
    have hprofile : s.jobSeekerProfiles.find? (fun p => decide (p.userId = S)) = none := by
      rw [List.find?_eq_none]
      intro p hp
      simpa using hno p hp
    simp only [subscribeToCompany, if_neg hvalid, hcompany, hprofile]
  · rintro ⟨p, hp, hpq⟩
    obtain ⟨profile, hprofile⟩ := exists_find_of_mem
      (fun p => decide (p.userId = S)) s.jobSeekerProfiles p hp (by simpa using hpq)
    simp only [subscribeToCompany, if_neg hvalid, hcompany, hprofile]
    split
    · rcases hT with rfl | rfl <;> simp only [ne_eq] <;> decide
    · rcases hT with rfl | rfl <;> simp only [ne_eq] <;> decide

/-- C4, witness: job seeker 4 of `demoStore` has no profile and subscribes to
company 2. -/
theorem subscribeToCompany_requires_profile_witness :
    (∀ p ∈ demoStore.jobSeekerProfiles, p.userId ≠ 4) ∧
    subscribeToCompany demoStore (some 4) 2 (some "EMPLOYABLE") =
      (demoStore, { status := 400, success := false,
                    message := "Please create your job seeker profile first" }) :=
  ⟨by decide,
    (subscribeToCompany_requires_profile demoStore 4 2 "EMPLOYABLE" (Or.inl rfl)
      (by decide)).1 (by decide)⟩

/-! ## The invitation workflow: `inviteJobseeker` and `respondToInvitation` -/

/-- The handler `subscribeToCompany` never writes the table of invitations and
never lowers the identifier counter. -/
theorem subscribeToCompany_invitations (s : Store) (user : Option Nat) (companyId : Nat)
    (profileType : Option String) :
    (subscribeToCompany s user companyId profileType).1.invitations = s.invitations ∧
      s.nextId ≤ (subscribeToCompany s user companyId profileType).1.nextId := by
  unfold subscribeToCompany
  split
  · exact ⟨rfl, le_rfl⟩
  · split
    · exact ⟨rfl, le_rfl⟩
    · split
      · exact ⟨rfl, le_rfl⟩
      · split
        · exact ⟨rfl, le_rfl⟩
        · split
          · exact ⟨rfl, le_rfl⟩
          · split
            · exact ⟨rfl, le_rfl⟩
            · simp only [Store.createNotification, Store.createCompanySubscription]
              exact ⟨trivial, by omega⟩

/-- What `inviteJobseeker` does to the table of invitations, on every path: it is
left alone, or, with status 201, one row is appended after the check for a
pending invitation of the triple found none. -/
theorem inviteJobseeker_invitations (now : Nat) (s : Store) (user : Option Nat)
    (jobseekerId : Nat) (profileType message : Option String) :
    s.nextId ≤ (inviteJobseeker now s user jobseekerId profileType message).1.nextId ∧
    (((inviteJobseeker now s user jobseekerId profileType message).1.invitations = s.invitations ∧
        (inviteJobseeker now s user jobseekerId profileType message).2.status ≠ 201) ∨
      ∃ C T, user = some C ∧ profileType = some T ∧
        (∀ i ∈ s.invitations, ¬ (i.companyId = C ∧ i.jobSeekerId = jobseekerId ∧
          i.profileType = T ∧ i.status = "PENDING")) ∧
        (inviteJobseeker now s user jobseekerId profileType message).2.status = 201 ∧
        (inviteJobseeker now s user jobseekerId profileType message).1.invitations =
          s.invitations ++
            [{ id := s.nextId, companyId := C, jobSeekerId := jobseekerId, profileType := T,
               message := message, status := "PENDING",
               expiresAt := now + 30 * 24 * 60 * 60 * 1000 }] ∧
        s.nextId < (inviteJobseeker now s user jobseekerId profileType message).1.nextId) := by
  unfold inviteJobseeker
  split
  · exact ⟨le_rfl, Or.inl ⟨rfl, by simp⟩⟩
  · rename_i C
    split
    · exact ⟨le_rfl, Or.inl ⟨rfl, by simp⟩⟩
    · rename_i T
      split
      · exact ⟨le_rfl, Or.inl ⟨rfl, by simp⟩⟩
      · split
        · exact ⟨le_rfl, Or.inl ⟨rfl, by simp⟩⟩
        · split
          · exact ⟨le_rfl, Or.inl ⟨rfl, by simp⟩⟩
          · rename_i hnone
            split
            · exact ⟨le_rfl, Or.inl ⟨rfl, by simp⟩⟩
            · refine ⟨?_, Or.inr ⟨C, T, rfl, rfl, ?_, rfl, ?_, ?_⟩⟩
              · simp only [Store.createNotification, Store.createInvitation]
                omega
              · intro i hi
                have := List.find?_eq_none.mp hnone i hi
                simpa using this
              · simp only [Store.createNotification, Store.createInvitation,
                  invitationDefaultStatus]
              · simp only [Store.createNotification, Store.createInvitation]
                omega

/-- What `respondToInvitation` does to the table of invitations, on every path:
it is left alone, or the rows with the requested id get the status `ACCEPTED`
or `DECLINED`. -/
theorem respondToInvitation_invitations (s : Store) (user : Option Nat) (invitationId : Nat)
    (action : Option String) :
    s.nextId ≤ (respondToInvitation s user invitationId action).1.nextId ∧
    ((respondToInvitation s user invitationId action).1.invitations = s.invitations ∨
      ∃ st, (st = "ACCEPTED" ∨ st = "DECLINED") ∧
        (respondToInvitation s user invitationId action).1.invitations =
          s.invitations.map (fun i => if i.id = invitationId then { i with status := st } else i)) := by
  unfold respondToInvitation
  split
  · exact ⟨le_rfl, Or.inl rfl⟩
  · split
    · exact ⟨le_rfl, Or.inl rfl⟩
    · split
      · exact ⟨le_rfl, Or.inl rfl⟩
      · split
        · refine ⟨?_, Or.inr ⟨"ACCEPTED", Or.inl rfl, ?_⟩⟩
          · simp only [Store.updateInvitationStatus, Store.createCompanySubscription]
            omega
          · simp only [Store.updateInvitationStatus, Store.createCompanySubscription]
        · exact ⟨le_rfl, Or.inr ⟨"DECLINED", Or.inr rfl, rfl⟩⟩

/-- C5, failing run. In `demoStore`, which holds no subscription and no
invitation, job seeker 1 subscribes to company 2 as `EMPLOYABLE` (201), company 2
invites the job seeker as `EMPLOYABLE` (201) and the job seeker accepts (200):
the acceptance inserts a second subscription for the triple, so the store after
the run holds two subscriptions for (2, 1, `EMPLOYABLE`). -/
theorem acceptedInvitation_duplicates_subscription :
    demoStore.companySubscriptions = [] ∧ demoStore.invitations = [] ∧
    (runRequests demoStore subscribeThenAccept).companySubscriptions =
      [{ id := 100, companyId := 2, jobSeekerId := 1, profileType := "EMPLOYABLE" },
       { id := 104, companyId := 2, jobSeekerId := 1, profileType := "EMPLOYABLE" }] ∧
    ¬ (runRequests demoStore subscribeThenAccept).oneSubscriptionPerTriple := by
  decide

/-- On a store whose invitation `I` (by id, of seeker `S`, pending) is found,
`respondToInvitation` answers 200. -/
theorem respondToInvitation_found_status (s : Store) (S I : Nat) (action : Option String)
    (haction : action = some "accept" ∨ action = some "decline")
    (h : ∃ i ∈ s.invitations, i.id = I ∧ i.jobSeekerId = S ∧ i.status = "PENDING") :
    (respondToInvitation s (some S) I action).2.status = 200 ∧
      ∃ st, (st = "ACCEPTED" ∨ st = "DECLINED") ∧
        (respondToInvitation s (some S) I action).1.invitations =
          s.invitations.map (fun i => if i.id = I then { i with status := st } else i) := by
  obtain ⟨i, hi, hiq⟩ := h
  obtain ⟨inv, hinv⟩ := exists_find_of_mem
    (fun i => decide (i.id = I ∧ i.jobSeekerId = S ∧ i.status = "PENDING")) s.invitations i hi
    (by simpa using hiq)
  unfold respondToInvitation
  simp only [hinv, not_not.mpr haction, if_false]
  split
  · exact ⟨rfl, "ACCEPTED", Or.inl rfl, rfl⟩
  · exact ⟨rfl, "DECLINED", Or.inr rfl, rfl⟩

/-- Without a pending invitation of the caller under the requested id,
`respondToInvitation` answers 404 and returns the store as it was. -/
theorem respondToInvitation_notFound (s : Store) (S I : Nat) (action : Option String)
    (haction : action = some "accept" ∨ action = some "decline")
    (h : ∀ i ∈ s.invitations, ¬ (i.id = I ∧ i.jobSeekerId = S ∧ i.status = "PENDING")) :
    respondToInvitation s (some S) I action =
      (s, { status := 404, success := false,
            message := "Invitation not found or already responded" }) := by
  have hfind : s.invitations.find? (fun i =>
      decide (i.id = I ∧ i.jobSeekerId = S ∧ i.status = "PENDING")) = none := by
    rw [List.find?_eq_none]
    intro i hi
    simpa using h i hi
  simp only [respondToInvitation, hfind, not_not.mpr haction, if_false]

/-- A request of the workflow keeps the facts "identifier `I` has been issued"
and "no invitation with id `I` is pending". -/
theorem InvitationRequest.run_keeps_resolved (I : Nat) (s : Store) (q : InvitationRequest)
    (hI : I < s.nextId) (h : ∀ i ∈ s.invitations, i.id = I → i.status ≠ "PENDING") :
    I < (q.run s).nextId ∧ ∀ i ∈ (q.run s).invitations, i.id = I → i.status ≠ "PENDING" := by
  cases q with
  | subscribe user companyId profileType =>
    have hs := subscribeToCompany_invitations s user companyId profileType
    simp only [InvitationRequest.run]
    rw [hs.1]
    exact ⟨lt_of_lt_of_le hI hs.2, h⟩
  | invite now user jobseekerId profileType message =>
    have hs := inviteJobseeker_invitations now s user jobseekerId profileType message
    simp only [InvitationRequest.run]
    refine ⟨lt_of_lt_of_le hI hs.1, ?_⟩
    rcases hs.2 with ⟨heq, -⟩ | ⟨C, T, -, -, -, -, heq, -⟩
    · rw [heq]; exact h
    · rw [heq]
      intro i hi hid
      rcases List.mem_append.mp hi with hi | hi
      · exact h i hi hid
      · rw [List.mem_singleton] at hi
        subst hi
        simp only at hid
        omega
  | respond user invitationId action =>
    have hs := respondToInvitation_invitations s user invitationId action
    simp only [InvitationRequest.run]
    refine ⟨lt_of_lt_of_le hI hs.1, ?_⟩
    rcases hs.2 with heq | ⟨st, hst, heq⟩
    · rw [heq]; exact h
    · rw [heq]
      intro i hi hid
      obtain ⟨j, hj, rfl⟩ := List.mem_map.mp hi
      by_cases hji : j.id = invitationId
      · simp only [hji, if_true]
        rcases hst with rfl | rfl <;> decide
      · simp only [hji, if_false] at hid ⊢
        exact h j hj hid

/-- An invitation id that has left `PENDING` stays resolved along every run. -/
theorem runRequests_keeps_resolved (I : Nat) (requests : List InvitationRequest) (s : Store)
    (hI : I < s.nextId) (h : ∀ i ∈ s.invitations, i.id = I → i.status ≠ "PENDING") :
    ∀ i ∈ (runRequests s requests).invitations, i.id = I → i.status ≠ "PENDING" := by
  induction requests generalizing s with
  | nil => exact h
  | cons q rest ih =>
    have hq := InvitationRequest.run_keeps_resolved I s q hI h
    exact ih (q.run s) hq.1 hq.2

/-- A request of the workflow keeps the fact that the invitation ids were issued
by the identifier counter. -/
theorem InvitationRequest.run_invitationIdsIssued (s : Store) (q : InvitationRequest)
    (h : s.invitationIdsIssued) : (q.run s).invitationIdsIssued := by
  unfold Store.invitationIdsIssued at h ⊢
  cases q with
  | subscribe user companyId profileType =>
    have hs := subscribeToCompany_invitations s user companyId profileType
    simp only [InvitationRequest.run]
    rw [hs.1]
    exact fun i hi => lt_of_lt_of_le (h i hi) hs.2
  | invite now user jobseekerId profileType message =>
    have hs := inviteJobseeker_invitations now s user jobseekerId profileType message
    simp only [InvitationRequest.run]
    rcases hs.2 with ⟨heq, -⟩ | ⟨C, T, -, -, -, -, heq, hlt⟩
    · rw [heq]
      exact fun i hi => lt_of_lt_of_le (h i hi) hs.1
    · rw [heq]
      intro i hi
      rcases List.mem_append.mp hi with hi | hi
      · exact lt_of_lt_of_le (h i hi) hs.1
      · rw [List.mem_singleton] at hi
        subst hi
        exact hlt
  | respond user invitationId action =>
    have hs := respondToInvitation_invitations s user invitationId action
    simp only [InvitationRequest.run]
    rcases hs.2 with heq | ⟨st, -, heq⟩
    · rw [heq]
      exact fun i hi => lt_of_lt_of_le (h i hi) hs.1
    · rw [heq]
      intro i hi
      obtain ⟨j, hj, rfl⟩ := List.mem_map.mp hi
      have hji : (if j.id = invitationId then { j with status := st } else j).id = j.id := by
        split <;> rfl
      rw [hji]
      exact lt_of_lt_of_le (h j hj) hs.1

/-- Every store reached from one whose invitation ids were issued by the
identifier counter has this property. -/
theorem runRequests_invitationIdsIssued (requests : List InvitationRequest) (s : Store)
    (h : s.invitationIdsIssued) : (runRequests s requests).invitationIdsIssued := by
  induction requests generalizing s with
  | nil => exact h
  | cons q rest ih => exact ih (q.run s) (InvitationRequest.run_invitationIdsIssued s q h)

/-- C6. For an authenticated job seeker `S`, an invitation id `I` and an action
among `accept` and `decline`, on a store whose invitation ids were issued by the
identifier counter: without a pending invitation `I` of `S`,
`respondToInvitation` answers 404 and returns the store as it was; with one, the
response succeeds (200), and after it every response to `I`, by any job seeker
and after any further requests of the subscription and invitation workflow, is
answered 404 and changes nothing. -/
theorem respondToInvitation_pending_gate (s : Store) (S I : Nat) (action : Option String)
    (haction : action = some "accept" ∨ action = some "decline")
    (hids : s.invitationIdsIssued) :
    ((∀ i ∈ s.invitations, ¬ (i.id = I ∧ i.jobSeekerId = S ∧ i.status = "PENDING")) →
      respondToInvitation s (some S) I action =
        (s, { status := 404, success := false,
              message := "Invitation not found or already responded" })) ∧
    ((∃ i ∈ s.invitations, i.id = I ∧ i.jobSeekerId = S ∧ i.status = "PENDING") →
      (respondToInvitation s (some S) I action).2.status = 200 ∧
      ∀ (later : List InvitationRequest) (S' : Nat) (action' : Option String),
        (action' = some "accept" ∨ action' = some "decline") →
        respondToInvitation (runRequests (respondToInvitation s (some S) I action).1 later)
            (some S') I action' =
          (runRequests (respondToInvitation s (some S) I action).1 later,
            { status := 404, success := false,
              message := "Invitation not found or already responded" })) := by
  refine ⟨respondToInvitation_notFound s S I action haction, ?_⟩
  intro hex
  obtain ⟨h200, st, hst, hmap⟩ := respondToInvitation_found_status s S I action haction hex
  refine ⟨h200, ?_⟩
  intro later S' action' haction'
  apply respondToInvitation_notFound _ S' I action' haction'
  have hI : I < (respondToInvitation s (some S) I action).1.nextId := by
    obtain ⟨i, hi, hiq⟩ := hex
    have := hids i hi
    have hle := (respondToInvitation_invitations s (some S) I action).1
    omega
  have hres : ∀ i ∈ (respondToInvitation s (some S) I action).1.invitations,
      i.id = I → i.status ≠ "PENDING" := by
    rw [hmap]
    intro i hi hid
    obtain ⟨j, hj, rfl⟩ := List.mem_map.mp hi
    by_cases hji : j.id = I
    · simp only [hji, if_true]
      rcases hst with rfl | rfl <;> decide
    · simp only [hji, if_false] at hid
  intro i hi hq
  exact runRequests_keeps_resolved I later _ hI hres i hi hq.1 hq.2.2

/-- C6, witness: job seeker 1 accepts the pending invitation 100 of
`invitedStore`. -/
theorem respondToInvitation_pending_gate_witness :
    (∃ i ∈ invitedStore.invitations, i.id = 100 ∧ i.jobSeekerId = 1 ∧ i.status = "PENDING") ∧
    (respondToInvitation invitedStore (some 1) 100 (some "accept")).2.status = 200 ∧
    ∀ (later : List InvitationRequest) (S' : Nat) (action' : Option String),
      (action' = some "accept" ∨ action' = some "decline") →
      respondToInvitation
          (runRequests (respondToInvitation invitedStore (some 1) 100 (some "accept")).1 later)
          (some S') 100 action' =
        (runRequests (respondToInvitation invitedStore (some 1) 100 (some "accept")).1 later,
          { status := 404, success := false,
            message := "Invitation not found or already responded" }) :=
  ⟨by decide,
    (respondToInvitation_pending_gate invitedStore 1 100 (some "accept") (Or.inl rfl)
      (by decide)).2 (by decide)⟩

/-- C7. Let `inv` be a pending invitation of job seeker `S`, the only row with
its id. Answered by `S` with `accept`, `respondToInvitation` succeeds, sets the
status of `inv` to `ACCEPTED` and appends exactly one subscription, with the
company and profile type of `inv` and job seeker `S`; answered with `decline`, it
succeeds, sets the status of `inv` to `DECLINED` and changes nothing else. So
the response changes the table of subscriptions if and only if it is `accept`. -/
theorem respondToInvitation_effects (s : Store) (S : Nat) (inv : Invitation)
    (hmem : inv ∈ s.invitations) (hS : inv.jobSeekerId = S) (hpending : inv.status = "PENDING")
    (hkey : ∀ i ∈ s.invitations, i.id = inv.id → i = inv) :
    respondToInvitation s (some S) inv.id (some "accept") =
      ({ s with
          companySubscriptions :=
            s.companySubscriptions ++
              [{ id := s.nextId, companyId := inv.companyId, jobSeekerId := S,
                 profileType := inv.profileType }],
          invitations :=
            s.invitations.map (fun i => if i = inv then { inv with status := "ACCEPTED" } else i),
          nextId := s.nextId + 1 },
        { status := 200, success := true,
          message := "Invitation accepted. You are now subscribed as " ++ inv.profileType ++ "." }) ∧
    respondToInvitation s (some S) inv.id (some "decline") =
      ({ s with
          invitations :=
            s.invitations.map (fun i => if i = inv then { inv with status := "DECLINED" } else i) },
        { status := 200, success := true, message := "Invitation declined." }) ∧
    ∀ action : Option String, action = some "accept" ∨ action = some "decline" →
      ((respondToInvitation s (some S) inv.id action).1.companySubscriptions ≠
          s.companySubscriptions ↔ action = some "accept") := by
  obtain ⟨found, hfound⟩ := exists_find_of_mem
    (fun i => decide (i.id = inv.id ∧ i.jobSeekerId = S ∧ i.status = "PENDING")) s.invitations
    inv hmem (by simp [hS, hpending])
  have hfi : found = inv := by
    have h1 := List.mem_of_find?_eq_some hfound
    have h2 := List.find?_some hfound
    simp only [decide_eq_true_eq] at h2
    exact hkey found h1 h2.1
  subst hfi
  have hmap : ∀ st : String,
      s.invitations.map (fun i => if i.id = found.id then { i with status := st } else i) =
        s.invitations.map (fun i => if i = found then { found with status := st } else i) := by
    intro st
    apply List.map_congr_left
    intro i hi
    by_cases hid : i.id = found.id
    · have := hkey i hi hid
      subst this
      simp
    · have hne : i ≠ found := fun h => hid (by rw [h])
      simp [hid, hne]
  have haccept : respondToInvitation s (some S) found.id (some "accept") =
      ({ s with
          companySubscriptions :=
            s.companySubscriptions ++
              [{ id := s.nextId, companyId := found.companyId, jobSeekerId := S,
                 profileType := found.profileType }],
          invitations :=
            s.invitations.map (fun i =>
              if i = found then { found with status := "ACCEPTED" } else i),
          nextId := s.nextId + 1 },
        { status := 200, success := true,
          message := "Invitation accepted. You are now subscribed as " ++ found.profileType ++
            "." }) := by
    simp only [respondToInvitation, hfound, Store.updateInvitationStatus,
      Store.createCompanySubscription, hmap]
    simp
  have hdecline : respondToInvitation s (some S) found.id (some "decline") =
      ({ s with
          invitations :=
            s.invitations.map (fun i =>
              if i = found then { found with status := "DECLINED" } else i) },
        { status := 200, success := true, message := "Invitation declined." }) := by
    simp only [respondToInvitation, hfound, Store.updateInvitationStatus, hmap]
    simp
  refine ⟨haccept, hdecline, ?_⟩
  intro action haction
  rcases haction with rfl | rfl
  · rw [haccept]
    simp
  · rw [hdecline]
    simp

/-- C7, witness: job seeker 1 answers the pending invitation of `invitedStore`. -/
theorem respondToInvitation_effects_witness :
    demoInvitation ∈ invitedStore.invitations ∧ demoInvitation.status = "PENDING" ∧
    respondToInvitation invitedStore (some 1) demoInvitation.id (some "accept") =
      ({ invitedStore with
          companySubscriptions :=
            invitedStore.companySubscriptions ++
              [{ id := invitedStore.nextId, companyId := demoInvitation.companyId,
                 jobSeekerId := 1, profileType := demoInvitation.profileType }],
          invitations :=
            invitedStore.invitations.map (fun i =>
              if i = demoInvitation then { demoInvitation with status := "ACCEPTED" } else i),
          nextId := invitedStore.nextId + 1 },
        { status := 200, success := true,
          message := "Invitation accepted. You are now subscribed as " ++
            demoInvitation.profileType ++ "." }) :=
  ⟨by decide, by decide,
    (respondToInvitation_effects invitedStore 1 demoInvitation (by decide) (by decide)
      (by decide) (by decide)).1⟩

/-- The handler `inviteJobseeker` answers 400 "Invitation already sent and
pending" and returns the store as it was when the triple has a pending
invitation. -/
theorem inviteJobseeker_pending_conflict (now : Nat) (s : Store) (C S : Nat) (T : String)
    (message : Option String) (hT : T = "EMPLOYABLE" ∨ T = "VIRTUAL_INTERN")
    (hS : ∃ u ∈ s.users, u.id = S ∧ u.userType = "JOB_SEEKER")
    (hp : ∃ i ∈ s.invitations, i.companyId = C ∧ i.jobSeekerId = S ∧ i.profileType = T ∧
      i.status = "PENDING") :
    inviteJobseeker now s (some C) S (some T) message =
      (s, { status := 400, success := false, message := "Invitation already sent and pending" }) := by
  obtain ⟨u, hu, huq⟩ := hS
  obtain ⟨seeker, hseeker⟩ := exists_find_of_mem
    (fun u => decide (u.id = S ∧ u.userType = "JOB_SEEKER")) s.users u hu (by simpa using huq)
  obtain ⟨i, hi, hiq⟩ := hp
  obtain ⟨pending, hpending⟩ := exists_find_of_mem
    (fun i => decide (i.companyId = C ∧ i.jobSeekerId = S ∧ i.profileType = T ∧
      i.status = "PENDING")) s.invitations i hi (by simpa using hiq)
  have hvalid : ¬ (T = "" ∨ ¬ T ∈ ["EMPLOYABLE", "VIRTUAL_INTERN"]) := by
    rcases hT with rfl | rfl <;> decide
  simp only [inviteJobseeker, if_neg hvalid, hseeker, hpending]

/-- A request of the subscription and invitation workflow keeps the invariant
"at most one pending invitation per triple". -/
theorem InvitationRequest.run_onePendingPerTriple (s : Store) (q : InvitationRequest)
    (h : s.onePendingPerTriple) : (q.run s).onePendingPerTriple := by
  unfold Store.onePendingPerTriple at h ⊢
  cases q with
  | subscribe user companyId profileType =>
    simp only [InvitationRequest.run]
    rw [(subscribeToCompany_invitations s user companyId profileType).1]
    exact h
  | invite now user jobseekerId profileType message =>
    simp only [InvitationRequest.run]
    rcases (inviteJobseeker_invitations now s user jobseekerId profileType message).2 with
      ⟨heq, -⟩ | ⟨C, T, -, -, hno, -, heq, -⟩
    · rw [heq]; exact h
    · rw [heq, List.pairwise_append]
      refine ⟨h, List.pairwise_singleton _ _, ?_⟩
      intro a ha b hb
      rw [List.mem_singleton] at hb
      subst hb
      intro hab
      exact hno a ha ⟨hab.2.2.1, hab.2.2.2.1, hab.2.2.2.2, hab.1⟩
  | respond user invitationId action =>
    simp only [InvitationRequest.run]
    rcases (respondToInvitation_invitations s user invitationId action).2 with
      heq | ⟨st, hst, heq⟩
    · rw [heq]; exact h
    · rw [heq, List.pairwise_map]
      refine h.imp ?_
      intro a b hab hmapped
      have hst' : st ≠ "PENDING" := by rcases hst with rfl | rfl <;> decide
      apply hab
      by_cases ha : a.id = invitationId
      · simp only [ha, if_true] at hmapped
        exact absurd hmapped.1 hst'
      · by_cases hb : b.id = invitationId
        · simp only [hb, if_true] at hmapped
          exact absurd hmapped.2.1 hst'
        · simpa only [ha, hb, if_false] using hmapped

/-- Every run of the workflow keeps the invariant "at most one pending invitation
per triple". -/
theorem runRequests_onePendingPerTriple (requests : List InvitationRequest) (s : Store)
    (h : s.onePendingPerTriple) : (runRequests s requests).onePendingPerTriple := by
  induction requests generalizing s with
  | nil => exact h
  | cons q rest ih => exact ih (q.run s) (InvitationRequest.run_onePendingPerTriple s q h)

/-- C8. Starting from a store with at most one pending invitation per (company,
job seeker, profile type) triple, every store reached through requests of the
subscription and invitation workflow (`subscribeToCompany`, `inviteJobseeker`,
`respondToInvitation`) has at most one pending invitation per triple; and in
such a store `inviteJobseeker`, called by a company for an existing job seeker
and a valid profile type whose triple has a pending invitation, answers 400
"Invitation already sent and pending" and creates nothing; whatever the job
seeker and the profile type, a call for a triple with a pending invitation does
not succeed and leaves the table of invitations as it was. -/
theorem onePendingPerTriple_invariant (s : Store) (requests : List InvitationRequest)
    (h : s.onePendingPerTriple) :
    (runRequests s requests).onePendingPerTriple ∧
    (∀ (now C S : Nat) (T : String) (message : Option String),
      (T = "EMPLOYABLE" ∨ T = "VIRTUAL_INTERN") →
      (∃ u ∈ (runRequests s requests).users, u.id = S ∧ u.userType = "JOB_SEEKER") →
      (∃ i ∈ (runRequests s requests).invitations,
        i.companyId = C ∧ i.jobSeekerId = S ∧ i.profileType = T ∧ i.status = "PENDING") →
      inviteJobseeker now (runRequests s requests) (some C) S (some T) message =
        (runRequests s requests,
          { status := 400, success := false, message := "Invitation already sent and pending" })) ∧
    ∀ (now C S : Nat) (T : String) (message : Option String),
      (∃ i ∈ (runRequests s requests).invitations,
        i.companyId = C ∧ i.jobSeekerId = S ∧ i.profileType = T ∧ i.status = "PENDING") →
      (inviteJobseeker now (runRequests s requests) (some C) S (some T) message).2.status ≠ 201 ∧
      (inviteJobseeker now (runRequests s requests) (some C) S (some T) message).1.invitations =
        (runRequests s requests).invitations := by
  refine ⟨runRequests_onePendingPerTriple requests s h,
    fun now C S T message hT hS hp =>
      inviteJobseeker_pending_conflict now (runRequests s requests) C S T message hT hS hp, ?_⟩
  intro now C S T message hp
  rcases (inviteJobseeker_invitations now (runRequests s requests) (some C) S (some T)
    message).2 with ⟨heq, hne⟩ | ⟨C', T', hu, hT, hno, -⟩
  · exact ⟨hne, heq⟩
  · cases hu
    cases hT
    obtain ⟨i, hi, hiq⟩ := hp
    exact absurd hiq (hno i hi)

/-- C8, witness: the run `reinviteRun` from `invitedStore`, which holds one
pending invitation. -/
theorem onePendingPerTriple_invariant_witness :
    invitedStore.onePendingPerTriple ∧
    (runRequests invitedStore reinviteRun).onePendingPerTriple :=
  ⟨by decide, (onePendingPerTriple_invariant invitedStore reinviteRun (by decide)).1⟩

/-- C9. Every successful `inviteJobseeker` (status 201) by company `C` for job
seeker `S` with profile type `T` appends exactly one invitation: its status is
`PENDING`, its company `C`, its job seeker `S`, its profile type `T`, its message
the message of the request, and its expiry the request time plus
30 * 24 * 60 * 60 * 1000 milliseconds. -/
theorem inviteJobseeker_created (now : Nat) (s : Store) (user : Option Nat) (S : Nat)
    (profileType message : Option String)
    (h : (inviteJobseeker now s user S profileType message).2.status = 201) :
    ∃ C T inv,
      user = some C ∧ profileType = some T ∧
      (inviteJobseeker now s user S profileType message).1.invitations =
        s.invitations ++ [inv] ∧
      inv.status = "PENDING" ∧ inv.companyId = C ∧ inv.jobSeekerId = S ∧
      inv.profileType = T ∧ inv.message = message ∧
      inv.expiresAt = now + 30 * 24 * 60 * 60 * 1000 := by
  rcases (inviteJobseeker_invitations now s user S profileType message).2 with
    ⟨-, hne⟩ | ⟨C, T, hu, hT, -, -, heq, -⟩
  · exact absurd h hne
  · exact ⟨C, T, _, hu, hT, heq, rfl, rfl, rfl, rfl, rfl, rfl⟩

/-- C9, witness: company 2 invites job seeker 1 of `demoStore` at time 500. -/
theorem inviteJobseeker_created_witness :
    (inviteJobseeker 500 demoStore (some 2) 1 (some "EMPLOYABLE") none).2.status = 201 ∧
    ∃ C T inv,
      some 2 = some C ∧ some "EMPLOYABLE" = some T ∧
      (inviteJobseeker 500 demoStore (some 2) 1 (some "EMPLOYABLE") none).1.invitations =
        demoStore.invitations ++ [inv] ∧
      inv.status = "PENDING" ∧ inv.companyId = C ∧ inv.jobSeekerId = 1 ∧
      inv.profileType = T ∧ inv.message = none ∧
      inv.expiresAt = 500 + 30 * 24 * 60 * 60 * 1000 :=
  ⟨by decide,
    inviteJobseeker_created 500 demoStore (some 2) 1 (some "EMPLOYABLE") none (by decide)⟩

/-! ## The status of an application: `updateApplicantStatus` -/

/-- C10, counterexample. In `appliedStore` application 100 belongs to a job post
of company 2; company 5, which does not own it, sends the status `NOT_VIEWED`:
the answer is 400 "Invalid status", neither 403 nor 404. -/
theorem updateApplicantStatus_foreign_invalid_status :
    (∀ a ∈ appliedStore.jobApplications, a.id = 100 →
      ∀ j ∈ appliedStore.jobPosts, j.id = a.jobPostId → j.companyId ≠ 5) ∧
    updateApplicantStatus appliedStore (some 5) 100 (some "NOT_VIEWED") =
      (appliedStore, { status := 400, success := false, message := "Invalid status" }) ∧
    (updateApplicantStatus appliedStore (some 5) 100 (some "NOT_VIEWED")).2.status ≠ 404 ∧
    (updateApplicantStatus appliedStore (some 5) 100 (some "NOT_VIEWED")).2.status ≠ 403 := by
  decide

/-- C10, amended. Let application `A` belong to no job post owned by the
authenticated company `C`. With a status among `VIEWED`, `SHORTLISTED`,
`INTERVIEW_SCHEDULED`, `REJECTED` and `ACCEPTED`, `updateApplicantStatus` answers
404 "Application not found"; with any other status value, or none, it answers 400
"Invalid status". In both cases the store is returned as it was: no
application, chat participant or notification changes. -/
theorem updateApplicantStatus_requires_ownership (s : Store) (C A : Nat)
    (status : Option String)
    (hown : ∀ a ∈ s.jobApplications, a.id = A →
      ∀ j ∈ s.jobPosts, j.id = a.jobPostId → j.companyId ≠ C) :
    ((∃ v, status = some v ∧
        v ∈ ["VIEWED", "SHORTLISTED", "INTERVIEW_SCHEDULED", "REJECTED", "ACCEPTED"]) →
      updateApplicantStatus s (some C) A status =
        (s, { status := 404, success := false, message := "Application not found" })) ∧
    ((∀ v, status = some v →
        ¬ v ∈ ["VIEWED", "SHORTLISTED", "INTERVIEW_SCHEDULED", "REJECTED", "ACCEPTED"]) →
      updateApplicantStatus s (some C) A status =
        (s, { status := 400, success := false, message := "Invalid status" })) := by
  constructor
  · rintro ⟨v, rfl, hv⟩
    have hfind : s.jobApplications.find? (fun a => decide (a.id = A) && s.ownedBy C a) = none := by
      rw [List.find?_eq_none]
      intro a ha
      simp only [Bool.and_eq_true, decide_eq_true_eq, not_and, Bool.not_eq_true]
      intro hid
      unfold Store.ownedBy Store.jobPostOf
      split
      · rename_i j hj
        have h1 := List.mem_of_find?_eq_some hj
        have h2 := List.find?_some hj
        simp only [decide_eq_true_eq] at h2
        simpa using hown a ha hid j h1 h2
      · rfl
    simp only [updateApplicantStatus, hfind, not_not.mpr hv, if_false]
  · intro hv
    cases status with
    | none => rfl
    | some v =>
      simp only [updateApplicantStatus, if_pos (hv v rfl)]

/-- C10, witness: company 5 sends `ACCEPTED` for application 100 of
`appliedStore`, which belongs to a job post of company 2. -/
theorem updateApplicantStatus_requires_ownership_witness :
    (∀ a ∈ appliedStore.jobApplications, a.id = 100 →
      ∀ j ∈ appliedStore.jobPosts, j.id = a.jobPostId → j.companyId ≠ 5) ∧
    updateApplicantStatus appliedStore (some 5) 100 (some "ACCEPTED") =
      (appliedStore, { status := 404, success := false, message := "Application not found" }) :=
  ⟨by decide,
    (updateApplicantStatus_requires_ownership appliedStore 5 100 (some "ACCEPTED")
      (by decide)).1 ⟨"ACCEPTED", rfl, by decide⟩⟩

/-! ## The status of an application: effects of `updateApplicantStatus` -/

/-- The handler `updateApplicantStatus` on its success path: for an accepted
status value, an application found for the calling company and the job post of
that application, the answer is 200 and the store is the one after the status
update, the chat enrolment and the notification. -/
theorem updateApplicantStatus_found (s : Store) (C A : Nat) (v : String) (a : JobApplication)
    (j : JobPost)
    (hv : v ∈ ["VIEWED", "SHORTLISTED", "INTERVIEW_SCHEDULED", "REJECTED", "ACCEPTED"])
    (ha : s.jobApplications.find? (fun a => decide (a.id = A) && s.ownedBy C a) = some a)
    (hj : s.jobPostOf a = some j) :
    updateApplicantStatus s (some C) A (some v) =
      ((acceptedEnrolStep (s.updateApplicationStatus A v) v j a).createNotification a.jobSeekerId
          "Application Status Updated"
          ("Your application for " ++ j.title ++ " has been " ++ toLowerCase v)
          "APPLICATION_STATUS" a.id,
        { status := 200, success := true,
          message := "Application status updated successfully" }) := by
  simp only [updateApplicantStatus, not_not.mpr hv, if_false, ha, hj, acceptedEnrolStep]

/-- A 200 answer of `updateApplicantStatus` comes from its success path. -/
theorem updateApplicantStatus_ok (s : Store) (user : Option Nat) (A : Nat)
    (status : Option String) (h : (updateApplicantStatus s user A status).2.status = 200) :
    ∃ C v a j, user = some C ∧ status = some v ∧
      v ∈ ["VIEWED", "SHORTLISTED", "INTERVIEW_SCHEDULED", "REJECTED", "ACCEPTED"] ∧
      s.jobApplications.find? (fun a => decide (a.id = A) && s.ownedBy C a) = some a ∧
      s.jobPostOf a = some j := by
  unfold updateApplicantStatus at h
  split at h
  · simp at h
  · rename_i C
    split at h
    · simp at h
    · rename_i v
      split at h
      · simp at h
      · rename_i hv
        split at h
        · simp at h
        · rename_i a ha
          split at h
          · simp at h
          · rename_i j hj
            exact ⟨C, v, a, j, rfl, rfl, not_not.mp hv, ha, hj⟩

/-- The chat enrolment on acceptance writes only the table of chat participants
and the identifier counter. -/
theorem acceptedEnrolStep_frame (s : Store) (v : String) (j : JobPost) (a : JobApplication) :
    (acceptedEnrolStep s v j a).jobApplications = s.jobApplications ∧
      (acceptedEnrolStep s v j a).notifications = s.notifications ∧
      (acceptedEnrolStep s v j a).jobPosts = s.jobPosts ∧
      (acceptedEnrolStep s v j a).chatAreas = s.chatAreas ∧
      s.nextId ≤ (acceptedEnrolStep s v j a).nextId := by
  unfold acceptedEnrolStep
  split
  · split
    · unfold Store.upsertChatParticipant
      split
      · exact ⟨rfl, rfl, rfl, rfl, le_rfl⟩
      · exact ⟨rfl, rfl, rfl, rfl, Nat.le_succ _⟩
    · exact ⟨rfl, rfl, rfl, rfl, le_rfl⟩
  · exact ⟨rfl, rfl, rfl, rfl, le_rfl⟩

/-- A `findFirst` returns the row `a` when `a` is in the table, matches, and is
the only matching row. -/
theorem find_eq_of_key {α : Type} (p : α → Bool) (l : List α) (a : α) (ha : a ∈ l)
    (hp : p a = true) (hkey : ∀ b ∈ l, p b = true → b = a) : l.find? p = some a := by
  obtain ⟨b, hb⟩ := exists_find_of_mem p l a ha hp
  rw [hb, hkey b (List.mem_of_find?_eq_some hb) (List.find?_some hb)]

/-- The handler `updateApplicantStatus` answers 200 or leaves the store as it
was. -/
theorem updateApplicantStatus_failed (s : Store) (user : Option Nat) (A : Nat)
    (status : Option String) :
    ((updateApplicantStatus s user A status).1 = s ∧
        (updateApplicantStatus s user A status).2.status ≠ 200) ∨
      (updateApplicantStatus s user A status).2.status = 200 := by
  unfold updateApplicantStatus
  split
  · exact Or.inl ⟨rfl, by simp⟩
  · split
    · exact Or.inl ⟨rfl, by simp⟩
    · split
      · exact Or.inl ⟨rfl, by simp⟩
      · split
        · exact Or.inl ⟨rfl, by simp⟩
        · split
          · exact Or.inl ⟨rfl, by simp⟩
          · exact Or.inr rfl

/-- What `updateApplicantStatus` does to the table of applications, on every
path: it is left alone, or, with status 200, the rows with the requested id get
the requested status, one of the five accepted values. -/
theorem updateApplicantStatus_jobApplications (s : Store) (user : Option Nat) (A : Nat)
    (status : Option String) :
    ((updateApplicantStatus s user A status).1.jobApplications = s.jobApplications ∧
        (updateApplicantStatus s user A status).2.status ≠ 200) ∨
      ∃ v, status = some v ∧
        v ∈ ["VIEWED", "SHORTLISTED", "INTERVIEW_SCHEDULED", "REJECTED", "ACCEPTED"] ∧
        (updateApplicantStatus s user A status).2.status = 200 ∧
        (updateApplicantStatus s user A status).1.jobApplications =
          s.jobApplications.map (fun a => if a.id = A then { a with status := v } else a) := by
  by_cases h : (updateApplicantStatus s user A status).2.status = 200
  · right
    obtain ⟨C, v, a, j, rfl, rfl, hv, ha, hj⟩ := updateApplicantStatus_ok s user A status h
    refine ⟨v, rfl, hv, h, ?_⟩
    rw [updateApplicantStatus_found s C A v a j hv ha hj]
    simp only [Store.createNotification, (acceptedEnrolStep_frame _ v j a).1,
      Store.updateApplicationStatus]
  · left
    rcases updateApplicantStatus_failed s user A status with ⟨hs, -⟩ | h200
    · exact ⟨by rw [hs], h⟩
    · exact absurd h200 h

/-- C11, counterexample. In `rejectedStore` application 100 has status `REJECTED`
and belongs to job post 10 of company 2; company 2 sends the defined status
value `NOT_VIEWED`: the answer is 400 "Invalid status" and the application keeps
the status `REJECTED`. -/
theorem updateApplicantStatus_rejects_notViewed :
    (∃ a ∈ rejectedStore.jobApplications, a.id = 100 ∧ a.status = "REJECTED" ∧
      ∃ j ∈ rejectedStore.jobPosts, j.id = a.jobPostId ∧ j.companyId = 2) ∧
    updateApplicantStatus rejectedStore (some 2) 100 (some "NOT_VIEWED") =
      (rejectedStore, { status := 400, success := false, message := "Invalid status" }) ∧
    (updateApplicantStatus rejectedStore (some 2) 100 (some "NOT_VIEWED")).1.jobApplications.map
      (fun a => a.status) = ["REJECTED"] := by
  decide

/-- C11, amended. Let application `a` (the only row with its id) belong to job
post `j` (the only row with its id), owned by the calling company `C`. With any
of the status values `VIEWED`, `SHORTLISTED`, `INTERVIEW_SCHEDULED`, `REJECTED`
and `ACCEPTED`, `updateApplicantStatus` answers 200 and sets the status of `a` to
that value, leaving the other applications as they were; with `NOT_VIEWED` it
answers 400 "Invalid status" and changes nothing. -/
theorem updateApplicantStatus_sets_status (s : Store) (C : Nat) (a : JobApplication)
    (j : JobPost) (ha : a ∈ s.jobApplications)
    (hakey : ∀ b ∈ s.jobApplications, b.id = a.id → b = a)
    (hj : j ∈ s.jobPosts) (hjid : j.id = a.jobPostId)
    (hjkey : ∀ k ∈ s.jobPosts, k.id = j.id → k = j) (hown : j.companyId = C) :
    (∀ v ∈ ["VIEWED", "SHORTLISTED", "INTERVIEW_SCHEDULED", "REJECTED", "ACCEPTED"],
      (updateApplicantStatus s (some C) a.id (some v)).2.status = 200 ∧
      (updateApplicantStatus s (some C) a.id (some v)).1.jobApplications =
        s.jobApplications.map (fun b => if b = a then { a with status := v } else b)) ∧
    updateApplicantStatus s (some C) a.id (some "NOT_VIEWED") =
      (s, { status := 400, success := false, message := "Invalid status" }) := by
  have hpost : s.jobPostOf a = some j := by
    unfold Store.jobPostOf
    apply find_eq_of_key _ _ j hj (by simp [hjid])
    intro k hk hkp
    exact hjkey k hk (by simp only [decide_eq_true_eq] at hkp; rw [hkp, hjid])
  have hfind : s.jobApplications.find? (fun b => decide (b.id = a.id) && s.ownedBy C b) =
      some a := by
    apply find_eq_of_key _ _ a ha
    · simp [Store.ownedBy, hpost, hown]
    · intro b hb hbp
      simp only [Bool.and_eq_true, decide_eq_true_eq] at hbp
      exact hakey b hb hbp.1
  refine ⟨?_, by simp [updateApplicantStatus]⟩
  intro v hv
  rw [updateApplicantStatus_found s C a.id v a j hv hfind hpost]
  refine ⟨rfl, ?_⟩
  simp only [Store.createNotification, (acceptedEnrolStep_frame _ v j a).1,
    Store.updateApplicationStatus]
  apply List.map_congr_left
  intro b hb
  by_cases hid : b.id = a.id
  · have := hakey b hb hid
    subst this
    simp
  · have hne : b ≠ a := fun h => hid (by rw [h])
    simp [hid, hne]

/-- C11, witness: company 2 sets application 100 of `appliedStore`, which belongs
to its job post 10. -/
theorem updateApplicantStatus_sets_status_witness :
    demoApplication ∈ appliedStore.jobApplications ∧ demoJobPost ∈ appliedStore.jobPosts ∧
    (∀ v ∈ ["VIEWED", "SHORTLISTED", "INTERVIEW_SCHEDULED", "REJECTED", "ACCEPTED"],
      (updateApplicantStatus appliedStore (some 2) demoApplication.id (some v)).2.status = 200 ∧
      (updateApplicantStatus appliedStore (some 2) demoApplication.id (some v)).1.jobApplications =
        appliedStore.jobApplications.map (fun b =>
          if b = demoApplication then { demoApplication with status := v } else b)) :=
  ⟨by decide, by decide,
    (updateApplicantStatus_sets_status appliedStore 2 demoApplication demoJobPost (by decide)
      (by decide) (by decide) (by decide) (by decide) (by decide)).1⟩

/-- C12, counterexample. In `rejectedStore` application 100 has status
`REJECTED`; company 2 sends `VIEWED`: the call succeeds (200) and the status of
the application moves back from `REJECTED` to `VIEWED`. -/
theorem updateApplicantStatus_moves_backwards :
    rejectedStore.jobApplications.map (fun a => (a.id, a.status)) = [(100, "REJECTED")] ∧
    (updateApplicantStatus rejectedStore (some 2) 100 (some "VIEWED")).2.status = 200 ∧
    (updateApplicantStatus rejectedStore (some 2) 100 (some "VIEWED")).1.jobApplications.map
      (fun a => (a.id, a.status)) = [(100, "VIEWED")] := by
  decide

/-- A call of `updateApplicantStatus` moves no application to `NOT_VIEWED`. -/
theorem updateApplicantStatus_keeps_viewed (s : Store) (user : Option Nat) (A' : Nat)
    (status : Option String) (A : Nat)
    (h : ∀ a ∈ s.jobApplications, a.id = A → a.status ≠ "NOT_VIEWED") :
    ∀ a ∈ (updateApplicantStatus s user A' status).1.jobApplications,
      a.id = A → a.status ≠ "NOT_VIEWED" := by
  rcases updateApplicantStatus_jobApplications s user A' status with
    ⟨heq, -⟩ | ⟨v, -, hv, -, heq⟩
  · rw [heq]; exact h
  · rw [heq]
    intro a ha hid
    obtain ⟨b, hb, rfl⟩ := List.mem_map.mp ha
    by_cases hbA : b.id = A'
    · simp only [hbA, if_true]
      intro hnv
      rw [hnv] at hv
      revert hv
      decide
    · simp only [hbA, if_false] at hid ⊢
      exact h b hb hid

/-- C12, amended. No order is enforced among the status values that
`updateApplicantStatus` accepts: a successful call sets the requested value,
whichever of `VIEWED`, `SHORTLISTED`, `INTERVIEW_SCHEDULED`, `REJECTED` and
`ACCEPTED` it is and whatever the current status. What holds for every sequence
of `updateApplicantStatus` calls is that an application that has left
`NOT_VIEWED` is never moved back to `NOT_VIEWED`. -/
theorem status_never_returns_to_notViewed (s : Store)
    (calls : List (Option Nat × Nat × Option String)) (A : Nat)
    (h : ∀ a ∈ s.jobApplications, a.id = A → a.status ≠ "NOT_VIEWED") :
    (∀ a ∈ (runStatusUpdates s calls).jobApplications, a.id = A → a.status ≠ "NOT_VIEWED") ∧
    ∀ (user : Option Nat) (status : Option String),
      (updateApplicantStatus (runStatusUpdates s calls) user A status).2.status = 200 →
      ∃ v ∈ ["VIEWED", "SHORTLISTED", "INTERVIEW_SCHEDULED", "REJECTED", "ACCEPTED"],
        status = some v ∧
        ∀ a ∈ (updateApplicantStatus (runStatusUpdates s calls) user A status).1.jobApplications,
          a.id = A → a.status = v := by
  constructor
  · unfold runStatusUpdates
    induction calls generalizing s with
    | nil => exact h
    | cons c rest ih =>
      exact ih (updateApplicantStatus s c.1 c.2.1 c.2.2).1
        (updateApplicantStatus_keeps_viewed s c.1 c.2.1 c.2.2 A h)
  · intro user status h200
    rcases updateApplicantStatus_jobApplications (runStatusUpdates s calls) user A status with
      ⟨-, hne⟩ | ⟨v, hs, hv, -, heq⟩
    · exact absurd h200 hne
    · refine ⟨v, hv, hs, ?_⟩
      rw [heq]
      intro a ha hid
      obtain ⟨b, hb, rfl⟩ := List.mem_map.mp ha
      by_cases hbA : b.id = A
      · simp only [hbA, if_true]
      · simp only [hbA, if_false] at hid

/-- C12, witness: after company 2 rejected application 100, it sets the
application to `VIEWED` and then to `ACCEPTED`. -/
theorem status_never_returns_to_notViewed_witness :
    (∀ a ∈ rejectedStore.jobApplications, a.id = 100 → a.status ≠ "NOT_VIEWED") ∧
    ∀ a ∈ (runStatusUpdates rejectedStore
        [(some 2, 100, some "VIEWED"), (some 2, 100, some "ACCEPTED")]).jobApplications,
      a.id = 100 → a.status ≠ "NOT_VIEWED" :=
  ⟨by decide,
    (status_never_returns_to_notViewed rejectedStore
      [(some 2, 100, some "VIEWED"), (some 2, 100, some "ACCEPTED")] 100 (by decide)).1⟩

/-- C15. Every successful `updateApplicantStatus` (status 200) appends exactly one
notification: its owner is the job seeker of the application, its type
`APPLICATION_STATUS`, its `relatedId` the id of the application, and its message
"Your application for", the title of the job post of the application, "has
been" and the new status in lower case. -/
theorem updateApplicantStatus_notifies (s : Store) (user : Option Nat) (A : Nat)
    (status : Option String) (h : (updateApplicantStatus s user A status).2.status = 200) :
    ∃ v a j n,
      status = some v ∧ a ∈ s.jobApplications ∧ a.id = A ∧
      j ∈ s.jobPosts ∧ j.id = a.jobPostId ∧
      (updateApplicantStatus s user A status).1.notifications = s.notifications ++ [n] ∧
      n.userId = a.jobSeekerId ∧ n.type = "APPLICATION_STATUS" ∧ n.relatedId = A ∧
      n.message = "Your application for " ++ j.title ++ " has been " ++ toLowerCase v := by
  obtain ⟨C, v, a, j, rfl, rfl, hv, ha, hj⟩ := updateApplicantStatus_ok s user A status h
  have hamem := List.mem_of_find?_eq_some ha
  have haid : a.id = A := by
    have := List.find?_some ha
    simp only [Bool.and_eq_true, decide_eq_true_eq] at this
    exact this.1
  have hjmem := List.mem_of_find?_eq_some hj
  have hjid : j.id = a.jobPostId := by
    have := List.find?_some hj
    simpa using this
  refine ⟨v, a, j,
    { id := (acceptedEnrolStep (s.updateApplicationStatus A v) v j a).nextId,
      userId := a.jobSeekerId, title := "Application Status Updated",
      message := "Your application for " ++ j.title ++ " has been " ++ toLowerCase v,
      type := "APPLICATION_STATUS", relatedId := a.id },
    rfl, hamem, haid, hjmem, hjid, ?_, rfl, rfl, haid, rfl⟩
  rw [updateApplicantStatus_found s C A v a j hv ha hj]
  simp only [Store.createNotification, (acceptedEnrolStep_frame _ v j a).2.1,
    Store.updateApplicationStatus]

/-- C15, witness: company 2 sets application 100 of `appliedStore` to
`INTERVIEW_SCHEDULED`. -/
theorem updateApplicantStatus_notifies_witness :
    (updateApplicantStatus appliedStore (some 2) 100 (some "INTERVIEW_SCHEDULED")).2.status = 200 ∧
    ∃ v a j n,
      some "INTERVIEW_SCHEDULED" = some v ∧ a ∈ appliedStore.jobApplications ∧ a.id = 100 ∧
      j ∈ appliedStore.jobPosts ∧ j.id = a.jobPostId ∧
      (updateApplicantStatus appliedStore (some 2) 100
        (some "INTERVIEW_SCHEDULED")).1.notifications = appliedStore.notifications ++ [n] ∧
      n.userId = a.jobSeekerId ∧ n.type = "APPLICATION_STATUS" ∧ n.relatedId = 100 ∧
      n.message = "Your application for " ++ j.title ++ " has been " ++ toLowerCase v :=
  ⟨by decide,
    updateApplicantStatus_notifies appliedStore (some 2) 100 (some "INTERVIEW_SCHEDULED")
      (by decide)⟩

/-! ## Chat enrolment: `updateApplicantStatus` and `applyToJob` -/

/-- The test of the upsert for an existing pair is membership of the pair in the
keys of the participant table. -/
theorem participant_any_iff (s : Store) (chatAreaId userId : Nat) :
    s.chatParticipants.any (fun p => decide (p.chatAreaId = chatAreaId ∧ p.userId = userId)) = true ↔
      (chatAreaId, userId) ∈ s.participantKeys := by
  simp only [Store.participantKeys, List.any_eq_true, decide_eq_true_eq, List.mem_map,
    Prod.mk.injEq]

/-- After the upsert the pair has a row. -/
theorem upsertChatParticipant_mem (s : Store) (chatAreaId userId : Nat) :
    (chatAreaId, userId) ∈ (s.upsertChatParticipant chatAreaId userId).participantKeys := by
  unfold Store.upsertChatParticipant
  split
  · rename_i h
    exact (participant_any_iff s chatAreaId userId).mp h
  · simp [Store.participantKeys]

/-- The upsert of a pair that has a row changes nothing. -/
theorem upsertChatParticipant_of_mem (s : Store) (chatAreaId userId : Nat)
    (h : (chatAreaId, userId) ∈ s.participantKeys) :
    s.upsertChatParticipant chatAreaId userId = s := by
  unfold Store.upsertChatParticipant
  rw [if_pos ((participant_any_iff s chatAreaId userId).mpr h)]

/-- The upsert keeps the compound unique key of the participant table. -/
theorem upsertChatParticipant_unique (s : Store) (chatAreaId userId : Nat)
    (h : s.uniqueParticipants) : (s.upsertChatParticipant chatAreaId userId).uniqueParticipants := by
  unfold Store.upsertChatParticipant
  split
  · exact h
  · rename_i hno
    have hnot : (chatAreaId, userId) ∉ s.participantKeys :=
      fun hm => hno ((participant_any_iff s chatAreaId userId).mpr hm)
    unfold Store.uniqueParticipants Store.participantKeys at h ⊢
    simp only [List.map_append, List.map_cons, List.map_nil]
    rw [List.nodup_append]
    refine ⟨h, List.nodup_singleton _, ?_⟩
    intro x hx hx'
    rw [List.mem_singleton] at hx'
    subst hx'
    exact hnot hx

/-- Under the compound unique key, a pair that has a row has exactly one. -/
theorem participant_rows_eq_one (s : Store) (chatAreaId userId : Nat)
    (hu : s.uniqueParticipants) (hm : (chatAreaId, userId) ∈ s.participantKeys) :
    (s.chatParticipants.filter
      (fun p => decide (p.chatAreaId = chatAreaId ∧ p.userId = userId))).length = 1 := by
  unfold Store.uniqueParticipants Store.participantKeys at *
  generalize s.chatParticipants = l at hu hm
  induction l with
  | nil => simp at hm
  | cons x xs ih =>
    rw [List.map_cons, List.nodup_cons] at hu
    rw [List.map_cons, List.mem_cons] at hm
    by_cases hx : x.chatAreaId = chatAreaId ∧ x.userId = userId
    · have hnone : xs.filter (fun p => decide (p.chatAreaId = chatAreaId ∧ p.userId = userId)) =
          [] := by
        rw [List.filter_eq_nil_iff]
        intro p hp hpk
        simp only [decide_eq_true_eq] at hpk
        apply hu.1
        rw [hx.1, hx.2, ← hpk.1, ← hpk.2]
        exact List.mem_map.mpr ⟨p, hp, rfl⟩
      rw [List.filter_cons_of_pos (by simpa using hx), hnone]
      rfl
    · rw [List.filter_cons_of_neg (by simpa using hx)]
      rcases hm with hm | hm
      · exact absurd ⟨(Prod.mk.inj hm).1.symm, (Prod.mk.inj hm).2.symm⟩ hx
      · exact ih hu.2 hm

/-- The application of a company: when `a` is the only row with its id and its
job post `j`, the only row with its id, is owned by `C`, the ownership query of
`updateApplicantStatus` returns `a` and its `jobPost` relation is `j`. -/
theorem find_owned_application (s : Store) (C : Nat) (a : JobApplication) (j : JobPost)
    (ha : a ∈ s.jobApplications) (hakey : ∀ b ∈ s.jobApplications, b.id = a.id → b = a)
    (hj : j ∈ s.jobPosts) (hjid : j.id = a.jobPostId)
    (hjkey : ∀ k ∈ s.jobPosts, k.id = j.id → k = j) (hown : j.companyId = C) :
    s.jobApplications.find? (fun b => decide (b.id = a.id) && s.ownedBy C b) = some a ∧
      s.jobPostOf a = some j := by
  have hpost : s.jobPostOf a = some j := by
    unfold Store.jobPostOf
    apply find_eq_of_key _ _ j hj (by simp [hjid])
    intro k hk hkp
    exact hjkey k hk (by simp only [decide_eq_true_eq] at hkp; rw [hkp, hjid])
  refine ⟨?_, hpost⟩
  apply find_eq_of_key _ _ a ha
  · simp [Store.ownedBy, hpost, hown]
  · intro b hb hbp
    simp only [Bool.and_eq_true, decide_eq_true_eq] at hbp
    exact hakey b hb hbp.1

/-- On `ACCEPTED`, for a chat-enabled job post whose chat area is found, the
enrolment block is the upsert of the pair (chat area, job seeker). -/
theorem acceptedEnrolStep_accepted (s : Store) (j : JobPost) (a : JobApplication) (c : ChatArea)
    (hchat : j.hasChatArea = true)
    (hfind : s.chatAreas.find? (fun c => decide (c.jobPostId = a.jobPostId)) = some c) :
    acceptedEnrolStep s "ACCEPTED" j a = s.upsertChatParticipant c.id a.jobSeekerId := by
  simp only [acceptedEnrolStep, hchat, hfind, and_self, if_true]

/-- C14. Let application `a` belong to the chat-enabled job post `j` of company
`C`, with chat area `c` (rows unique by their keys: the id of `a`, the id of `j`,
one chat area per job post, one participant row per pair). Two calls of
`updateApplicantStatus` with `ACCEPTED` both succeed, the second leaves the table
of chat participants as the first left it, and that table holds exactly one row
for the pair (`c`, job seeker of `a`). -/
theorem acceptTwice_idempotent (s : Store) (C : Nat) (a : JobApplication) (j : JobPost)
    (c : ChatArea) (ha : a ∈ s.jobApplications)
    (hakey : ∀ b ∈ s.jobApplications, b.id = a.id → b = a)
    (hj : j ∈ s.jobPosts) (hjid : j.id = a.jobPostId)
    (hjkey : ∀ k ∈ s.jobPosts, k.id = j.id → k = j) (hown : j.companyId = C)
    (hchat : j.hasChatArea = true) (hc : c ∈ s.chatAreas) (hcj : c.jobPostId = j.id)
    (hckey : ∀ d ∈ s.chatAreas, d.jobPostId = j.id → d = c) (huniq : s.uniqueParticipants) :
    (updateApplicantStatus s (some C) a.id (some "ACCEPTED")).2.status = 200 ∧
    (updateApplicantStatus (updateApplicantStatus s (some C) a.id (some "ACCEPTED")).1 (some C)
      a.id (some "ACCEPTED")).2.status = 200 ∧
    (updateApplicantStatus (updateApplicantStatus s (some C) a.id (some "ACCEPTED")).1 (some C)
      a.id (some "ACCEPTED")).1.chatParticipants =
      (updateApplicantStatus s (some C) a.id (some "ACCEPTED")).1.chatParticipants ∧
    ((updateApplicantStatus s (some C) a.id (some "ACCEPTED")).1.chatParticipants.filter
      (fun p => decide (p.chatAreaId = c.id ∧ p.userId = a.jobSeekerId))).length = 1 := by
  have hv : "ACCEPTED" ∈ ["VIEWED", "SHORTLISTED", "INTERVIEW_SCHEDULED", "REJECTED", "ACCEPTED"] := by
    decide
  -- the first call
  obtain ⟨hfind, hpost⟩ := find_owned_application s C a j ha hakey hj hjid hjkey hown
  have harea : ∀ st : Store, st.chatAreas = s.chatAreas → ∀ b : JobApplication,
      b.jobPostId = a.jobPostId →
      st.chatAreas.find? (fun c => decide (c.jobPostId = b.jobPostId)) = some c := by
    intro st hst b hb
    rw [hst]
    apply find_eq_of_key _ _ c hc (by simp [hcj, hjid, hb])
    intro d hd hdp
    exact hckey d hd (by simp only [decide_eq_true_eq] at hdp; rw [hdp, hb, hjid])
  have h1 := updateApplicantStatus_found s C a.id "ACCEPTED" a j hv hfind hpost
  rw [acceptedEnrolStep_accepted (s.updateApplicationStatus a.id "ACCEPTED") j a c hchat
    (harea _ rfl a rfl)] at h1
  -- the store after the first call
  generalize hs1 : (updateApplicantStatus s (some C) a.id (some "ACCEPTED")).1 = s1 at h1 ⊢
  have hs1eq : s1 = ((s.updateApplicationStatus a.id "ACCEPTED").upsertChatParticipant c.id
      a.jobSeekerId).createNotification a.jobSeekerId "Application Status Updated"
      ("Your application for " ++ j.title ++ " has been " ++ toLowerCase "ACCEPTED")
      "APPLICATION_STATUS" a.id := by
    rw [← hs1, h1]
  have hkeys1 : s1.participantKeys =
      ((s.updateApplicationStatus a.id "ACCEPTED").upsertChatParticipant c.id
        a.jobSeekerId).participantKeys := by
    rw [hs1eq]; rfl
  have hmem1 : (c.id, a.jobSeekerId) ∈ s1.participantKeys := by
    rw [hkeys1]; exact upsertChatParticipant_mem _ _ _
  have huniq1 : s1.uniqueParticipants := by
    unfold Store.uniqueParticipants
    rw [hkeys1]
    exact upsertChatParticipant_unique _ _ _ huniq
  have hposts1 : s1.jobPosts = s.jobPosts := by
    rw [hs1eq]
    unfold Store.createNotification Store.upsertChatParticipant Store.updateApplicationStatus
    split <;> rfl
  have hareas1 : s1.chatAreas = s.chatAreas := by
    rw [hs1eq]
    unfold Store.createNotification Store.upsertChatParticipant Store.updateApplicationStatus
    split <;> rfl
  have happs1 : s1.jobApplications =
      s.jobApplications.map (fun b => if b.id = a.id then { b with status := "ACCEPTED" } else b) := by
    rw [hs1eq]
    unfold Store.createNotification Store.upsertChatParticipant Store.updateApplicationStatus
    split <;> rfl
  -- the second call finds the same application, now accepted
  have ha1 : ({ a with status := "ACCEPTED" } : JobApplication) ∈ s1.jobApplications := by
    rw [happs1]
    exact List.mem_map.mpr ⟨a, ha, by simp⟩
  have hakey1 : ∀ b ∈ s1.jobApplications,
      b.id = ({ a with status := "ACCEPTED" } : JobApplication).id →
      b = { a with status := "ACCEPTED" } := by
    rw [happs1]
    intro b hb hid
    obtain ⟨b0, hb0, rfl⟩ := List.mem_map.mp hb
    by_cases hb0id : b0.id = a.id
    · have := hakey b0 hb0 hb0id
      subst this
      simp
    · simp only [hb0id, if_false] at hid
  obtain ⟨hfind2, hpost2⟩ := find_owned_application s1 C { a with status := "ACCEPTED" } j ha1
    hakey1 (by rw [hposts1]; exact hj) hjid (by rw [hposts1]; exact hjkey) hown
  have h2 := updateApplicantStatus_found s1 C a.id "ACCEPTED" { a with status := "ACCEPTED" } j
    hv hfind2 hpost2
  rw [acceptedEnrolStep_accepted (s1.updateApplicationStatus a.id "ACCEPTED") j
    { a with status := "ACCEPTED" } c hchat (harea _ hareas1 _ rfl)] at h2
  have hkeys2 : (c.id, a.jobSeekerId) ∈ (s1.updateApplicationStatus a.id "ACCEPTED").participantKeys :=
    hmem1
  rw [upsertChatParticipant_of_mem _ _ _ hkeys2] at h2
  refine ⟨by rw [h1], by rw [h2], by rw [h2]; rfl, ?_⟩
  exact participant_rows_eq_one s1 c.id a.jobSeekerId huniq1 hmem1

/-- C14, witness: company 2 accepts application 100 of `appliedStore` twice; its
job post 10 has the chat area 20. -/
theorem acceptTwice_idempotent_witness :
    appliedStore.uniqueParticipants ∧
    (updateApplicantStatus (updateApplicantStatus appliedStore (some 2) demoApplication.id
      (some "ACCEPTED")).1 (some 2) demoApplication.id (some "ACCEPTED")).1.chatParticipants =
      (updateApplicantStatus appliedStore (some 2) demoApplication.id
        (some "ACCEPTED")).1.chatParticipants ∧
    ((updateApplicantStatus appliedStore (some 2) demoApplication.id
      (some "ACCEPTED")).1.chatParticipants.filter
      (fun p => decide (p.chatAreaId = 20 ∧ p.userId = demoApplication.jobSeekerId))).length = 1 :=
  ⟨by decide,
    (acceptTwice_idempotent appliedStore 2 demoApplication demoJobPost
      { id := 20, jobPostId := 10, companyId := 2 } (by decide) (by decide) (by decide)
      (by decide) (by decide) (by decide) (by decide) (by decide) (by decide) (by decide)
      (by decide)).2.2⟩

/-- Setting the status of applications keeps their (job post, job seeker)
pairs. -/
theorem updateApplicationStatus_pairs (s : Store) (A : Nat) (v : String) :
    (s.jobApplications.map (fun a => if a.id = A then { a with status := v } else a)).map
      (fun a => (a.jobPostId, a.jobSeekerId)) = s.applicationPairs := by
  unfold Store.applicationPairs
  rw [List.map_map]
  apply List.map_congr_left
  intro a _
  simp only [Function.comp]
  split <;> rfl

/-- What `updateApplicantStatus` does to the tables of the chat enrolment, on
every path: chat areas, job posts and the pairs of the applications are kept; the
keys of the participants are kept, or the pair (chat area of the job post, job
seeker) of an application on a chat-enabled job post is appended. -/
theorem updateApplicantStatus_pairs (s : Store) (user : Option Nat) (A : Nat)
    (status : Option String) :
    (updateApplicantStatus s user A status).1.chatAreas = s.chatAreas ∧
    (updateApplicantStatus s user A status).1.jobPosts = s.jobPosts ∧
    (updateApplicantStatus s user A status).1.applicationPairs = s.applicationPairs ∧
    ((updateApplicantStatus s user A status).1.participantKeys = s.participantKeys ∨
      ∃ a j c, a ∈ s.jobApplications ∧ j ∈ s.jobPosts ∧ j.id = a.jobPostId ∧
        j.hasChatArea = true ∧ c ∈ s.chatAreas ∧ c.jobPostId = a.jobPostId ∧
        (updateApplicantStatus s user A status).1.participantKeys =
          s.participantKeys ++ [(c.id, a.jobSeekerId)]) := by
  rcases updateApplicantStatus_failed s user A status with ⟨hs, -⟩ | h200
  · rw [hs]
    exact ⟨rfl, rfl, rfl, Or.inl rfl⟩
  · obtain ⟨C, v, a, j, rfl, rfl, hv, ha, hj⟩ := updateApplicantStatus_ok s user A status h200
    have hamem := List.mem_of_find?_eq_some ha
    have hjmem := List.mem_of_find?_eq_some hj
    have hjid : j.id = a.jobPostId := by
      have := List.find?_some hj
      simpa using this
    rw [updateApplicantStatus_found s C A v a j hv ha hj]
    have hf := acceptedEnrolStep_frame (s.updateApplicationStatus A v) v j a
    refine ⟨hf.2.2.2.1, hf.2.2.1, ?_, ?_⟩
    · show (Store.applicationPairs _) = _
      unfold Store.applicationPairs
      simp only [Store.createNotification, hf.1]
      exact updateApplicationStatus_pairs s A v
    · show (Store.participantKeys _ = _) ∨ _
      unfold acceptedEnrolStep
      split
      · rename_i hacc
        split
        · rename_i c hc
          have hcmem : c ∈ s.chatAreas := List.mem_of_find?_eq_some hc
          have hcj : c.jobPostId = a.jobPostId := by
            have := List.find?_some hc
            simpa using this
          unfold Store.upsertChatParticipant
          split
          · exact Or.inl rfl
          · right
            refine ⟨a, j, c, hamem, hjmem, hjid, hacc.2, hcmem, hcj, ?_⟩
            simp [Store.participantKeys, Store.createNotification, Store.updateApplicationStatus]
        · exact Or.inl rfl
      · exact Or.inl rfl

/-- The paths of the chat enrolment of `applyToJob`: nothing to do (chat not
enabled, or no chat area), a throw because the pair already has a row, or a new
row for the pair (chat area, applicant). -/
theorem chatEnrolStep_cases (s : Store) (jobPost : JobPost) (jobId userId : Nat) :
    ((jobPost.hasChatArea = false ∨
        s.chatAreas.find? (fun c => decide (c.jobPostId = jobId)) = none) ∧
        chatEnrolStep s jobPost jobId userId = some s) ∨
      ∃ c, s.chatAreas.find? (fun c => decide (c.jobPostId = jobId)) = some c ∧
        jobPost.hasChatArea = true ∧
        (((c.id, userId) ∈ s.participantKeys ∧ chatEnrolStep s jobPost jobId userId = none) ∨
          ∃ s3, chatEnrolStep s jobPost jobId userId = some s3 ∧
            s3.participantKeys = s.participantKeys ++ [(c.id, userId)] ∧
            s3.jobApplications = s.jobApplications ∧ s3.chatAreas = s.chatAreas) := by
  unfold chatEnrolStep
  split
  · rename_i hchat
    split
    · rename_i c hc
      right
      refine ⟨c, hc, hchat, ?_⟩
      unfold Store.createChatParticipant
      split
      · rename_i hany
        exact Or.inl ⟨(participant_any_iff s c.id userId).mp hany, rfl⟩
      · exact Or.inr ⟨_, rfl, by simp [Store.participantKeys], rfl, rfl⟩
    · rename_i hnone
      exact Or.inl ⟨Or.inr hnone, rfl⟩
  · rename_i hchat
    exact Or.inl ⟨Or.inl (by simpa using hchat), rfl⟩

/-- What `applyToJob` does to the tables of the chat enrolment, on every path:
chat areas and job posts are kept; either the pairs of the applications and the
keys of the participants are kept, or the pair (job post, applicant) is appended
and, when the job post found is chat-enabled and has a chat area, the pair (chat
area, applicant) has a row afterwards. -/
theorem applyToJob_pairs (now : Nat) (s : Store) (user : Option Nat) (jobId : Nat)
    (body : ApplyBody) :
    (applyToJob now s user jobId body).1.chatAreas = s.chatAreas ∧
    (applyToJob now s user jobId body).1.jobPosts = s.jobPosts ∧
    (((applyToJob now s user jobId body).1.applicationPairs = s.applicationPairs ∧
        (applyToJob now s user jobId body).1.participantKeys = s.participantKeys) ∨
      ∃ userId jobPost, user = some userId ∧ jobPost ∈ s.jobPosts ∧ jobPost.id = jobId ∧
        (applyToJob now s user jobId body).1.applicationPairs =
          s.applicationPairs ++ [(jobId, userId)] ∧
        (((jobPost.hasChatArea = false ∨
            s.chatAreas.find? (fun c => decide (c.jobPostId = jobId)) = none) ∧
            (applyToJob now s user jobId body).1.participantKeys = s.participantKeys) ∨
          ∃ c, s.chatAreas.find? (fun c => decide (c.jobPostId = jobId)) = some c ∧
            jobPost.hasChatArea = true ∧
            (((c.id, userId) ∈ s.participantKeys ∧
                (applyToJob now s user jobId body).1.participantKeys = s.participantKeys) ∨
              (applyToJob now s user jobId body).1.participantKeys =
                s.participantKeys ++ [(c.id, userId)]))) := by
  unfold applyToJob
  split
  · exact ⟨rfl, rfl, Or.inl ⟨rfl, rfl⟩⟩
  · rename_i userId
    split
    · exact ⟨rfl, rfl, Or.inl ⟨rfl, rfl⟩⟩
    · rename_i jobPost hjp
      have hmem := List.mem_of_find?_eq_some hjp
      have hid : jobPost.id = jobId := by
        have := List.find?_some hjp
        simp only [decide_eq_true_eq] at this
        exact this.1
      split
      · exact ⟨rfl, rfl, Or.inl ⟨rfl, rfl⟩⟩
      · simp only
        have hr1 := customResumeStep_jobApplications s userId jobPost.title body
        have hr2 := customResumeStep_chatAreas s userId jobPost.title body
        have hr3 := customResumeStep_chatParticipants s userId jobPost.title body
        have hr4 := customResumeStep_jobPosts s userId jobPost.title body
        split
        · refine ⟨hr2, hr4, Or.inl ⟨?_, ?_⟩⟩
          · simp only [Store.applicationPairs, hr1]
          · simp only [Store.participantKeys, hr3]
        · generalize hcr : (customResumeStep s userId jobPost.title body).1.createJobApplication
            jobId userId (customResumeStep s userId jobPost.title body).2 body.coverLetter
            "NOT_VIEWED" = created
          have hc1 : created.1.jobApplications = s.jobApplications ++ [created.2] := by
            rw [← hcr]; simp [Store.createJobApplication, hr1]
          have hc2 : created.1.chatAreas = s.chatAreas := by
            rw [← hcr]; simp [Store.createJobApplication, hr2]
          have hc3 : created.1.chatParticipants = s.chatParticipants := by
            rw [← hcr]; simp [Store.createJobApplication, hr3]
          have hc4 : created.1.jobPosts = s.jobPosts := by
            rw [← hcr]; simp [Store.createJobApplication, hr4]
          have hc5 : (created.2.jobPostId, created.2.jobSeekerId) = (jobId, userId) := by
            rw [← hcr]; rfl
          have hpairs : ∀ st : Store, st.jobApplications = created.1.jobApplications →
              st.applicationPairs = s.applicationPairs ++ [(jobId, userId)] := by
            intro st hst
            simp only [Store.applicationPairs, hst, hc1, List.map_append, List.map_cons,
              List.map_nil, hc5]
          have hkeys : created.1.participantKeys = s.participantKeys := by
            simp only [Store.participantKeys, hc3]
          rcases chatEnrolStep_cases created.1 jobPost jobId userId with
            ⟨hno, hstep⟩ | ⟨c, hc, hchat, ⟨hin, hstep⟩ | ⟨s3, hstep, hk3, ha3, hca3⟩⟩
          · rw [hstep]
            refine ⟨hc2, hc4, Or.inr ⟨userId, jobPost, rfl, hmem, hid, hpairs _ rfl,
              Or.inl ⟨?_, hkeys⟩⟩⟩
            rw [hc2] at hno
            exact hno
          · rw [hstep]
            refine ⟨hc2, hc4, Or.inr ⟨userId, jobPost, rfl, hmem, hid, hpairs _ rfl,
              Or.inr ⟨c, by rw [← hc2]; exact hc, hchat, Or.inl ⟨by rw [← hkeys]; exact hin,
                hkeys⟩⟩⟩⟩
          · rw [hstep]
            have hf := chatEnrolStep_frame hstep
            refine ⟨by simp only [Store.createNotification, hca3, hc2],
              by simp only [Store.createNotification, hf.2.2, hc4],
              Or.inr ⟨userId, jobPost, rfl, hmem, hid, hpairs _ ha3,
                Or.inr ⟨c, by rw [← hc2]; exact hc, hchat, Or.inr ?_⟩⟩⟩
            show Store.participantKeys _ = _
            rw [← hkeys, ← hk3]
            rfl

/-- The invariant `participantsApplied` in terms of the keys of the
participants. -/
theorem participantsApplied_iff (s : Store) :
    s.participantsApplied ↔
      ∀ k ∈ s.participantKeys, ∃ c ∈ s.chatAreas, c.id = k.1 ∧
        (∃ j ∈ s.jobPosts, j.id = c.jobPostId ∧ j.hasChatArea = true) ∧
        (c.jobPostId, k.2) ∈ s.applicationPairs := by
  unfold Store.participantsApplied Store.participantKeys
  constructor
  · intro h k hk
    obtain ⟨p, hp, rfl⟩ := List.mem_map.mp hk
    exact h p hp
  · intro h p hp
    exact h (p.chatAreaId, p.userId) (List.mem_map.mpr ⟨p, hp, rfl⟩)

/-- The invariant `applicantsEnrolled` in terms of the pairs of the
applications. -/
theorem applicantsEnrolled_iff (s : Store) :
    s.applicantsEnrolled ↔
      ∀ pr ∈ s.applicationPairs, ∀ j ∈ s.jobPosts, j.id = pr.1 → j.hasChatArea = true →
        ∀ c ∈ s.chatAreas, c.jobPostId = pr.1 → (c.id, pr.2) ∈ s.participantKeys := by
  unfold Store.applicantsEnrolled Store.applicationPairs
  constructor
  · intro h pr hpr
    obtain ⟨a, ha, rfl⟩ := List.mem_map.mp hpr
    exact h a ha
  · intro h a ha
    exact h (a.jobPostId, a.jobSeekerId) (List.mem_map.mpr ⟨a, ha, rfl⟩)

/-- A request of the application workflow keeps chat areas and job posts, and
with them the uniqueness of their keys. -/
theorem ApplicationRequest.run_frame (s : Store) (q : ApplicationRequest) :
    (q.run s).chatAreas = s.chatAreas ∧ (q.run s).jobPosts = s.jobPosts := by
  cases q with
  | apply now user jobId body =>
    exact ⟨(applyToJob_pairs now s user jobId body).1, (applyToJob_pairs now s user jobId body).2.1⟩
  | updateStatus user A status =>
    exact ⟨(updateApplicantStatus_pairs s user A status).1,
      (updateApplicantStatus_pairs s user A status).2.1⟩

/-- A request of the application workflow keeps the invariant "every participant
has applied to the chat-enabled job post of the chat area". -/
theorem ApplicationRequest.run_participantsApplied (s : Store) (q : ApplicationRequest)
    (h : s.participantsApplied) : (q.run s).participantsApplied := by
  rw [participantsApplied_iff] at h ⊢
  have hfr := ApplicationRequest.run_frame s q
  rw [hfr.1, hfr.2]
  cases q with
  | apply now user jobId body =>
    simp only [ApplicationRequest.run]
    rcases (applyToJob_pairs now s user jobId body).2.2 with
      ⟨hp, hk⟩ | ⟨userId, jobPost, -, hjm, hjid, hp, hrest⟩
    · rw [hp, hk]; exact h
    · rw [hp]
      have hold : ∀ k ∈ s.participantKeys, ∃ c ∈ s.chatAreas, c.id = k.1 ∧
          (∃ j ∈ s.jobPosts, j.id = c.jobPostId ∧ j.hasChatArea = true) ∧
          (c.jobPostId, k.2) ∈ s.applicationPairs ++ [(jobId, userId)] := by
        intro k hk
        obtain ⟨c, hc, hck, hj, hpair⟩ := h k hk
        exact ⟨c, hc, hck, hj, List.mem_append_left _ hpair⟩
      rcases hrest with ⟨-, hk⟩ | ⟨c, hc, hchat, ⟨-, hk⟩ | hk⟩
      · rw [hk]; exact hold
      · rw [hk]; exact hold
      · rw [hk]
        intro k hkm
        rcases List.mem_append.mp hkm with hkm | hkm
        · exact hold k hkm
        · rw [List.mem_singleton] at hkm
          subst hkm
          have hcj : c.jobPostId = jobId := by
            have := List.find?_some hc
            simpa using this
          refine ⟨c, List.mem_of_find?_eq_some hc, rfl, ⟨jobPost, hjm, by rw [hjid, hcj], hchat⟩, ?_⟩
          rw [hcj]
          exact List.mem_append_right _ (List.mem_singleton_self _)
  | updateStatus user A status =>
    simp only [ApplicationRequest.run]
    have hu := updateApplicantStatus_pairs s user A status
    rw [hu.2.2.1]
    rcases hu.2.2.2 with hk | ⟨a, j, c, ha, hj, hjid, hchat, hc, hcj, hk⟩
    · rw [hk]; exact h
    · rw [hk]
      intro k hkm
      rcases List.mem_append.mp hkm with hkm | hkm
      · exact h k hkm
      · rw [List.mem_singleton] at hkm
        subst hkm
        refine ⟨c, hc, rfl, ⟨j, hj, by rw [hjid, hcj], hchat⟩, ?_⟩
        rw [hcj]
        exact List.mem_map.mpr ⟨a, ha, rfl⟩

/-- A request of the application workflow keeps the invariant "every applicant
of a chat-enabled job post is a participant of its chat area", when job posts
and chat areas are unique by their keys. -/
theorem ApplicationRequest.run_applicantsEnrolled (s : Store) (q : ApplicationRequest)
    (hkeys : s.chatKeysUnique) (h : s.applicantsEnrolled) : (q.run s).applicantsEnrolled := by
  rw [applicantsEnrolled_iff] at h ⊢
  have hfr := ApplicationRequest.run_frame s q
  rw [hfr.1, hfr.2]
  cases q with
  | apply now user jobId body =>
    simp only [ApplicationRequest.run]
    rcases (applyToJob_pairs now s user jobId body).2.2 with
      ⟨hp, hk⟩ | ⟨userId, jobPost, -, hjm, hjid, hp, hrest⟩
    · rw [hp, hk]; exact h
    · rw [hp]
      intro pr hpr j hj hjpr hjchat c hc hcpr
      rcases List.mem_append.mp hpr with hpr | hpr
      · have hin := h pr hpr j hj hjpr hjchat c hc hcpr
        rcases hrest with ⟨-, hk⟩ | ⟨c0, -, -, ⟨-, hk⟩ | hk⟩
        · rw [hk]; exact hin
        · rw [hk]; exact hin
        · rw [hk]; exact List.mem_append_left _ hin
      · rw [List.mem_singleton] at hpr
        subst hpr
        simp only at hjpr hcpr ⊢
        have hjeq : j = jobPost := hkeys.1 j hj jobPost hjm (by rw [hjpr, hjid])
        subst hjeq
        rcases hrest with ⟨hno, -⟩ | ⟨c0, hc0, -, hk⟩
        · rcases hno with hno | hno
          · rw [hno] at hjchat
            exact absurd hjchat (by decide)
          · have := List.find?_eq_none.mp hno c hc
            simp only [decide_eq_true_eq] at this
            exact absurd hcpr this
        · have hc0j : c0.jobPostId = jobId := by
            have := List.find?_some hc0
            simpa using this
          have hceq : c = c0 :=
            hkeys.2.1 c hc c0 (List.mem_of_find?_eq_some hc0) (by rw [hcpr, hc0j])
          subst hceq
          rcases hk with ⟨hin, hk⟩ | hk
          · rw [hk]; exact hin
          · rw [hk]; exact List.mem_append_right _ (List.mem_singleton_self _)
  | updateStatus user A status =>
    simp only [ApplicationRequest.run]
    have hu := updateApplicantStatus_pairs s user A status
    rw [hu.2.2.1]
    intro pr hpr j hj hjpr hjchat c hc hcpr
    have hin := h pr hpr j hj hjpr hjchat c hc hcpr
    rcases hu.2.2.2 with hk | ⟨a, j', c', -, -, -, -, -, -, hk⟩
    · rw [hk]; exact hin
    · rw [hk]; exact List.mem_append_left _ hin

/-- Every run of the application workflow keeps the two enrolment invariants and
the uniqueness of the keys. -/
theorem runApplications_enrolment (requests : List ApplicationRequest) (s : Store)
    (hkeys : s.chatKeysUnique) (ha : s.participantsApplied) (hb : s.applicantsEnrolled) :
    (runApplications s requests).chatKeysUnique ∧ (runApplications s requests).participantsApplied ∧
      (runApplications s requests).applicantsEnrolled := by
  induction requests generalizing s with
  | nil => exact ⟨hkeys, ha, hb⟩
  | cons q rest ih =>
    have hfr := ApplicationRequest.run_frame s q
    have hkeys' : (q.run s).chatKeysUnique := by
      unfold Store.chatKeysUnique
      rw [hfr.1, hfr.2]
      exact hkeys
    exact ih (q.run s) hkeys' (ApplicationRequest.run_participantsApplied s q ha)
      (ApplicationRequest.run_applicantsEnrolled s q hkeys hb)

/-- C13, counterexample. The store `appliedStore` is reached from `demoStore`,
which has no application and no participant, by one `applyToJob` of job seeker 1
to the chat-enabled job post 10: job seeker 1 has a participant row in chat area
20 of the job post although the application is `NOT_VIEWED` and no
`updateApplicantStatus` call was made. -/
theorem applyToJob_enrols_before_acceptance :
    demoStore.jobApplications = [] ∧ demoStore.chatParticipants = [] ∧
    appliedStore = runApplications demoStore [.apply 500 (some 1) 10 plainApply] ∧
    appliedStore.chatParticipants = [{ id := 101, chatAreaId := 20, userId := 1 }] ∧
    appliedStore.jobApplications.map (fun a => (a.jobPostId, a.jobSeekerId, a.status)) =
      [(10, 1, "NOT_VIEWED")] := by
  decide

/-- C13, amended. Start from a store whose job posts and chat areas are unique by
their keys and in which the participants of every chat area are the applicants
of its chat-enabled job post (for example a store without applications and
participants). In every store reached through `applyToJob` and
`updateApplicantStatus`, a job seeker has a participant row in the chat area of
job post `P` if and only if `P` has chat enabled and the job seeker has applied to
`P`: enrolment happens when the application is made, whatever its status. -/
theorem chatParticipants_are_applicants (s : Store) (requests : List ApplicationRequest)
    (hkeys : s.chatKeysUnique) (ha : s.participantsApplied) (hb : s.applicantsEnrolled) :
    ∀ c ∈ (runApplications s requests).chatAreas, ∀ j ∈ (runApplications s requests).jobPosts,
      j.id = c.jobPostId → ∀ S : Nat,
        ((c.id, S) ∈ (runApplications s requests).participantKeys ↔
          (j.hasChatArea = true ∧ (j.id, S) ∈ (runApplications s requests).applicationPairs)) := by
  obtain ⟨hk, hpa, hae⟩ := runApplications_enrolment requests s hkeys ha hb
  generalize runApplications s requests = st at hk hpa hae ⊢
  rw [participantsApplied_iff] at hpa
  rw [applicantsEnrolled_iff] at hae
  intro c hc j hj hjc S
  constructor
  · intro hmem
    obtain ⟨c', hc', hcid, ⟨j', hj', hj'c, hchat⟩, hpair⟩ := hpa (c.id, S) hmem
    have hceq : c' = c := hk.2.2 c' hc' c hc hcid
    subst hceq
    have hjeq : j' = j := hk.1 j' hj' j hj (by rw [hj'c, hjc])
    subst hjeq
    exact ⟨hchat, by rw [hjc]; exact hpair⟩
  · rintro ⟨hchat, hpair⟩
    exact hae (j.id, S) hpair j hj rfl hchat c hc hjc.symm

/-- C13, witness: in the store reached from `demoStore` by the application of
job seeker 1 and its acceptance by company 2. -/
theorem chatParticipants_are_applicants_witness :
    demoStore.chatKeysUnique ∧ demoStore.participantsApplied ∧ demoStore.applicantsEnrolled ∧
    ∀ c ∈ (runApplications demoStore
        [.apply 500 (some 1) 10 plainApply, .updateStatus (some 2) 100 (some "ACCEPTED")]).chatAreas,
      ∀ j ∈ (runApplications demoStore
        [.apply 500 (some 1) 10 plainApply, .updateStatus (some 2) 100 (some "ACCEPTED")]).jobPosts,
      j.id = c.jobPostId → ∀ S : Nat,
        ((c.id, S) ∈ (runApplications demoStore
          [.apply 500 (some 1) 10 plainApply,
            .updateStatus (some 2) 100 (some "ACCEPTED")]).participantKeys ↔
          (j.hasChatArea = true ∧ (j.id, S) ∈ (runApplications demoStore
            [.apply 500 (some 1) 10 plainApply,
              .updateStatus (some 2) 100 (some "ACCEPTED")]).applicationPairs)) :=
  ⟨by decide, by decide, by decide,
    chatParticipants_are_applicants demoStore
      [.apply 500 (some 1) 10 plainApply, .updateStatus (some 2) 100 (some "ACCEPTED")]
      (by decide) (by decide) (by decide)⟩

/-! ## Access to a chat area: `getChatMessages` and `sendChatMessage` -/

/-- C16: the owning company is denied its own chat area.  In `demoStore` chat
area 20 belongs to job post 10 and is owned by company 2, which has no
participant row.  `getChatAreas` lists chat area 20 for company 2, by its
`companyId`; `getChatMessages` and `sendChatMessage` called by company 2 for that
chat area look for a participant row only and are both answered 403 "Access
denied to chat area", which the claim says never happens. -/
theorem owner_denied_without_participant_row :
    demoChatArea ∈ demoStore.chatAreas ∧ demoChatArea.companyId = 2 ∧
    getChatAreas demoStore (some 2) =
      ({ status := 200, success := true, message := "" }, [demoChatArea]) ∧
    getChatMessages demoStore (some 2) 20 =
      ({ status := 403, success := false, message := "Access denied to chat area" }, []) ∧
    sendChatMessage demoStore (some 2) 20 (some "hello") =
      (demoStore, { status := 403, success := false, message := "Access denied to chat area" }) := by
  decide

/-- What decides the 403 of the two handlers.  For every chat area `c`,
`getChatMessages` called by the company that owns `c`, and `sendChatMessage`
called by it with a non-blank content, are answered 403 "Access denied to chat
area" exactly when the company has no participant row for `c`: the handlers look
at the participant row and never at the owner. -/
theorem owner_access_iff_participant_row (s : Store) (c : ChatArea) (content : String)
    (_hc : c ∈ s.chatAreas) (hcontent : (jsTrim content).length ≠ 0) :
    ((getChatMessages s (some c.companyId) c.id).1.status = 403 ↔
      (c.id, c.companyId) ∉ s.participantKeys) ∧
    ((sendChatMessage s (some c.companyId) c.id (some content)).2.status = 403 ↔
      (c.id, c.companyId) ∉ s.participantKeys) := by
  have hcontent' : ¬ (falsy (some content) = true ∨ (jsTrim ((some content).getD "")).length = 0) := by
    intro h
    rcases h with h | h
    · simp only [falsy, decide_eq_true_eq] at h
      subst h
      exact hcontent (by decide)
    · exact hcontent h
  by_cases hm : (c.id, c.companyId) ∈ s.participantKeys
  · obtain ⟨p, hp, hpq⟩ := List.mem_map.mp hm
    obtain ⟨row, hrow⟩ := exists_find_of_mem
      (fun p => decide (p.chatAreaId = c.id ∧ p.userId = c.companyId)) s.chatParticipants p hp
      (by simpa using Prod.mk.inj hpq)
    simp only [getChatMessages, sendChatMessage, hrow, if_neg hcontent', hm, not_true_eq_false,
      iff_false]
    exact ⟨by decide, by decide⟩
  · have hrow : s.chatParticipants.find?
        (fun p => decide (p.chatAreaId = c.id ∧ p.userId = c.companyId)) = none := by
      rw [List.find?_eq_none]
      intro p hp hpq
      simp only [decide_eq_true_eq] at hpq
      exact hm (List.mem_map.mpr ⟨p, hp, by rw [hpq.1, hpq.2]⟩)
    simp only [getChatMessages, sendChatMessage, hrow, if_neg hcontent', hm, not_false_eq_true,
      iff_true]
    exact ⟨trivial, trivial⟩

/-- With a participant row, company 2 reads and writes its chat area 20. -/
theorem owner_access_iff_participant_row_witness :
    demoChatArea ∈ ownerEnrolledStore.chatAreas ∧
    (getChatMessages ownerEnrolledStore (some demoChatArea.companyId) demoChatArea.id).1.status ≠
      403 ∧
    (sendChatMessage ownerEnrolledStore (some demoChatArea.companyId) demoChatArea.id
      (some "hello")).2.status ≠ 403 :=
  ⟨by decide,
    fun h => (owner_access_iff_participant_row ownerEnrolledStore demoChatArea "hello"
      (by decide) (by decide)).1.mp h (by decide),
    fun h => (owner_access_iff_participant_row ownerEnrolledStore demoChatArea "hello"
      (by decide) (by decide)).2.mp h (by decide)⟩

/-! ## The life of a job post: `createJobPost`, `updateJobPost`, `deleteJobPost` -/

/-- What `createJobPost` does to the store, on every path: nothing, with a status
other than 201; or, with status 201, one job post is appended, owned by the
session user, with the texts of the body, active, and with a deadline after the
request time. -/
theorem createJobPost_paths (now : Nat) (s : Store) (user : Option Nat) (body : JobPostBody) :
    ((createJobPost now s user body).1 = s ∧ (createJobPost now s user body).2.status ≠ 201) ∨
      ∃ C t, user = some C ∧ body.applicationDeadline = some (.time t) ∧ now < t ∧
        falsy body.title = false ∧ falsy body.description = false ∧
        falsy body.industry = false ∧ falsy body.jobType = false ∧
        (createJobPost now s user body).2.status = 201 ∧
        (createJobPost now s user body).1 =
          { s with
            jobPosts := s.jobPosts ++
              [{ id := s.nextId, companyId := C, title := body.title.getD "",
                 description := body.description.getD "", industry := body.industry.getD "",
                 jobType := body.jobType.getD "", isActive := true, applicationDeadline := t,
                 hasChatArea := body.hasChatArea.getD false }],
            nextId := s.nextId + 1 } := by
  unfold createJobPost
  split
  · exact Or.inl ⟨rfl, by simp⟩
  · rename_i C
    split
    · exact Or.inl ⟨rfl, by simp⟩
    · split
      · exact Or.inl ⟨rfl, by simp⟩
      · rename_i hreq
        simp only [not_or, Bool.not_eq_true] at hreq
        split
        · rename_i t ht
          split
          · exact Or.inl ⟨rfl, by simp⟩
          · rename_i hlt
            exact Or.inr ⟨C, t, rfl, ht, by omega, hreq.1, hreq.2.1, hreq.2.2.1, hreq.2.2.2.1,
              rfl, rfl⟩
        · exact Or.inl ⟨rfl, by simp⟩

/-- C17, failing input. Company 2 of `demoStore` posts a job whose body carries
every required field and a deadline that is not a date: the deadline is not
later than the current time, yet the answer is 500 "Job post creation failed",
not 400, and nothing is created. With the deadline 2000 the same body creates
the job post at time 500 (201). -/
theorem createJobPost_undated_deadline :
    createJobPost 500 demoStore (some 2) undatedJobBody =
      (demoStore, { status := 500, success := false, message := "Job post creation failed" }) ∧
    (createJobPost 500 demoStore (some 2) undatedJobBody).2.status ≠ 400 ∧
    (createJobPost 500 demoStore (some 2) datedJobBody).2.status = 201 := by
  decide

/-- C18. For every company `C` and job post id `J`: unless `C` owns a job post
with id `J`, `deleteJobPost` answers 404 "Job post not found" and returns the
store as it was. When `C` owns it and no application refers to `J`, the answer is
200, the rows with id `J` leave the table of job posts and no application
changes. When an application refers to `J`, the answer is 200 and the store
differs only in the active flag of the rows with id `J`, which is false: the job
post is kept and no application is deleted. -/
theorem deleteJobPost_effects (s : Store) (C J : Nat) :
    ((∀ j ∈ s.jobPosts, ¬ (j.id = J ∧ j.companyId = C)) →
      deleteJobPost s (some C) J =
        (s, { status := 404, success := false, message := "Job post not found" })) ∧
    ((∃ j ∈ s.jobPosts, j.id = J ∧ j.companyId = C) →
      ((∀ a ∈ s.jobApplications, a.jobPostId ≠ J) →
        (deleteJobPost s (some C) J).2 =
          { status := 200, success := true, message := "Job post deleted successfully" } ∧
        (deleteJobPost s (some C) J).1.jobPosts = s.jobPosts.filter (fun j => decide (j.id ≠ J)) ∧
        (∀ j ∈ (deleteJobPost s (some C) J).1.jobPosts, j.id ≠ J) ∧
        (deleteJobPost s (some C) J).1.jobApplications = s.jobApplications) ∧
      ((∃ a ∈ s.jobApplications, a.jobPostId = J) →
        deleteJobPost s (some C) J =
          ({ s with
              jobPosts := s.jobPosts.map (fun j =>
                if j.id = J then { j with isActive := false } else j) },
            { status := 200, success := true,
              message := "Job post deactivated (has existing applications)" }))) := by
  constructor
  · intro hno
    have hfind : s.jobPosts.find? (fun j => decide (j.id = J ∧ j.companyId = C)) = none := by
      rw [List.find?_eq_none]
      intro j hj
      simpa using hno j hj
    simp only [deleteJobPost, hfind]
  · rintro ⟨j, hj, hjq⟩
    obtain ⟨found, hfound⟩ := exists_find_of_mem
      (fun j => decide (j.id = J ∧ j.companyId = C)) s.jobPosts j hj (by simpa using hjq)
    constructor
    · intro hnone
      have hcount : (s.jobApplications.filter (fun a => decide (a.jobPostId = J))).length = 0 := by
        rw [List.length_eq_zero, List.filter_eq_nil_iff]
        intro a ha
        simpa using hnone a ha
      simp only [deleteJobPost, hfound, hcount, gt_iff_lt, lt_self_iff_false, if_false,
        Store.deleteJobPost]
      refine ⟨trivial, trivial, ?_, trivial⟩
      intro k hk
      have := (List.mem_filter.mp hk).2
      simpa using this
    · rintro ⟨a, ha, haJ⟩
      have hcount : (s.jobApplications.filter (fun a => decide (a.jobPostId = J))).length > 0 := by
        apply List.length_pos_of_mem (a := a)
        exact List.mem_filter.mpr ⟨ha, by simpa using haJ⟩
      simp only [deleteJobPost, hfound, hcount, if_true, Store.deactivateJobPost]

/-- C18, witness: company 2 deletes its job post 10, once in `demoStore`, where
nobody has applied, and once in `appliedStore`, where job seeker 1 has. -/
theorem deleteJobPost_effects_witness :
    (deleteJobPost demoStore (some 2) 10).1.jobPosts = [] ∧
    (deleteJobPost appliedStore (some 2) 10).1.jobPosts = [{ demoJobPost with isActive := false }] ∧
    (deleteJobPost appliedStore (some 2) 10).1.jobApplications = appliedStore.jobApplications ∧
    deleteJobPost demoStore (some 5) 10 =
      (demoStore, { status := 404, success := false, message := "Job post not found" }) :=
  ⟨by
      rw [((deleteJobPost_effects demoStore 2 10).2 (by decide)).1 (by decide) |>.2.1]
      decide,
    by
      rw [((deleteJobPost_effects appliedStore 2 10).2 (by decide)).2 (by decide)]
      decide,
    by
      rw [((deleteJobPost_effects appliedStore 2 10).2 (by decide)).2 (by decide)],
    (deleteJobPost_effects demoStore 5 10).1 (by decide)⟩

/-- What `updateJobPost` does to the store, on every path: nothing, with a status
other than 200; or, with status 200 and for a job post of the session user, the
field merge of the body into the rows with the requested id. -/
theorem updateJobPost_paths (s : Store) (user : Option Nat) (J : Nat) (F : JobPostUpdate) :
    ((updateJobPost s user J F).1 = s ∧ (updateJobPost s user J F).2.status ≠ 200) ∨
      ∃ C, user = some C ∧ (∃ j ∈ s.jobPosts, j.id = J ∧ j.companyId = C) ∧
        (updateJobPost s user J F).2.status = 200 ∧
        (updateJobPost s user J F).1 =
          { s with
            jobPosts := s.jobPosts.map (fun j =>
              if j.id = J then j.merge F F.deadline else j) } := by
  unfold updateJobPost
  split
  · exact Or.inl ⟨rfl, by simp⟩
  · rename_i C
    split
    · exact Or.inl ⟨rfl, by simp⟩
    · rename_i found hfound
      have hmem := List.mem_of_find?_eq_some hfound
      have hq := List.find?_some hfound
      simp only [decide_eq_true_eq] at hq
      split
      · exact Or.inl ⟨rfl, by simp⟩
      · rename_i s1 hs1
        unfold Store.updateJobPost at hs1
        split at hs1
        · cases hs1
        · cases hs1
          exact Or.inr ⟨C, rfl, ⟨found, hmem, hq⟩, rfl, rfl⟩

/-- C20, counterexample. Company 2 owns job post 10 of `demoStore` and updates it
with a body that names only `companyId`, with the value 5: the call succeeds
(200) and the job post is then owned by company 5, not by company 2. -/
theorem updateJobPost_transfers_ownership :
    (∃ j ∈ demoStore.jobPosts, j.id = 10 ∧ j.companyId = 2) ∧
    (updateJobPost demoStore (some 2) 10 { emptyUpdate with companyId := some 5 }).2.status = 200 ∧
    (updateJobPost demoStore (some 2) 10 { emptyUpdate with companyId := some 5 }).1.jobPosts =
      [{ demoJobPost with companyId := 5 }] := by
  decide

/-- C20, amended. For every company `C`, job post id `J` and partial field set `F`:
unless `C` owns a job post with id `J`, `updateJobPost` answers 404 "Job post not
found" and returns the store as it was. On success (200) the store differs only
in the rows with id `J` of the job post table, which are the field merge of `F`
into the previous rows: the id is kept, every field that `F` does not name keeps
its previous value, and every other job post is unchanged. The job post is still
owned by `C` when `F` does not name `companyId`; a named `companyId` becomes the
owner. -/
theorem updateJobPost_field_merge (s : Store) (C J : Nat) (F : JobPostUpdate) :
    ((∀ j ∈ s.jobPosts, ¬ (j.id = J ∧ j.companyId = C)) →
      updateJobPost s (some C) J F =
        (s, { status := 404, success := false, message := "Job post not found" })) ∧
    ((updateJobPost s (some C) J F).2.status = 200 →
      (∃ j ∈ s.jobPosts, j.id = J ∧ j.companyId = C) ∧
      (updateJobPost s (some C) J F).1 =
        { s with
          jobPosts := s.jobPosts.map (fun j => if j.id = J then j.merge F F.deadline else j) }) ∧
    ∀ j : JobPost,
      (j.merge F F.deadline).id = j.id ∧
      (F.title = none → (j.merge F F.deadline).title = j.title) ∧
      (F.description = none → (j.merge F F.deadline).description = j.description) ∧
      (F.industry = none → (j.merge F F.deadline).industry = j.industry) ∧
      (F.jobType = none → (j.merge F F.deadline).jobType = j.jobType) ∧
      (F.applicationDeadline = none →
        (j.merge F F.deadline).applicationDeadline = j.applicationDeadline) ∧
      (F.hasChatArea = none → (j.merge F F.deadline).hasChatArea = j.hasChatArea) ∧
      (F.isActive = none → (j.merge F F.deadline).isActive = j.isActive) ∧
      (F.companyId = none → (j.merge F F.deadline).companyId = j.companyId) ∧
      (∀ c, F.companyId = some c → (j.merge F F.deadline).companyId = c) := by
  refine ⟨?_, ?_, ?_⟩
  · intro hno
    have hfind : s.jobPosts.find? (fun j => decide (j.id = J ∧ j.companyId = C)) = none := by
      rw [List.find?_eq_none]
      intro j hj
      simpa using hno j hj
    simp only [updateJobPost, hfind]
  · intro h200
    rcases updateJobPost_paths s (some C) J F with ⟨-, hne⟩ | ⟨C', hC, hown, -, heq⟩
    · exact absurd h200 hne
    · cases hC
      exact ⟨hown, heq⟩
  · intro j
    refine ⟨rfl, ?_, ?_, ?_, ?_, ?_, ?_, ?_, ?_, ?_⟩
    · intro h; simp [JobPost.merge, h]
    · intro h; simp [JobPost.merge, h]
    · intro h; simp [JobPost.merge, h]
    · intro h; simp [JobPost.merge, h]
    · intro h; simp [JobPost.merge, JobPostUpdate.deadline, h]
    · intro h; simp [JobPost.merge, h]
    · intro h; simp [JobPost.merge, h]
    · intro h; simp [JobPost.merge, h]
    · intro c h; simp [JobPost.merge, h]

/-- C20, witness: company 5 does not own job post 10 of `demoStore`; company 2
does, and renames it. -/
theorem updateJobPost_field_merge_witness :
    updateJobPost demoStore (some 5) 10 { emptyUpdate with title := some "Senior Engineer" } =
      (demoStore, { status := 404, success := false, message := "Job post not found" }) ∧
    (updateJobPost demoStore (some 2) 10 { emptyUpdate with title := some "Senior Engineer" }).1 =
      { demoStore with
        jobPosts := demoStore.jobPosts.map (fun j =>
          if j.id = 10 then
            j.merge { emptyUpdate with title := some "Senior Engineer" }
              (JobPostUpdate.deadline { emptyUpdate with title := some "Senior Engineer" })
          else j) } :=
  ⟨(updateJobPost_field_merge demoStore 5 10
      { emptyUpdate with title := some "Senior Engineer" }).1 (by decide),
    ((updateJobPost_field_merge demoStore 2 10
      { emptyUpdate with title := some "Senior Engineer" }).2.1 (by decide)).2⟩

/-- The handlers `subscribeToCompany`, `inviteJobseeker`, `respondToInvitation`
and `sendChatMessage` never write the table of job posts. -/
theorem workflow_jobPosts (s : Store) (now : Nat) (user : Option Nat) (n : Nat)
    (x y : Option String) :
    (subscribeToCompany s user n x).1.jobPosts = s.jobPosts ∧
    (inviteJobseeker now s user n x y).1.jobPosts = s.jobPosts ∧
    (respondToInvitation s user n x).1.jobPosts = s.jobPosts ∧
    (sendChatMessage s user n x).1.jobPosts = s.jobPosts ∧
    s.nextId ≤ (sendChatMessage s user n x).1.nextId := by
  refine ⟨?_, ?_, ?_, ?_, ?_⟩
  · unfold subscribeToCompany
    repeat' split
    all_goals rfl
  · unfold inviteJobseeker
    repeat' split
    all_goals rfl
  · unfold respondToInvitation
    repeat' split
    all_goals rfl
  · unfold sendChatMessage
    repeat' split
    all_goals rfl
  · unfold sendChatMessage
    repeat' split
    all_goals first | exact le_rfl | exact Nat.le_succ _

/-- The handler `applyToJob` never lowers the identifier counter. -/
theorem applyToJob_nextId (now : Nat) (s : Store) (user : Option Nat) (jobId : Nat)
    (body : ApplyBody) : s.nextId ≤ (applyToJob now s user jobId body).1.nextId := by
  have hres : ∀ t, s.nextId ≤ (customResumeStep s (user.getD 0) t body).1.nextId := by
    intro t
    unfold customResumeStep
    split
    · exact Nat.le_succ _
    · exact le_rfl
  have hstep : ∀ (st s3 : Store) (jp : JobPost) (u : Nat),
      chatEnrolStep st jp jobId u = some s3 → st.nextId ≤ s3.nextId := by
    intro st s3 jp u h
    unfold chatEnrolStep at h
    split at h
    · split at h
      · unfold Store.createChatParticipant at h
        split at h
        · cases h
        · cases h; exact Nat.le_succ _
      · cases h; exact le_rfl
    · cases h; exact le_rfl
  unfold applyToJob
  split
  · exact le_rfl
  · rename_i userId
    split
    · exact le_rfl
    · rename_i jobPost _
      have hr := hres jobPost.title
      simp only [Option.getD_some] at hr
      split
      · exact le_rfl
      · simp only
        split
        · exact hr
        · split
          · simp only [Store.createJobApplication]
            omega
          · rename_i s3 hs3
            have := hstep _ s3 jobPost userId hs3
            simp only [Store.createJobApplication] at this
            simp only [Store.createNotification]
            omega

/-- The handler `updateApplicantStatus` never lowers the identifier counter. -/
theorem updateApplicantStatus_nextId (s : Store) (user : Option Nat) (A : Nat)
    (status : Option String) : s.nextId ≤ (updateApplicantStatus s user A status).1.nextId := by
  rcases updateApplicantStatus_failed s user A status with ⟨hs, -⟩ | h200
  · rw [hs]
  · obtain ⟨C, v, a, j, rfl, rfl, hv, ha, hj⟩ := updateApplicantStatus_ok s user A status h200
    rw [updateApplicantStatus_found s C A v a j hv ha hj]
    exact le_trans (acceptedEnrolStep_frame (s.updateApplicationStatus A v) v j a).2.2.2.2
      (Nat.le_succ _)

/-- The soft delete: for a job post of the session user to which an application
refers, `deleteJobPost` sets the active flag of the rows with the id to false. -/
theorem deleteJobPost_deactivates (s : Store) (C J : Nat)
    (hown : ∃ j ∈ s.jobPosts, j.id = J ∧ j.companyId = C)
    (happ : ∃ a ∈ s.jobApplications, a.jobPostId = J) :
    (deleteJobPost s (some C) J).1 = s.deactivateJobPost J := by
  obtain ⟨j, hj, hjq⟩ := hown
  obtain ⟨found, hfound⟩ := exists_find_of_mem
    (fun j => decide (j.id = J ∧ j.companyId = C)) s.jobPosts j hj (by simpa using hjq)
  obtain ⟨a, ha, haJ⟩ := happ
  have hcount : (s.jobApplications.filter (fun a => decide (a.jobPostId = J))).length > 0 := by
    apply List.length_pos_of_mem (a := a)
    exact List.mem_filter.mpr ⟨ha, by simpa using haJ⟩
  simp only [deleteJobPost, hfound, hcount, if_true]

/-- What `deleteJobPost` does to the table of job posts, on every path: it is left
alone, the rows with the id get the active flag false, or they are removed; the
identifier counter is kept. -/
theorem deleteJobPost_jobPosts (s : Store) (user : Option Nat) (J : Nat) :
    (deleteJobPost s user J).1.nextId = s.nextId ∧
    ((deleteJobPost s user J).1.jobPosts = s.jobPosts ∨
      (deleteJobPost s user J).1.jobPosts =
        s.jobPosts.map (fun j => if j.id = J then { j with isActive := false } else j) ∨
      (deleteJobPost s user J).1.jobPosts = s.jobPosts.filter (fun j => decide (j.id ≠ J))) := by
  unfold deleteJobPost
  split
  · exact ⟨rfl, Or.inl rfl⟩
  · split
    · exact ⟨rfl, Or.inl rfl⟩
    · simp only
      split
      · exact ⟨rfl, Or.inr (Or.inl rfl)⟩
      · exact ⟨rfl, Or.inr (Or.inr rfl)⟩

/-- A request that does not set the active flag to true keeps the facts
"identifier `J` has been issued" and "no job post with id `J` is active". -/
theorem ApiRequest.run_keeps_inactive (J : Nat) (s : Store) (q : ApiRequest)
    (hq : q.setsActive = false) (hJ : J < s.nextId)
    (h : ∀ j ∈ s.jobPosts, j.id = J → j.isActive = false) :
    J < (q.run s).nextId ∧ ∀ j ∈ (q.run s).jobPosts, j.id = J → j.isActive = false := by
  cases q with
  | apply now user jobId body =>
    simp only [ApiRequest.run]
    rw [applyToJob_jobPosts]
    exact ⟨lt_of_lt_of_le hJ (applyToJob_nextId now s user jobId body), h⟩
  | subscribe user companyId profileType =>
    simp only [ApiRequest.run]
    rw [(workflow_jobPosts s 0 user companyId profileType none).1]
    exact ⟨lt_of_lt_of_le hJ (subscribeToCompany_invitations s user companyId profileType).2, h⟩
  | invite now user jobseekerId profileType message =>
    simp only [ApiRequest.run]
    rw [(workflow_jobPosts s now user jobseekerId profileType message).2.1]
    exact ⟨lt_of_lt_of_le hJ
      (inviteJobseeker_invitations now s user jobseekerId profileType message).1, h⟩
  | respond user invitationId action =>
    simp only [ApiRequest.run]
    rw [(workflow_jobPosts s 0 user invitationId action none).2.2.1]
    exact ⟨lt_of_lt_of_le hJ (respondToInvitation_invitations s user invitationId action).1, h⟩
  | updateStatus user applicantId status =>
    simp only [ApiRequest.run]
    rw [(updateApplicantStatus_pairs s user applicantId status).2.1]
    exact ⟨lt_of_lt_of_le hJ (updateApplicantStatus_nextId s user applicantId status), h⟩
  | createJob now user body =>
    simp only [ApiRequest.run]
    rcases createJobPost_paths now s user body with ⟨hs, -⟩ | ⟨C, t, -, -, -, -, -, -, -, -, hs⟩
    · rw [hs]; exact ⟨hJ, h⟩
    · rw [hs]
      refine ⟨Nat.lt_succ_of_lt hJ, ?_⟩
      intro j hj hid
      rcases List.mem_append.mp hj with hj | hj
      · exact h j hj hid
      · rw [List.mem_singleton] at hj
        subst hj
        simp only at hid
        omega
  | updateJob user jobId updateData =>
    simp only [ApiRequest.run]
    rcases updateJobPost_paths s user jobId updateData with ⟨hs, -⟩ | ⟨C, -, -, -, hs⟩
    · rw [hs]; exact ⟨hJ, h⟩
    · rw [hs]
      refine ⟨hJ, ?_⟩
      intro j hj hid
      obtain ⟨k, hk, rfl⟩ := List.mem_map.mp hj
      by_cases hkid : k.id = jobId
      · simp only [hkid, if_true] at hid ⊢
        have hkJ : k.id = J := hid
        have hkin := h k hk hkJ
        simp only [ApiRequest.setsActive, decide_eq_false_iff_not] at hq
        simp only [JobPost.merge]
        cases hact : updateData.isActive with
        | none => simpa using hkin
        | some b =>
          cases b with
          | true => exact absurd hact hq
          | false => rfl
      · simp only [hkid, if_false] at hid ⊢
        exact h k hk hid
  | deleteJob user jobId =>
    simp only [ApiRequest.run]
    have hd := deleteJobPost_jobPosts s user jobId
    rw [hd.1]
    refine ⟨hJ, ?_⟩
    rcases hd.2 with heq | heq | heq
    · rw [heq]; exact h
    · rw [heq]
      intro j hj hid
      obtain ⟨k, hk, rfl⟩ := List.mem_map.mp hj
      by_cases hkid : k.id = jobId
      · simp only [hkid, if_true]
      · simp only [hkid, if_false] at hid ⊢
        exact h k hk hid
    · rw [heq]
      intro j hj hid
      exact h j (List.mem_filter.mp hj).1 hid
  | sendMessage user chatAreaId content =>
    simp only [ApiRequest.run]
    rw [(workflow_jobPosts s 0 user chatAreaId content none).2.2.2.1]
    exact ⟨lt_of_lt_of_le hJ (workflow_jobPosts s 0 user chatAreaId content none).2.2.2.2, h⟩

/-- A job post id without an active row stays so along every run without a
request that sets the active flag to true. -/
theorem runApi_keeps_inactive (J : Nat) (requests : List ApiRequest) (s : Store)
    (hreq : ∀ q ∈ requests, q.setsActive = false) (hJ : J < s.nextId)
    (h : ∀ j ∈ s.jobPosts, j.id = J → j.isActive = false) :
    ∀ j ∈ (runApi s requests).jobPosts, j.id = J → j.isActive = false := by
  induction requests generalizing s with
  | nil => exact h
  | cons q rest ih =>
    have hq := ApiRequest.run_keeps_inactive J s q (hreq q (List.mem_cons_self _ _)) hJ h
    exact ih (q.run s) (fun r hr => hreq r (List.mem_cons_of_mem _ hr)) hq.1 hq.2

/-- C19, counterexample. Company 2 deletes its job post 10 in `appliedStore`,
where the job post has an application: the job post is kept and deactivated.
Company 2 then calls `updateJobPost` with a body that names `isActive` with the
value true: the call succeeds and job post 10 is active again. -/
theorem updateJobPost_reactivates :
    (deleteJobPost appliedStore (some 2) 10).2.message =
      "Job post deactivated (has existing applications)" ∧
    deactivatedStore.jobPosts.map (fun j => (j.id, j.isActive)) = [(10, false)] ∧
    (updateJobPost deactivatedStore (some 2) 10
      { emptyUpdate with isActive := some true }).2.status = 200 ∧
    (runApi deactivatedStore reactivateRun).jobPosts.map (fun j => (j.id, j.isActive)) =
      [(10, true)] := by
  decide

/-- C19, amended. After `deleteJobPost` has soft-deactivated job post `J` (a job
post of the calling company to which an application refers, in a store whose job
post ids were issued by the identifier counter), the job post is inactive and
stays inactive along every sequence of requests to the handlers that write the
store, as long as no `updateJobPost` request names `isActive` with the value
true. -/
theorem deactivated_stays_inactive (s : Store) (C J : Nat) (requests : List ApiRequest)
    (hids : s.jobPostIdsIssued)
    (hown : ∃ j ∈ s.jobPosts, j.id = J ∧ j.companyId = C)
    (happ : ∃ a ∈ s.jobApplications, a.jobPostId = J)
    (hreq : ∀ q ∈ requests, q.setsActive = false) :
    ∀ j ∈ (runApi (deleteJobPost s (some C) J).1 requests).jobPosts,
      j.id = J → j.isActive = false := by
  rw [deleteJobPost_deactivates s C J hown happ]
  apply runApi_keeps_inactive J requests _ hreq
  · obtain ⟨j, hj, hjq⟩ := hown
    have := hids j hj
    simp only [Store.deactivateJobPost]
    omega
  · intro j hj hid
    simp only [Store.deactivateJobPost] at hj
    obtain ⟨k, hk, rfl⟩ := List.mem_map.mp hj
    by_cases hkid : k.id = J
    · simp only [hkid, if_true]
    · simp only [hkid, if_false] at hid

/-- C19, witness: job post 10 of `appliedStore`, soft-deleted by company 2, along
the run `quietRun`. -/
theorem deactivated_stays_inactive_witness :
    appliedStore.jobPostIdsIssued ∧ (∀ q ∈ quietRun, q.setsActive = false) ∧
    ∀ j ∈ (runApi (deleteJobPost appliedStore (some 2) 10).1 quietRun).jobPosts,
      j.id = 10 → j.isActive = false :=
  ⟨by decide, by decide,
    deactivated_stays_inactive appliedStore 2 10 quietRun (by decide) (by decide) (by decide)
      (by decide)⟩

/-! ## Registration: the validations of `registerJobseeker` and `registerCompany` -/

/-- A character class matches one character of the class. -/
theorem Regex.matchFrom_chars (p : Char → Bool) (cs : List Char) (k : List Char → Bool) :
    (Regex.chars p).matchFrom cs k = true ↔ ∃ c v, cs = c :: v ∧ p c = true ∧ k v = true := by
  cases cs with
  | nil => simp [Regex.matchFrom]
  | cons c v =>
    simp only [Regex.matchFrom, Bool.and_eq_true, List.cons.injEq]
    constructor
    · rintro ⟨h1, h2⟩; exact ⟨c, v, ⟨rfl, rfl⟩, h1, h2⟩
    · rintro ⟨c1, v1, ⟨rfl, rfl⟩, h1, h2⟩; exact ⟨h1, h2⟩

/-- A chain of one-character classes matches the text of its characters. -/
theorem Regex.matchFrom_foldr (l : List Char) (cs : List Char) (k : List Char → Bool) :
    (l.foldr (fun c r => Regex.seq (Regex.chars (fun x => x == c)) r) Regex.eps).matchFrom cs k
      = true ↔ ∃ v, cs = l ++ v ∧ k v = true := by
  induction l generalizing cs with
  | nil => simp [Regex.matchFrom]
  | cons a l ih =>
    simp only [List.foldr_cons, Regex.matchFrom, Regex.matchFrom_chars, ih, beq_iff_eq,
      List.cons_append]
    constructor
    · rintro ⟨c, v, rfl, rfl, w, rfl, hk⟩
      exact ⟨w, rfl, hk⟩
    · rintro ⟨w, rfl, hk⟩
      exact ⟨a, l ++ w, rfl, rfl, w, rfl, hk⟩

theorem Regex.matchFrom_text (t : String) (cs : List Char) (k : List Char → Bool) :
    (Regex.text t).matchFrom cs k = true ↔ ∃ v, cs = t.data ++ v ∧ k v = true :=
  Regex.matchFrom_foldr t.data cs k

/-- The pattern `c{n}` of a class `c` matches `n` characters of the class. -/
theorem Regex.matchFrom_times_chars (p : Char → Bool) (n : Nat) (cs : List Char)
    (k : List Char → Bool) :
    (Regex.times n (Regex.chars p)).matchFrom cs k = true ↔
      ∃ u v, cs = u ++ v ∧ u.length = n ∧ (∀ c ∈ u, p c = true) ∧ k v = true := by
  simp only [Regex.matchFrom]
  induction n generalizing cs k with
  | zero =>
    simp only [Function.iterate_zero, id_eq, List.length_eq_zero]
    constructor
    · intro h; exact ⟨[], cs, rfl, rfl, by simp, h⟩
    · rintro ⟨u, v, rfl, rfl, -, hk⟩; exact hk
  | succ n ih =>
    rw [Function.iterate_succ_apply']
    simp only [Regex.matchFrom_chars, ih]
    constructor
    · rintro ⟨c, w, rfl, hc, u, v, rfl, hlen, hall, hk⟩
      refine ⟨c :: u, v, rfl, by simp [hlen], ?_, hk⟩
      intro x hx
      rcases List.mem_cons.mp hx with rfl | hx
      · exact hc
      · exact hall x hx
    · rintro ⟨u, v, rfl, hlen, hall, hk⟩
      cases u with
      | nil => simp at hlen
      | cons c u =>
        refine ⟨c, u ++ v, rfl, hall c (List.mem_cons_self _ _), u, v, rfl, ?_, ?_, hk⟩
        · simpa using hlen
        · intro x hx; exact hall x (List.mem_cons_of_mem _ hx)

/-- The matcher on `ab`, `a|b` and `a?`. -/
theorem Regex.matchFrom_seq (a b : Regex) (cs : List Char) (k : List Char → Bool) :
    (Regex.seq a b).matchFrom cs k = a.matchFrom cs (fun rest => b.matchFrom rest k) := rfl

theorem Regex.matchFrom_alt (a b : Regex) (cs : List Char) (k : List Char → Bool) :
    (Regex.alt a b).matchFrom cs k = (a.matchFrom cs k || b.matchFrom cs k) := rfl

theorem Regex.matchFrom_opt (a : Regex) (cs : List Char) (k : List Char → Bool) :
    (Regex.opt a).matchFrom cs k = (a.matchFrom cs k || k cs) := rfl

/-- The classes `0-9` and `a-zA-Z` are the decimal digits and the ASCII letters. -/
theorem digit_class (c : Char) : decide ('0' ≤ c ∧ c ≤ '9') = c.isDigit := by
  simp only [Char.isDigit, Bool.decide_and]; rfl

theorem letter_class (c : Char) :
    (decide ('a' ≤ c ∧ c ≤ 'z') || decide ('A' ≤ c ∧ c ≤ 'Z')) = c.isAlpha := by
  simp only [Char.isAlpha, Char.isUpper, Char.isLower, Bool.decide_and, Bool.or_comm]; rfl

/-- The group `(\+?256|0)` matches one of the three openings. -/
theorem phoneRegex_opening (cs : List Char) (k : List Char → Bool) :
    (Regex.alt (Regex.seq (Regex.opt (Regex.text "+")) (Regex.text "256"))
        (Regex.text "0")).matchFrom cs k = true ↔
      ∃ opening ∈ ["0", "256", "+256"], ∃ v, cs = opening.data ++ v ∧ k v = true := by
  simp only [Regex.matchFrom_alt, Regex.matchFrom_seq, Regex.matchFrom_opt, Bool.or_eq_true,
    Regex.matchFrom_text, List.mem_cons, List.mem_singleton, List.not_mem_nil, or_false]
  constructor
  · rintro ((⟨w, rfl, v, rfl, hk⟩ | ⟨v, rfl, hk⟩) | ⟨v, rfl, hk⟩)
    · exact ⟨"+256", Or.inr (Or.inr rfl), v, rfl, hk⟩
    · exact ⟨"256", Or.inr (Or.inl rfl), v, rfl, hk⟩
    · exact ⟨"0", Or.inl rfl, v, rfl, hk⟩
  · rintro ⟨o, (rfl | rfl | rfl), v, rfl, hk⟩
    · exact Or.inr ⟨v, rfl, hk⟩
    · exact Or.inl (Or.inr ⟨v, rfl, hk⟩)
    · exact Or.inl (Or.inl ⟨"256".data ++ v, rfl, v, rfl, hk⟩)

/-- The part `[17]\d{8}` before the end of the text matches a 1 or a 7 and then
exactly eight digits. -/
theorem phoneRegex_rest (cs : List Char) :
    (Regex.seq (Regex.alt (Regex.text "1") (Regex.text "7"))
        (Regex.times 8 Regex.digit)).matchFrom cs (fun rest => rest.isEmpty) = true ↔
      ∃ d ∈ ['1', '7'], ∃ rest : List Char,
        rest.length = 8 ∧ (∀ c ∈ rest, c.isDigit = true) ∧ cs = d :: rest := by
  simp only [Regex.matchFrom_alt, Regex.matchFrom_seq, Bool.or_eq_true, Regex.digit, Regex.range,
    Regex.matchFrom_text, Regex.matchFrom_times_chars, digit_class, List.isEmpty_iff,
    List.mem_cons, List.mem_singleton, List.not_mem_nil, or_false]
  constructor
  · rintro (⟨v, rfl, u, w, rfl, hlen, hall, rfl⟩ | ⟨v, rfl, u, w, rfl, hlen, hall, rfl⟩)
    · exact ⟨'1', Or.inl rfl, u, hlen, hall, by simp⟩
    · exact ⟨'7', Or.inr rfl, u, hlen, hall, by simp⟩
  · rintro ⟨d, (rfl | rfl), r, hlen, hall, rfl⟩
    · exact Or.inl ⟨r, rfl, r, [], by simp, hlen, hall, rfl⟩
    · exact Or.inr ⟨r, rfl, r, [], by simp, hlen, hall, rfl⟩

/-- The phone pattern accepts the phone numbers of the specification and no
other text. -/
theorem phoneRegex_iff (x : String) :
    phoneRegex.testWhole x = true ↔ UgandanPhoneSpec x := by
  unfold Regex.testWhole phoneRegex UgandanPhoneSpec
  rw [Regex.matchFrom_seq, phoneRegex_opening]
  simp only [phoneRegex_rest]
  constructor
  · rintro ⟨o, ho, v, hx, d, hd, r, hlen, hall, rfl⟩
    exact ⟨o, ho, d, hd, r, hlen, hall, hx⟩
  · rintro ⟨o, ho, d, hd, r, hlen, hall, hx⟩
    exact ⟨o, ho, d :: r, hx, d, hd, r, hlen, hall, rfl⟩
/-- A pattern that matches one character of a class is found in a text exactly
when the text has a character of the class. -/
theorem Regex.test_class (r : Regex) (p : Char → Bool)
    (h : ∀ cs, r.matchFrom cs (fun _ => true) = true ↔ ∃ c v, cs = c :: v ∧ p c = true)
    (x : String) : r.test x = true ↔ ∃ c ∈ x.data, p c = true := by
  unfold Regex.test
  simp only [List.any_eq_true, List.mem_tails, h]
  constructor
  · rintro ⟨rest, ⟨t, ht⟩, c, v, rfl, hc⟩
    exact ⟨c, by rw [← ht]; simp, hc⟩
  · rintro ⟨c, hc, hp⟩
    obtain ⟨u, v, huv⟩ := List.append_of_mem hc
    exact ⟨c :: v, ⟨u, huv.symm⟩, c, v, rfl, hp⟩

/-- The strength condition holds for the weak passwords of the specification and
for no other. -/
theorem weakPassword_iff (password : String) :
    weakPassword password = true ↔ WeakPasswordSpec password := by
  have hd : Regex.digit.test password = true ↔ ∃ c ∈ password.data, c.isDigit = true := by
    apply Regex.test_class
    intro cs
    simp only [Regex.digit, Regex.range, Regex.matchFrom_chars, digit_class, and_true]
  have hl : (Regex.alt (Regex.range 'a' 'z') (Regex.range 'A' 'Z')).test password = true ↔
      ∃ c ∈ password.data, c.isAlpha = true := by
    apply Regex.test_class
    intro cs
    simp only [Regex.range, Regex.matchFrom_alt, Regex.matchFrom_chars, Bool.or_eq_true, and_true,
      ← letter_class]
    constructor
    · rintro (⟨c, v, rfl, h⟩ | ⟨c, v, rfl, h⟩)
      · exact ⟨c, v, rfl, Or.inl h⟩
      · exact ⟨c, v, rfl, Or.inr h⟩
    · rintro ⟨c, v, rfl, h | h⟩
      · exact Or.inl ⟨c, v, rfl, h⟩
      · exact Or.inr ⟨c, v, rfl, h⟩
  unfold weakPassword WeakPasswordSpec
  simp only [Bool.or_eq_true, decide_eq_true_eq, Bool.not_eq_true', ← Bool.not_eq_true, hd, hl,
    not_exists, not_and, or_assoc]
/-- `registerJobseeker` gives the password answer exactly on a request that
passes the four validations before the strength condition and fails it. -/
theorem registerJobseeker_weak_response (s : Store) (body : JobseekerRegistration) :
    (registerJobseeker s body).2 =
        { status := 400, success := false,
          message := "Password must be at least 8 characters with letters and numbers" } ↔
      ((falsy body.firstName = false ∧ falsy body.lastName = false ∧ falsy body.email = false ∧
          falsy body.phoneNumber = false ∧ falsy body.password = false ∧
          falsy body.confirmPassword = false) ∧
        body.agreeToTerms = true ∧ body.password = body.confirmPassword ∧
        phoneRegex.testWhole (body.phoneNumber.getD "") = true) ∧
      weakPassword (body.password.getD "") = true := by
  unfold registerJobseeker
  split_ifs with h1 h2 h3 h4 h5
  · refine iff_of_false (by simp) ?_
    rintro ⟨⟨⟨a, b, c, d, e, f⟩, -⟩, -⟩
    simp [a, b, c, d, e, f] at h1
  · refine iff_of_false (by simp) ?_
    rintro ⟨⟨-, a, -⟩, -⟩
    simp [a] at h2
  · refine iff_of_false (by simp) ?_
    rintro ⟨⟨-, -, a, -⟩, -⟩
    exact h3 a
  · refine iff_of_false (by simp) ?_
    rintro ⟨⟨-, -, -, a⟩, -⟩
    simp [a] at h4
  · refine iff_of_true rfl ⟨⟨?_, ?_, ?_, ?_⟩, h5⟩
    · simpa using h1
    · simpa using h2
    · simpa using h3
    · simpa using h4
  · refine iff_of_false ?_ ?_
    · split
      · simp
      · split
        · simp
        · split
          · simp
          · split <;> simp
    · rintro ⟨-, a⟩
      exact h5 a

/-- `registerJobseeker` writes the user table only for a request with equal
passwords, a strong password and an accepted phone. -/
theorem registerJobseeker_users (s : Store) (body : JobseekerRegistration)
    (h : (registerJobseeker s body).1.users ≠ s.users) :
    body.password = body.confirmPassword ∧ weakPassword (body.password.getD "") = false ∧
      phoneRegex.testWhole (body.phoneNumber.getD "") = true := by
  unfold registerJobseeker at h
  split_ifs at h with h1 h2 h3 h4 h5
  · exact absurd rfl h
  · exact absurd rfl h
  · exact absurd rfl h
  · exact absurd rfl h
  · exact absurd rfl h
  · exact ⟨by simpa using h3, by simpa using h5, by simpa using h4⟩
/-- `registerCompany` gives the password answer exactly on a request with every
required field and equal passwords that fails the strength condition. -/
theorem registerCompany_weak_response (s : Store) (body : CompanyRegistration) :
    (registerCompany s body).2 =
        { status := 400, success := false,
          message := "Password must be at least 8 characters with letters and numbers" } ↔
      (body.missing = [] ∧ body.password = body.confirmPassword) ∧
        weakPassword (body.password.getD "") = true := by
  unfold registerCompany
  split
  · rename_i field hfield
    refine iff_of_false ?_ ?_
    · have hmem : field ∈ body.missing := List.mem_of_mem_head? hfield
      have hfields : field ∈ ["companyName", "email", "password", "confirmPassword", "industry",
          "phone", "address", "companySize", "establishmentYear", "description",
          "contactPersonName", "contactPersonPosition", "agreeToTerms"] := by
        unfold CompanyRegistration.missing at hmem
        simp only [List.mem_map, List.mem_filter] at hmem
        obtain ⟨f, ⟨hf, -⟩, rfl⟩ := hmem
        simp only [List.mem_cons, List.mem_singleton, List.not_mem_nil, or_false] at hf ⊢
        rcases hf with rfl | rfl | rfl | rfl | rfl | rfl | rfl | rfl | rfl | rfl | rfl | rfl | rfl <;>
          simp
      simp only [List.mem_cons, List.mem_singleton, List.not_mem_nil, or_false] at hfields
      intro h
      replace h : fieldLabel field ++ " is required" =
          "Password must be at least 8 characters with letters and numbers" :=
        congrArg Response.message h
      revert h
      rcases hfields with rfl | rfl | rfl | rfl | rfl | rfl | rfl | rfl | rfl | rfl | rfl | rfl | rfl <;>
        decide
    · rintro ⟨⟨h, -⟩, -⟩
      rw [h] at hfield
      simp at hfield
  · rename_i hnone
    have hm : body.missing = [] := by
      cases hl : body.missing with
      | nil => rfl
      | cons a l => rw [hl] at hnone; simp at hnone
    split_ifs with h1 h2 h3 h4
    · refine iff_of_false (by simp) ?_
      rintro ⟨⟨-, a⟩, -⟩
      exact h1 a
    · exact iff_of_true rfl ⟨⟨hm, by simpa using h1⟩, h2⟩
    · refine iff_of_false (by simp) ?_
      rintro ⟨-, a⟩
      exact h2 a
    · refine iff_of_false ?_ ?_
      · split <;> simp
      · rintro ⟨-, a⟩
        exact h2 a
    · refine iff_of_false ?_ ?_
      · split
        · simp
        · split <;> simp
      · rintro ⟨-, a⟩
        exact h2 a

/-- `registerCompany` writes the user table only for a request with equal
passwords, a strong password and an accepted phone. -/
theorem registerCompany_users (s : Store) (body : CompanyRegistration)
    (h : (registerCompany s body).1.users ≠ s.users) :
    body.password = body.confirmPassword ∧ weakPassword (body.password.getD "") = false ∧
      phoneRegex.testWhole (body.phone.getD "") = true := by
  unfold registerCompany at h
  split at h
  · exact absurd rfl h
  · split_ifs at h with h1 h2 h3 h4
    · exact absurd rfl h
    · exact absurd rfl h
    · exact absurd rfl h
    · split at h <;> exact absurd rfl h
    · exact ⟨by simpa using h1, by simpa using h2, by simpa using h3⟩

/-- A registration whose phone the pattern does not accept is answered 400 and
writes nothing. -/
theorem registerJobseeker_invalid_phone (s : Store) (body : JobseekerRegistration)
    (h : phoneRegex.testWhole (body.phoneNumber.getD "") = false) :
    registerJobseeker s body = (s, (registerJobseeker s body).2) ∧
      (registerJobseeker s body).2.status = 400 := by
  unfold registerJobseeker
  split_ifs <;> exact ⟨rfl, rfl⟩

theorem registerCompany_invalid_phone (s : Store) (body : CompanyRegistration)
    (h : phoneRegex.testWhole (body.phone.getD "") = false) :
    registerCompany s body = (s, (registerCompany s body).2) ∧
      (registerCompany s body).2.status = 400 := by
  unfold registerCompany
  split
  · exact ⟨rfl, rfl⟩
  · split_ifs <;> exact ⟨rfl, rfl⟩
/-- A phone number of the specification has 10, 12 or 13 characters, none of
them white space. -/
theorem UgandanPhoneSpec.shape (x : String) (h : UgandanPhoneSpec x) :
    (x.length = 10 ∨ x.length = 12 ∨ x.length = 13) ∧
      ∀ c ∈ x.data, isJsWhitespace c = false := by
  obtain ⟨o, ho, d, hd, r, hlen, hall, hx⟩ := h
  have hdigit : ∀ c : Char, c.isDigit = true → isJsWhitespace c = false := by
    intro c hc
    simp only [Char.isDigit, Bool.and_eq_true, decide_eq_true_eq] at hc
    have h1 : 48 ≤ c.toNat := hc.1
    have h2 : c.toNat ≤ 57 := hc.2
    simp only [isJsWhitespace, List.mem_cons, List.mem_singleton, List.not_mem_nil, or_false,
      Bool.or_eq_false_iff, decide_eq_false_iff_not, Bool.and_eq_false_imp, decide_eq_true_eq]
    omega
  simp only [List.mem_cons, List.mem_singleton, List.not_mem_nil, or_false] at ho hd
  constructor
  · have hl : x.length = o.data.length + (r.length + 1) := by
      show x.data.length = _
      rw [hx]; simp
    rcases ho with rfl | rfl | rfl
    · left; rw [hl, hlen]; rfl
    · right; left; rw [hl, hlen]; rfl
    · right; right; rw [hl, hlen]; rfl
  · intro c hc
    rw [hx] at hc
    rcases List.mem_append.mp hc with hc | hc
    · rcases ho with rfl | rfl | rfl
      · simp only [List.mem_singleton] at hc; subst hc; decide
      · simp only [List.mem_cons, List.mem_singleton, List.not_mem_nil, or_false] at hc
        rcases hc with rfl | rfl | rfl <;> decide
      · simp only [List.mem_cons, List.mem_singleton, List.not_mem_nil, or_false] at hc
        rcases hc with rfl | rfl | rfl | rfl <;> decide
    · rcases List.mem_cons.mp hc with rfl | hc
      · rcases hd with rfl | rfl <;> decide
      · exact hdigit c (hall c hc)
/-- The email lookup of the registration is in lower case: on the store that
holds the account of `éva@example.com`, a registration with the email
`ÉVA@Example.com` and another phone is answered "User with this email already
exists". -/
theorem registerJobseeker_email_lookup_lowers :
    evaStore.users.map (fun u => u.email) = ["éva@example.com"] ∧
    registerJobseeker evaStore
        { aminaRegistration with
          email := some "ÉVA@Example.com", phoneNumber := some "0712000009" } =
      (evaStore, { status := 400, success := false,
                   message := "User with this email already exists" }) := by
  decide

/-- C21, as stated, fails on the text of the message.  On the store that holds
the account registered with phone `0712345678`, a second registration with the
same phone and another email is refused and writes nothing, and its message is
"User with this phone number already exists", without the full stop that ends
the message of the claim. -/
theorem registerJobseeker_phone_message_has_no_full_stop :
    (registerJobseeker registeredStore
        { aminaRegistration with email := some "brian@example.com" }).1 = registeredStore ∧
    (registerJobseeker registeredStore
        { aminaRegistration with email := some "brian@example.com" }).2.message =
      "User with this phone number already exists" ∧
    (registerJobseeker registeredStore
        { aminaRegistration with email := some "brian@example.com" }).2.message ≠
      "User with this phone number already exists." := by
  decide

/-- C21, amended. An otherwise valid job-seeker registration (every field
present, terms agreed, passwords equal and strong, phone in the accepted format)
whose phone `phone` is the phone of a stored account and whose email, in lower
case as the handler looks it up, is the email of no stored account is answered
with 400 and the message "User with this phone number already exists", and the
store is returned as it was: neither a user nor a profile is created. -/
theorem registerJobseeker_phone_taken (s : Store) (body : JobseekerRegistration)
    (phone : String)
    (hfields : falsy body.firstName = false ∧ falsy body.lastName = false ∧
      falsy body.email = false ∧ falsy body.password = false ∧
      falsy body.confirmPassword = false)
    (hphone : body.phoneNumber = some phone)
    (hterms : body.agreeToTerms = true)
    (hmatch : body.password = body.confirmPassword)
    (hvalid : phoneRegex.testWhole phone = true)
    (hstrong : weakPassword (body.password.getD "") = false)
    (hemail : ∀ u ∈ s.users, u.email ≠ toLowerCase (body.email.getD ""))
    (htaken : ∃ u ∈ s.users, u.phone = phone) :
    registerJobseeker s body =
      (s, { status := 400, success := false,
            message := "User with this phone number already exists" }) := by
  have hne : falsy body.phoneNumber = false := by
    rw [hphone]
    simp only [falsy, decide_eq_false_iff_not]
    rintro rfl
    exact absurd hvalid (by decide)
  have hfindE : s.users.find? (fun u => decide (u.email = toLowerCase (body.email.getD ""))) =
      none := by
    rw [List.find?_eq_none]
    intro u hu
    simpa using hemail u hu
  obtain ⟨u, hu, hup⟩ := htaken
  obtain ⟨v, hv⟩ := exists_find_of_mem (fun u => decide (u.phone = body.phoneNumber.getD ""))
    s.users u hu (by simp [hphone, hup])
  obtain ⟨a, b, c, d, e⟩ := hfields
  unfold registerJobseeker
  rw [if_neg (by simp [a, b, c, d, e, hne]), if_neg (by simp [hterms]),
    if_neg (by simp [hmatch]), if_neg (by simp [hphone, hvalid]),
    if_neg (by simp [hstrong]), hfindE, hv]

/-- C21, witness: on the store that holds the account registered with phone
`0712345678`, a second registration with the same phone and another email. -/
theorem registerJobseeker_phone_taken_witness :
    (∃ u ∈ registeredStore.users, u.phone = "0712345678") ∧
    (∀ u ∈ registeredStore.users, u.email ≠ toLowerCase "brian@example.com") ∧
    registerJobseeker registeredStore
        { aminaRegistration with email := some "brian@example.com" } =
      (registeredStore, { status := 400, success := false,
                          message := "User with this phone number already exists" }) :=
  ⟨by decide, by decide,
    registerJobseeker_phone_taken registeredStore
      { aminaRegistration with email := some "brian@example.com" } "0712345678"
      (by decide) rfl rfl rfl (by decide) (by decide) (by decide) (by decide)⟩

/-- C27. The phone validation of both registration handlers,
`/^(\+?256|0)[17]\d{8}$/.test(phone)`, accepts a text exactly when it is one of
the openings `0`, `256` and `+256`, then a digit 1 or 7, then exactly eight
decimal digits, and nothing else.  So `0712345678` is accepted; an accepted text
has 10, 12 or 13 characters and no white space; and a registration of either
kind whose phone is not accepted is answered with 400 and writes nothing. -/
theorem phoneRegex_accepts_iff (x : String) :
    (phoneRegex.testWhole x = true ↔ UgandanPhoneSpec x) ∧
    phoneRegex.testWhole "0712345678" = true ∧
    (phoneRegex.testWhole x = true →
      (x.length = 10 ∨ x.length = 12 ∨ x.length = 13) ∧
        ∀ c ∈ x.data, isJsWhitespace c = false) ∧
    (phoneRegex.testWhole x = false →
      (∀ (s : Store) (body : JobseekerRegistration), body.phoneNumber = some x →
        (registerJobseeker s body).1 = s ∧ (registerJobseeker s body).2.status = 400) ∧
      ∀ (s : Store) (body : CompanyRegistration), body.phone = some x →
        (registerCompany s body).1 = s ∧ (registerCompany s body).2.status = 400) := by
  refine ⟨phoneRegex_iff x, by decide, ?_, ?_⟩
  · intro h
    exact UgandanPhoneSpec.shape x ((phoneRegex_iff x).mp h)
  · intro h
    constructor
    · intro s body hb
      have := registerJobseeker_invalid_phone s body (by rw [hb]; exact h)
      exact ⟨by rw [this.1], this.2⟩
    · intro s body hb
      have := registerCompany_invalid_phone s body (by rw [hb]; exact h)
      exact ⟨by rw [this.1], this.2⟩

/-- C28. The password strength condition of both registration handlers holds
exactly for the passwords with fewer than 8 characters (UTF-16 code units, as
`length` counts them), or without a decimal digit, or without an ASCII letter.
A registration is answered with 400 "Password must be at least 8 characters with
letters and numbers" exactly when it passes the validations before the
condition and its password is such a password.  No user row is created for a
registration whose password is such a password or differs from
`confirmPassword`. -/
theorem weakPassword_rejected (s : Store) :
    (∀ password, weakPassword password = true ↔ WeakPasswordSpec password) ∧
    (∀ body : JobseekerRegistration,
      (registerJobseeker s body).2 =
          { status := 400, success := false,
            message := "Password must be at least 8 characters with letters and numbers" } ↔
        ((falsy body.firstName = false ∧ falsy body.lastName = false ∧
            falsy body.email = false ∧ falsy body.phoneNumber = false ∧
            falsy body.password = false ∧ falsy body.confirmPassword = false) ∧
          body.agreeToTerms = true ∧ body.password = body.confirmPassword ∧
          phoneRegex.testWhole (body.phoneNumber.getD "") = true) ∧
        WeakPasswordSpec (body.password.getD "")) ∧
    (∀ body : CompanyRegistration,
      (registerCompany s body).2 =
          { status := 400, success := false,
            message := "Password must be at least 8 characters with letters and numbers" } ↔
        (body.missing = [] ∧ body.password = body.confirmPassword) ∧
          WeakPasswordSpec (body.password.getD "")) ∧
    (∀ body : JobseekerRegistration, (registerJobseeker s body).1.users ≠ s.users →
      ¬ WeakPasswordSpec (body.password.getD "") ∧ body.password = body.confirmPassword) ∧
    ∀ body : CompanyRegistration, (registerCompany s body).1.users ≠ s.users →
      ¬ WeakPasswordSpec (body.password.getD "") ∧ body.password = body.confirmPassword := by
  refine ⟨weakPassword_iff, ?_, ?_, ?_, ?_⟩
  · intro body
    rw [registerJobseeker_weak_response, weakPassword_iff]
  · intro body
    rw [registerCompany_weak_response, weakPassword_iff]
  · intro body h
    obtain ⟨h1, h2, -⟩ := registerJobseeker_users s body h
    refine ⟨?_, h1⟩
    rw [← weakPassword_iff, h2]
    simp
  · intro body h
    obtain ⟨h1, h2, -⟩ := registerCompany_users s body h
    refine ⟨?_, h1⟩
    rw [← weakPassword_iff, h2]
    simp

/-! ## The accounts: unique email and phone -/

/-- A successful `prisma.user.create` appends the row under the next id, and no
stored row had its email or its phone. -/
theorem Store.createUser_spec (s s1 : Store) (row u : User)
    (h : s.createUser row = some (s1, u)) :
    s1 = { s with users := s.users ++ [u], nextId := s.nextId + 1 } ∧
      u = { row with id := s.nextId } ∧
      (∀ v ∈ s.users, v.email ≠ row.email) ∧ ∀ v ∈ s.users, v.phone ≠ row.phone := by
  unfold Store.createUser at h
  split_ifs at h with h1 h2
  simp only [Option.some.injEq, Prod.mk.injEq] at h
  obtain ⟨h3, h4⟩ := h
  subst h4
  refine ⟨h3.symm, rfl, ?_, ?_⟩
  · intro v hv
    simp only [List.any_eq_true, decide_eq_true_eq, not_exists, not_and] at h1
    exact h1 v hv
  · intro v hv
    simp only [userPhoneUnique, Bool.true_and, List.any_eq_true, decide_eq_true_eq, not_exists,
      not_and] at h2
    exact h2 v hv

/-- A created user keeps emails, phones and ids unique. -/
theorem Store.createUser_keeps (s s1 : Store) (row u : User)
    (h : s.createUser row = some (s1, u)) (hu : s.accountsUnique) (hi : s.userIdsIssued) :
    s1.accountsUnique ∧ s1.userIdsIssued := by
  obtain ⟨rfl, rfl, he, hp⟩ := Store.createUser_spec s s1 row u h
  unfold Store.accountsUnique Store.userIdsIssued at *
  simp only [List.map_append, List.map_cons, List.map_nil]
  refine ⟨⟨?_, ?_⟩, ?_, ?_⟩
  · rw [List.nodup_append]
    refine ⟨hu.1, List.nodup_singleton _, ?_⟩
    intro a ha hb
    simp only [List.mem_singleton] at hb
    obtain ⟨v, hv, rfl⟩ := List.mem_map.mp ha
    exact he v hv hb
  · rw [List.nodup_append]
    refine ⟨hu.2, List.nodup_singleton _, ?_⟩
    intro a ha hb
    simp only [List.mem_singleton] at hb
    obtain ⟨v, hv, rfl⟩ := List.mem_map.mp ha
    exact hp v hv hb
  · rw [List.nodup_append]
    refine ⟨hi.1, List.nodup_singleton _, ?_⟩
    intro a ha hb
    simp only [List.mem_singleton] at hb
    obtain ⟨v, hv, rfl⟩ := List.mem_map.mp ha
    have := hi.2 v hv
    omega
  · intro v hv
    rcases List.mem_append.mp hv with hv | hv
    · have := hi.2 v hv
      show v.id < s.nextId + 1
      omega
    · simp only [List.mem_singleton] at hv
      subst hv
      show s.nextId < s.nextId + 1
      omega
/-- The update of `updatePrivacySettings` keeps emails, phones and ids unique. -/
theorem Store.updateUser_keeps (s s1 : Store) (userId : Nat) (data : PrivacyUpdate)
    (h : s.updateUser userId data = some s1) (hu : s.accountsUnique) (hi : s.userIdsIssued) :
    s1.accountsUnique ∧ s1.userIdsIssued := by
  unfold Store.updateUser at h
  split_ifs at h with h1 h2
  simp only [Option.some.injEq] at h
  subst h
  unfold Store.accountsUnique Store.userIdsIssued at *
  simp only [List.map_map]
  have hemail : ((fun u : User => u.email) ∘
      fun u => if u.id = userId then u.mergePrivacy data else u) = fun u => u.email := by
    funext u
    simp only [Function.comp]
    split <;> rfl
  have hid : ((fun u : User => u.id) ∘
      fun u => if u.id = userId then u.mergePrivacy data else u) = fun u => u.id := by
    funext u
    simp only [Function.comp]
    split <;> rfl
  rw [hemail, hid]
  refine ⟨⟨hu.1, ?_⟩, hi.1, ?_⟩
  · rw [List.nodup_map_iff_inj_on (List.Nodup.of_map _ hi.1)]
    intro x hx y hy hxy
    simp only [Function.comp] at hxy
    by_cases hf : falsy data.phone = true
    · have hsame : ∀ u : User,
          (if u.id = userId then u.mergePrivacy data else u).phone = u.phone := by
        intro u
        split
        · simp [User.mergePrivacy, hf]
        · rfl
      rw [hsame, hsame] at hxy
      exact List.inj_on_of_nodup_map hu.2 hx hy hxy
    · have hnew : ∀ u : User, u.id = userId →
          (if u.id = userId then u.mergePrivacy data else u).phone = data.phone.getD "" := by
        intro u hu
        cases hd : data.phone with
        | none => rw [hd] at hf; simp [falsy] at hf
        | some p =>
          simp only [hu, if_true, User.mergePrivacy, hd, Option.getD_some]
          rw [hd] at hf
          rw [if_neg hf]
      have hother : ∀ u ∈ s.users, u.id ≠ userId → u.phone ≠ data.phone.getD "" := by
        intro u hmem hne
        have h3 : ¬ (s.users.any (fun u => decide (u.id ≠ userId ∧ u.phone = data.phone.getD ""))
            = true) := by
          intro h4
          exact h2 ⟨by simpa using hf, rfl, h4⟩
        simp only [List.any_eq_true, decide_eq_true_eq, not_exists, not_and] at h3
        exact h3 u hmem hne
      by_cases hxid : x.id = userId
      · by_cases hyid : y.id = userId
        · exact List.inj_on_of_nodup_map hi.1 hx hy (hxid.trans hyid.symm)
        · rw [hnew x hxid, if_neg hyid] at hxy
          exact absurd hxy.symm (hother y hy hyid)
      · by_cases hyid : y.id = userId
        · rw [hnew y hyid, if_neg hxid] at hxy
          exact absurd hxy (hother x hx hxid)
        · rw [if_neg hxid, if_neg hyid] at hxy
          exact List.inj_on_of_nodup_map hu.2 hx hy hxy
  · intro u hmem
    obtain ⟨v, hv, rfl⟩ := List.mem_map.mp hmem
    have := hi.2 v hv
    split <;> exact this

/-- A profile insert leaves the accounts alone and moves the counter up. -/
theorem Store.createJobSeekerProfile_keeps (s s1 : Store) (userId : Nat) (t : String)
    (h : s.createJobSeekerProfile userId t = some s1) (hu : s.accountsUnique)
    (hi : s.userIdsIssued) : s1.accountsUnique ∧ s1.userIdsIssued := by
  unfold Store.createJobSeekerProfile at h
  split_ifs at h
  simp only [Option.some.injEq] at h
  subst h
  refine ⟨hu, hi.1, ?_⟩
  intro u hmem
  have := hi.2 u hmem
  show u.id < s.nextId + 1
  omega

/-- Each account handler keeps emails, phones and ids unique. -/
theorem registerJobseeker_keeps (s : Store) (body : JobseekerRegistration)
    (hu : s.accountsUnique) (hi : s.userIdsIssued) :
    (registerJobseeker s body).1.accountsUnique ∧ (registerJobseeker s body).1.userIdsIssued := by
  unfold registerJobseeker
  split_ifs
  · exact ⟨hu, hi⟩
  · exact ⟨hu, hi⟩
  · exact ⟨hu, hi⟩
  · exact ⟨hu, hi⟩
  · exact ⟨hu, hi⟩
  · split
    · exact ⟨hu, hi⟩
    · split
      · exact ⟨hu, hi⟩
      · split
        · exact ⟨hu, hi⟩
        · rename_i created hc
          have h1 := Store.createUser_keeps s created.1 _ created.2 hc hu hi
          split
          · exact h1
          · rename_i s2 h2
            exact Store.createJobSeekerProfile_keeps created.1 s2 _ _ h2 h1.1 h1.2

theorem registerCompany_keeps (s : Store) (body : CompanyRegistration)
    (hu : s.accountsUnique) (hi : s.userIdsIssued) :
    (registerCompany s body).1.accountsUnique ∧ (registerCompany s body).1.userIdsIssued := by
  unfold registerCompany
  split
  · exact ⟨hu, hi⟩
  · split_ifs
    · exact ⟨hu, hi⟩
    · exact ⟨hu, hi⟩
    · exact ⟨hu, hi⟩
    · split <;> exact ⟨hu, hi⟩
    · split
      · exact ⟨hu, hi⟩
      · split
        · exact ⟨hu, hi⟩
        · rename_i created hc
          have h1 := Store.createUser_keeps s created.1 _ created.2 hc hu hi
          refine ⟨h1.1, h1.2.1, ?_⟩
          intro u hmem
          have := h1.2.2 u hmem
          show u.id < created.1.nextId + 1
          omega

theorem updatePrivacySettings_keeps (s : Store) (user : Option Nat) (body : PrivacyUpdate)
    (hu : s.accountsUnique) (hi : s.userIdsIssued) :
    (updatePrivacySettings s user body).1.accountsUnique ∧
      (updatePrivacySettings s user body).1.userIdsIssued := by
  unfold updatePrivacySettings
  split
  · exact ⟨hu, hi⟩
  · split
    · exact ⟨hu, hi⟩
    · rename_i s1 h1
      exact Store.updateUser_keeps s s1 _ body h1 hu hi

/-- A run of account requests keeps emails, phones and ids unique. -/
theorem runAccounts_keeps (requests : List AccountRequest) (s : Store)
    (hu : s.accountsUnique) (hi : s.userIdsIssued) :
    (runAccounts s requests).accountsUnique ∧ (runAccounts s requests).userIdsIssued := by
  induction requests generalizing s with
  | nil => exact ⟨hu, hi⟩
  | cons q rest ih =>
    have hstep : (AccountRequest.run s q).accountsUnique ∧
        (AccountRequest.run s q).userIdsIssued := by
      cases q with
      | jobseeker body => exact registerJobseeker_keeps s body hu hi
      | company body => exact registerCompany_keeps s body hu hi
      | privacy user body => exact updatePrivacySettings_keeps s user body hu hi
    exact ih (AccountRequest.run s q) hstep.1 hstep.2
/-- The phone check of `registerJobseeker` has no counterpart in
`registerCompany`: a company that registers with the phone of a stored account
passes every check of the handler, and it is the unique key of the storage that
refuses the row (500). -/
theorem registerCompany_relies_on_phone_key :
    registerCompany registeredStore
        { acmeRegistration with phone := some "0712345678" } =
      (registeredStore,
        { status := 500, success := false, message := "Company registration failed" }) := by
  decide

/-- C22. Email and phone are unique across all accounts in every state reachable
through `registerJobseeker`, `registerCompany` and `updatePrivacySettings`: a run
of such requests from a store with unique emails and phones (and a well-formed
primary key), in particular from the store without rows, ends in a store in
which no two accounts have the same email and no two accounts have the same
phone. -/
theorem accountsUnique_invariant (s : Store) (requests : List AccountRequest)
    (hu : s.accountsUnique) (hi : s.userIdsIssued) :
    (runAccounts s requests).accountsUnique ∧
      (runAccounts emptyStore requests).accountsUnique :=
  ⟨(runAccounts_keeps requests s hu hi).1,
    (runAccounts_keeps requests emptyStore (by decide) (by decide)).1⟩

/-- C22, witness: the run `accountRun` on the store with the account of Amina;
it ends with two accounts, with different emails and phones. -/
theorem accountsUnique_invariant_witness :
    registeredStore.accountsUnique ∧ registeredStore.userIdsIssued ∧
    (runAccounts registeredStore accountRun).accountsUnique ∧
    (runAccounts registeredStore accountRun).users.map (fun u => (u.email, u.phone)) =
      [("amina@example.com", "0712000009"), ("jobs@acme.example", "+256712000002")] :=
  ⟨by decide, by decide,
    (accountsUnique_invariant registeredStore accountRun (by decide) (by decide)).1,
    by decide⟩

/-! ## The resume of an application: `applyToJob` -/

/-- A chat enrolment that does not throw leaves the resumes alone. -/
theorem chatEnrolStep_resumes {s s3 : Store} {jobPost : JobPost} {jobId userId : Nat}
    (h : chatEnrolStep s jobPost jobId userId = some s3) : s3.resumes = s.resumes := by
  unfold chatEnrolStep at h
  split at h
  · split at h
    · unfold Store.createChatParticipant at h
      split at h
      · cases h
      · cases h; rfl
    · cases h; rfl
  · cases h; rfl

/-- The resume of a created application: on every path `applyToJob` leaves the
applications alone, or appends one application of the caller that names no
resume, or the falsy id 0, which the resume check lets through, or a resume that
the caller owns in the store after the request. -/
theorem applyToJob_resume (now : Nat) (s : Store) (S J : Nat) (body : ApplyBody) :
    (applyToJob now s (some S) J body).1.jobApplications = s.jobApplications ∨
      ∃ a, (applyToJob now s (some S) J body).1.jobApplications = s.jobApplications ++ [a] ∧
        a.jobSeekerId = S ∧
        (a.resumeId = none ∨ a.resumeId = some 0 ∨
          ∃ r ∈ (applyToJob now s (some S) J body).1.resumes,
            a.resumeId = some r.id ∧ r.userId = S) := by
  unfold applyToJob
  simp only
  split
  · exact Or.inl rfl
  · rename_i jobPost hjp
    split
    · exact Or.inl rfl
    · split
      · exact Or.inl (customResumeStep_jobApplications _ _ _ _)
      · rename_i hfound
        right
        have hres : (customResumeStep s S jobPost.title body).2 = none ∨
            (customResumeStep s S jobPost.title body).2 = some 0 ∨
            ∃ r ∈ (customResumeStep s S jobPost.title body).1.resumes,
              (customResumeStep s S jobPost.title body).2 = some r.id ∧ r.userId = S := by
          cases hr : (customResumeStep s S jobPost.title body).2 with
          | none => exact Or.inl rfl
          | some R =>
            right
            rw [hr] at hfound
            simp only [resumeFound, Bool.not_eq_false, Bool.or_eq_true, decide_eq_true_eq,
              Option.isSome_iff_exists] at hfound
            rcases hfound with h0 | ⟨x, hx⟩
            · exact Or.inl (by rw [h0])
            · right
              have h1 := List.mem_of_find?_eq_some hx
              have h2 := List.find?_some hx
              simp only [decide_eq_true_eq] at h2
              exact ⟨x, h1, by rw [h2.1], h2.2⟩
        refine ⟨((customResumeStep s S jobPost.title body).1.createJobApplication J S
          (customResumeStep s S jobPost.title body).2 body.coverLetter "NOT_VIEWED").2, ?_, rfl, ?_⟩
        · split
          · simp [Store.createJobApplication, customResumeStep_jobApplications]
          · rename_i s3 hs3
            have hf := chatEnrolStep_frame hs3
            simp [Store.createNotification, hf.1, Store.createJobApplication,
              customResumeStep_jobApplications]
        · rcases hres with hnone | hzero | ⟨r, hr, hid, hown⟩
          · exact Or.inl hnone
          · exact Or.inr (Or.inl hzero)
          · right; right
            refine ⟨r, ?_, hid, hown⟩
            split
            · exact hr
            · rename_i s3 hs3
              have hf := chatEnrolStep_resumes hs3
              simp only [Store.createNotification, hf]
              exact hr

/-- The resume check on a truthy id.  A request that names a resume id `R` other
than 0 that is no resume of the caller, and carries no inline resume, creates
nothing: the store is returned as it was and the answer is a failure; when the
job post is open and the caller has not applied yet, so that the request reaches
the resume check, the answer is 400 "Resume not found". -/
theorem applyToJob_foreign_resume_rejected (now : Nat) (s : Store) (S J R : Nat)
    (body : ApplyBody) (hR : body.resumeId = some R) (htruthy : R ≠ 0)
    (hc : body.customResume = none) (hforeign : ∀ r ∈ s.resumes, r.id = R → r.userId ≠ S) :
    (applyToJob now s (some S) J body).1 = s ∧
      (applyToJob now s (some S) J body).2.success = false ∧
      ((∃ j ∈ s.jobPosts, j.id = J ∧ j.isActive = true ∧ now < j.applicationDeadline) →
        (∀ a ∈ s.jobApplications, ¬ (a.jobPostId = J ∧ a.jobSeekerId = S)) →
        (applyToJob now s (some S) J body).2 =
          { status := 400, success := false, message := "Resume not found" }) := by
  have hstep : ∀ t, customResumeStep s S t body = (s, some R) := by
    intro t
    simp [customResumeStep, hc, hR]
  have hnot : resumeFound s S (some R) = false := by
    have hfind : s.resumes.find? (fun x => decide (x.id = R ∧ x.userId = S)) = none := by
      rw [List.find?_eq_none]
      intro r hr
      simp only [decide_eq_true_eq, not_and]
      exact hforeign r hr
    simp only [resumeFound, hfind, Option.isSome_none, Bool.or_false, decide_eq_false_iff_not]
    exact htruthy
  unfold applyToJob
  simp only [hstep, hnot, if_true]
  refine ⟨?_, ?_, ?_⟩
  · split
    · rfl
    · split <;> rfl
  · split
    · rfl
    · split <;> rfl
  · rintro ⟨j, hj, hopen⟩ happ
    obtain ⟨j1, hj1⟩ := exists_find_of_mem
      (fun j => decide (j.id = J ∧ j.isActive = true ∧ now < j.applicationDeadline)) s.jobPosts j hj
      (by simpa using hopen)
    have hnone : s.jobApplications.find? (fun a => decide (a.jobPostId = J ∧ a.jobSeekerId = S)) =
        none := by
      rw [List.find?_eq_none]
      intro a ha
      simpa using happ a ha
    simp only [hj1, hnone]

/-- The resume check at work: job seeker 1 applies to the open job post 10 of
`demoStore` naming resume 99, which is no resume of the caller, and is answered
400 "Resume not found". -/
theorem applyToJob_foreign_resume_rejected_example :
    (∀ r ∈ demoStore.resumes, r.id = 99 → r.userId ≠ 1) ∧
    applyToJob 500 demoStore (some 1) 10 foreignResumeApply =
      (demoStore, { status := 400, success := false, message := "Resume not found" }) :=
  ⟨by decide,
    Prod.ext
      (applyToJob_foreign_resume_rejected 500 demoStore 1 10 99 foreignResumeApply rfl
        (by decide) rfl (by decide)).1
      ((applyToJob_foreign_resume_rejected 500 demoStore 1 10 99 foreignResumeApply rfl
        (by decide) rfl (by decide)).2.2 (by decide) (by decide))⟩

/-- C29: the resume check misses the falsy id.  Job seeker 1 applies to the open
job post 10 of `demoStore`, which holds no resume, with `resumeId: 0` and no
inline resume.  The id is no resume of the caller, so the claim asks for 400
"Resume not found" and no application; the check "Validate resume exists" runs
under `if (resumeToUse)`, which is false for 0, so the lookup is skipped: the
answer is 201, and application 100 is created with `resumeId` 0, together with
a participant row and a notification. -/
theorem applyToJob_falsy_resume_unchecked :
    demoStore.resumes = [] ∧
    (applyToJob 500 demoStore (some 1) 10 falsyResumeApply).2 =
      { status := 201, success := true, message := "Application submitted successfully" } ∧
    (applyToJob 500 demoStore (some 1) 10 falsyResumeApply).1.jobApplications =
      [{ demoApplication with resumeId := some 0 }] ∧
    (applyToJob 500 demoStore (some 1) 10 falsyResumeApply).1.chatParticipants =
      [{ id := 101, chatAreaId := 20, userId := 1 }] ∧
    (applyToJob 500 demoStore (some 1) 10 falsyResumeApply).1.notifications.length = 1 := by
  decide

/-! ## A notification that the storage refuses -/

/-- Under a storage that persists the notification each handler is the handler
of the reliable storage. -/
theorem applyToJobUnder_up (now : Nat) (s : Store) (user : Option Nat) (jobId : Nat)
    (body : ApplyBody) : applyToJobUnder true now s user jobId body = applyToJob now s user jobId body := by
  unfold applyToJobUnder applyToJob Store.tryCreateNotification
  simp only [if_true]

theorem subscribeToCompanyUnder_up (s : Store) (user : Option Nat) (companyId : Nat)
    (profileType : Option String) :
    subscribeToCompanyUnder true s user companyId profileType =
      subscribeToCompany s user companyId profileType := by
  unfold subscribeToCompanyUnder subscribeToCompany Store.tryCreateNotification
  simp only [if_true]

theorem inviteJobseekerUnder_up (now : Nat) (s : Store) (user : Option Nat) (jobseekerId : Nat)
    (profileType message : Option String) :
    inviteJobseekerUnder true now s user jobseekerId profileType message =
      inviteJobseeker now s user jobseekerId profileType message := by
  unfold inviteJobseekerUnder inviteJobseeker Store.tryCreateNotification
  simp only [if_true]

theorem updateApplicantStatusUnder_up (s : Store) (user : Option Nat) (applicantId : Nat)
    (status : Option String) :
    updateApplicantStatusUnder true s user applicantId status =
      updateApplicantStatus s user applicantId status := by
  unfold updateApplicantStatusUnder updateApplicantStatus Store.tryCreateNotification acceptedEnrolStep
  simp only [if_true]

/-- A request fails before its notification, or it reaches the notification:
then a refused notification gives 500 on the store before it, and a persisted
one gives the success answer on that store with the notification row. -/
theorem applyToJobUnder_cases (now : Nat) (s : Store) (user : Option Nat) (jobId : Nat)
    (body : ApplyBody) :
    ((applyToJobUnder true now s user jobId body).2.status ≠ 201) ∨
      ∃ s3 c m r,
        applyToJobUnder false now s user jobId body =
          (s3, { status := 500, success := false, message := "Failed to apply to job" }) ∧
        applyToJobUnder true now s user jobId body =
          (s3.createNotification c "New Job Application" m "APPLICATION" r,
            { status := 201, success := true, message := "Application submitted successfully" }) := by
  unfold applyToJobUnder Store.tryCreateNotification
  simp only [if_true, Bool.false_eq_true, if_false]
  split
  · left; simp
  · split
    · left; simp
    · split
      · left; simp
      · split
        · left; simp
        · split
          · left; simp
          · right
            exact ⟨_, _, _, _, rfl, rfl⟩

theorem subscribeToCompanyUnder_cases (s : Store) (user : Option Nat) (companyId : Nat)
    (profileType : Option String) :
    ((subscribeToCompanyUnder true s user companyId profileType).2.status ≠ 201) ∨
      ∃ s1 m r t,
        subscribeToCompanyUnder false s user companyId profileType =
          (s1, { status := 500, success := false, message := "Failed to subscribe to company" }) ∧
        subscribeToCompanyUnder true s user companyId profileType =
          (s1.createNotification companyId "New Subscription" m "SUBSCRIPTION" r,
            { status := 201, success := true, message := "Successfully subscribed as " ++ t }) := by
  unfold subscribeToCompanyUnder Store.tryCreateNotification
  simp only [if_true, Bool.false_eq_true, if_false]
  split
  · left; simp
  · split
    · left; simp
    · split
      · left; simp
      · split
        · left; simp
        · split
          · left; simp
          · split
            · left; simp
            · right
              exact ⟨_, _, _, _, rfl, rfl⟩

theorem inviteJobseekerUnder_cases (now : Nat) (s : Store) (user : Option Nat)
    (jobseekerId : Nat) (profileType message : Option String) :
    ((inviteJobseekerUnder true now s user jobseekerId profileType message).2.status ≠ 201) ∨
      ∃ s1 m r,
        inviteJobseekerUnder false now s user jobseekerId profileType message =
          (s1, { status := 500, success := false, message := "Failed to send invitation" }) ∧
        inviteJobseekerUnder true now s user jobseekerId profileType message =
          (s1.createNotification jobseekerId "New Company Invitation" m "INVITATION" r,
            { status := 201, success := true, message := "Invitation sent successfully" }) := by
  unfold inviteJobseekerUnder Store.tryCreateNotification
  simp only [if_true, Bool.false_eq_true, if_false]
  split
  · left; simp
  · split
    · left; simp
    · split
      · left; simp
      · split
        · left; simp
        · split
          · left; simp
          · split
            · left; simp
            · right
              exact ⟨_, _, _, rfl, rfl⟩

theorem updateApplicantStatusUnder_cases (s : Store) (user : Option Nat) (applicantId : Nat)
    (status : Option String) :
    ((updateApplicantStatusUnder true s user applicantId status).2.status ≠ 200) ∨
      ∃ s2 c m r,
        updateApplicantStatusUnder false s user applicantId status =
          (s2, { status := 500, success := false,
                 message := "Failed to update applicant status" }) ∧
        updateApplicantStatusUnder true s user applicantId status =
          (s2.createNotification c "Application Status Updated" m "APPLICATION_STATUS" r,
            { status := 200, success := true,
              message := "Application status updated successfully" }) := by
  unfold updateApplicantStatusUnder Store.tryCreateNotification
  simp only [if_true, Bool.false_eq_true, if_false]
  split
  · left; simp
  · split
    · left; simp
    · split
      · left; simp
      · split
        · left; simp
        · split
          · left; simp
          · right
            exact ⟨_, _, _, _, rfl, rfl⟩

/-- C24, as stated, fails: job seeker 1 applies to job post 10 of `demoStore`;
with a reliable storage the request succeeds (201), so every step before the
notification succeeds; when the storage refuses the notification the caller gets
500 "Failed to apply to job", a failure, while the application is kept. -/
theorem applyToJob_notification_failure_observed :
    (applyToJob 500 demoStore (some 1) 10 plainApply).2.status = 201 ∧
    (applyToJobUnder false 500 demoStore (some 1) 10 plainApply).2 =
      { status := 500, success := false, message := "Failed to apply to job" } ∧
    (applyToJobUnder false 500 demoStore (some 1) 10 plainApply).1.jobApplications =
      [demoApplication] ∧
    (applyToJobUnder false 500 demoStore (some 1) 10 plainApply).1.notifications = [] := by
  decide

/-- C24, amended. For `applyToJob`, `subscribeToCompany`, `inviteJobseeker` and
`updateApplicantStatus`: when every step before the notification succeeds (the
request succeeds under a reliable storage) and persisting the notification
fails, the caller observes the failure, as status 500 with the failure message
of the handler, and nothing is rolled back: the store after the failed request
is the store of the successful request without its notification row. -/
theorem notification_failure_not_rolled_back (now : Nat) (s : Store) (user : Option Nat) :
    (∀ jobId body, (applyToJob now s user jobId body).2.status = 201 →
      (applyToJobUnder false now s user jobId body).2 =
          { status := 500, success := false, message := "Failed to apply to job" } ∧
        ∃ c t m k r, (applyToJob now s user jobId body).1 =
          (applyToJobUnder false now s user jobId body).1.createNotification c t m k r) ∧
    (∀ companyId profileType,
      (subscribeToCompany s user companyId profileType).2.status = 201 →
      (subscribeToCompanyUnder false s user companyId profileType).2 =
          { status := 500, success := false, message := "Failed to subscribe to company" } ∧
        ∃ c t m k r, (subscribeToCompany s user companyId profileType).1 =
          (subscribeToCompanyUnder false s user companyId profileType).1.createNotification
            c t m k r) ∧
    (∀ jobseekerId profileType message,
      (inviteJobseeker now s user jobseekerId profileType message).2.status = 201 →
      (inviteJobseekerUnder false now s user jobseekerId profileType message).2 =
          { status := 500, success := false, message := "Failed to send invitation" } ∧
        ∃ c t m k r, (inviteJobseeker now s user jobseekerId profileType message).1 =
          (inviteJobseekerUnder false now s user jobseekerId profileType
            message).1.createNotification c t m k r) ∧
    ∀ applicantId status, (updateApplicantStatus s user applicantId status).2.status = 200 →
      (updateApplicantStatusUnder false s user applicantId status).2 =
          { status := 500, success := false,
            message := "Failed to update applicant status" } ∧
        ∃ c t m k r, (updateApplicantStatus s user applicantId status).1 =
          (updateApplicantStatusUnder false s user applicantId status).1.createNotification
            c t m k r := by
  refine ⟨?_, ?_, ?_, ?_⟩
  · intro jobId body h
    rw [← applyToJobUnder_up] at h ⊢
    rcases applyToJobUnder_cases now s user jobId body with hne | ⟨s3, c, m, r, hf, ht⟩
    · exact absurd h hne
    · rw [hf, ht]
      exact ⟨rfl, c, _, m, _, r, rfl⟩
  · intro companyId profileType h
    rw [← subscribeToCompanyUnder_up] at h ⊢
    rcases subscribeToCompanyUnder_cases s user companyId profileType with
      hne | ⟨s1, m, r, t, hf, ht⟩
    · exact absurd h hne
    · rw [hf, ht]
      exact ⟨rfl, companyId, _, m, _, r, rfl⟩
  · intro jobseekerId profileType message h
    rw [← inviteJobseekerUnder_up] at h ⊢
    rcases inviteJobseekerUnder_cases now s user jobseekerId profileType message with
      hne | ⟨s1, m, r, hf, ht⟩
    · exact absurd h hne
    · rw [hf, ht]
      exact ⟨rfl, jobseekerId, _, m, _, r, rfl⟩
  · intro applicantId status h
    rw [← updateApplicantStatusUnder_up] at h ⊢
    rcases updateApplicantStatusUnder_cases s user applicantId status with
      hne | ⟨s2, c, m, r, hf, ht⟩
    · exact absurd h hne
    · rw [hf, ht]
      exact ⟨rfl, c, _, m, _, r, rfl⟩

/-- C24, witness: company 2 sets application 100 of `appliedStore` to
`ACCEPTED` while the storage refuses the notification: the answer is 500 and the
application is `ACCEPTED` all the same. -/
theorem notification_failure_not_rolled_back_witness :
    (updateApplicantStatus appliedStore (some 2) 100 (some "ACCEPTED")).2.status = 200 ∧
    (updateApplicantStatusUnder false appliedStore (some 2) 100 (some "ACCEPTED")).2 =
      { status := 500, success := false, message := "Failed to update applicant status" } ∧
    (updateApplicantStatusUnder false appliedStore (some 2) 100
        (some "ACCEPTED")).1.jobApplications = [{ demoApplication with status := "ACCEPTED" }] :=
  ⟨by decide,
    ((notification_failure_not_rolled_back 0 appliedStore (some 2)).2.2.2 100 (some "ACCEPTED")
      (by decide)).1,
    by decide⟩

/-! ## The detail of a failure answer -/

/-- The failure answer of a `catch` block carries the detail of the error exactly
in development mode; in production mode, and without a mode, it carries none. -/
theorem catchResponse_error_iff (nodeEnv : Option String) (message thrown : String) :
    ((catchResponse nodeEnv message thrown).error = some thrown ↔ nodeEnv = some "development") ∧
    (nodeEnv ≠ some "development" → (catchResponse nodeEnv message thrown).error = none) ∧
    (catchResponse nodeEnv message thrown).success = false ∧
    (catchResponse nodeEnv message thrown).status = 500 := by
  unfold catchResponse
  refine ⟨?_, ?_, rfl, rfl⟩
  · by_cases h : nodeEnv = some "development" <;> simp [h]
  · intro h; simp [h]

/-- C25: the failure answer of `GET /api/db-health` in production mode.  With
`NODE_ENV` set to `production` and a database that refuses the query with the
message "connect ECONNREFUSED 10.0.0.5:5432", the answer has `success: false`
and carries that message under `error`, while the `catch` blocks of the
controllers and the global error handler carry no detail in that mode. -/
theorem dbHealthRoute_error_in_production :
    dbHealthRoute (some "production") (.error "connect ECONNREFUSED 10.0.0.5:5432")
        "2026-01-01T00:00:00.000Z" =
      { status := 200, success := false, message := "Database connection failed",
        error := some "connect ECONNREFUSED 10.0.0.5:5432",
        timestamp := some "2026-01-01T00:00:00.000Z" } ∧
    (globalErrorHandler (some "production") "connect ECONNREFUSED 10.0.0.5:5432").error = none ∧
    (catchResponse (some "production") "Failed to apply to job"
      "connect ECONNREFUSED 10.0.0.5:5432").error = none := by
  decide

/-! ## The pagination of the listings -/

/-- The number `Math.ceil(total / limit)` for a positive limit: it is below a
number `m` exactly when `m` pages of `limit` rows hold `total` rows. -/
theorem mathCeilDiv_le_iff (total limit : Nat) (hl : 0 < limit) :
    ∃ n, mathCeilDiv total limit = some n ∧ ∀ m, n ≤ m ↔ total ≤ m * limit := by
  refine ⟨⌈(total : ℚ) / (limit : ℚ)⌉₊, ?_, ?_⟩
  · simp [mathCeilDiv, Nat.pos_iff_ne_zero.mp hl]
  · intro m
    have hq : (0 : ℚ) < (limit : ℚ) := by exact_mod_cast hl
    rw [Nat.ceil_le, div_le_iff₀ hq]
    exact_mod_cast Iff.rfl

/-- The same number in the arithmetic of natural numbers. -/
theorem mathCeilDiv_eq (total limit : Nat) (hl : 0 < limit) :
    mathCeilDiv total limit = some ((total + limit - 1) / limit) := by
  obtain ⟨n, hn, hle⟩ := mathCeilDiv_le_iff total limit hl
  rw [hn]
  have hk : ∀ m, (total + limit - 1) / limit ≤ m ↔ total ≤ m * limit := by
    intro m
    rw [← Nat.lt_succ_iff, Nat.div_lt_iff_lt_mul hl, Nat.succ_mul]
    omega
  have h1 : n ≤ (total + limit - 1) / limit := (hle _).mpr ((hk _).mp le_rfl)
  have h2 : (total + limit - 1) / limit ≤ n := (hk _).mpr ((hle _).mp le_rfl)
  rw [Nat.le_antisymm h1 h2]

/-- The answer of a listing for a positive page and a positive limit. -/
theorem listingAnswer_spec {α : Type} (matching : List α) (p : Paging) (failure : String)
    (hp : 0 < p.pageNumber) (hl : 0 < p.pageSize) :
    ∃ n, (listingAnswer matching p failure).pagination =
        some { page := p.pageNumber, limit := p.pageSize, total := matching.length,
               pages := some n } ∧
      (∀ m, n ≤ m ↔ matching.length ≤ m * p.pageSize) ∧
      (listingAnswer matching p failure).status = 200 ∧
      (listingAnswer matching p failure).rows =
        (matching.drop ((p.pageNumber - 1) * p.pageSize)).take p.pageSize ∧
      (listingAnswer matching p failure).rows.length ≤ p.pageSize := by
  obtain ⟨n, hn, hle⟩ := mathCeilDiv_le_iff matching.length p.pageSize hl
  have hne : ¬ (p.pageNumber = 0 ∧ p.pageSize ≠ 0) := by
    rintro ⟨h, -⟩
    omega
  refine ⟨n, ?_, hle, ?_, ?_, ?_⟩
  · simp only [listingAnswer, if_neg hne, hn]
  · simp only [listingAnswer, if_neg hne]
  · simp only [listingAnswer, if_neg hne, pageRows]
  · simp only [listingAnswer, if_neg hne, pageRows, List.length_take]
    exact Nat.min_le_left _ _
/-- A listing answer paginates as the specification says. -/
theorem listingAnswer_paginates {α : Type} (matching : List α) (p : Paging) (failure : String)
    (hp : 0 < p.pageNumber) (hl : 0 < p.pageSize) :
    (listingAnswer matching p failure).paginates matching p.pageNumber p.pageSize := by
  obtain ⟨n, h1, h2, h3, h4, h5⟩ := listingAnswer_spec matching p failure hp hl
  exact ⟨h3, ⟨n, h1, (h2 n).mp le_rfl, fun m hm => (h2 m).mpr hm⟩, h4, h5⟩

/-- C26. Each listing, called by an authenticated user with a positive page and
a positive limit (and, for `getJobseekers`, a profile type of the enumeration
when the query gives one), answers with the pagination `{page, limit, total,
pages}`, where `total` is the number of rows that match the filter and `pages`
is the least `n` with `n * limit >= total`, that is `ceil(total / limit)`; the
rows of the answer are the at most `limit` matching rows after the first
`(page - 1) * limit`, in the order of the listing.  A query without `page` and
`limit` is served as page 1 with limit 10. -/
theorem listing_pagination (collation : Option String → Option String → Bool) (now : Nat)
    (s : Store) (caller : Nat) (paging : Paging)
    (hp : 0 < paging.pageNumber) (hl : 0 < paging.pageSize) :
    (∀ q : CompaniesQuery, q.paging = paging →
      (getCompanies collation s (some caller) q).paginates
          ((s.users.filter q.matches).insertionSort
            (fun a b => collation a.companyName b.companyName = true))
          paging.pageNumber paging.pageSize ∧
        ((s.users.filter q.matches).insertionSort
          (fun a b => collation a.companyName b.companyName = true)).length =
            (s.users.filter q.matches).length) ∧
    (∀ q : JobPostsQuery, q.paging = paging →
      (getJobPosts now s (some caller) q).paginates (s.jobPosts.filter (q.matches now s)).reverse
          paging.pageNumber paging.pageSize ∧
        (s.jobPosts.filter (q.matches now s)).reverse.length =
          (s.jobPosts.filter (q.matches now s)).length) ∧
    (∀ q : JobseekersQuery, q.paging = paging →
      (falsy q.profileType = true ∨ q.profileType.getD "" ∈ ["EMPLOYABLE", "VIRTUAL_INTERN"]) →
      (getJobseekers s (some caller) q).paginates (s.users.filter (q.where.matches s)).reverse
          paging.pageNumber paging.pageSize ∧
        (s.users.filter (q.where.matches s)).reverse.length =
          (s.users.filter (q.where.matches s)).length) ∧
    (({ page := none, limit := none } : Paging).pageNumber = 1 ∧
      ({ page := none, limit := none } : Paging).pageSize = 10) := by
  refine ⟨?_, ?_, ?_, rfl, rfl⟩
  · intro q hq
    subst hq
    exact ⟨listingAnswer_paginates _ _ _ hp hl, List.length_insertionSort _ _⟩
  · intro q hq
    subst hq
    exact ⟨listingAnswer_paginates _ _ _ hp hl, List.length_reverse _⟩
  · intro q hq henum
    subst hq
    have hne : ¬ (falsy q.profileType = false ∧
        ¬ q.profileType.getD "" ∈ ["EMPLOYABLE", "VIRTUAL_INTERN"]) := by
      rintro ⟨h1, h2⟩
      rcases henum with h | h
      · rw [h] at h1; exact absurd h1 (by decide)
      · exact h2 h
    refine ⟨?_, List.length_reverse _⟩
    unfold getJobseekers
    simp only [if_neg hne]
    exact listingAnswer_paginates _ _ _ hp hl

/-- C26, witness: job seeker 1 asks for page 2 of the job posts of
`twoJobsStore` in pages of one row, at time 600: two job posts match, the
answer counts 2 pages, and its only row is the older job post 10. -/
theorem listing_pagination_witness :
    0 < secondPageQuery.paging.pageNumber ∧ 0 < secondPageQuery.paging.pageSize ∧
    (getJobPosts 600 twoJobsStore (some 1) secondPageQuery).paginates
      (twoJobsStore.jobPosts.filter (secondPageQuery.matches 600 twoJobsStore)).reverse 2 1 ∧
    (getJobPosts 600 twoJobsStore (some 1) secondPageQuery).rows = [demoJobPost] ∧
    (twoJobsStore.jobPosts.filter (secondPageQuery.matches 600 twoJobsStore)).length = 2 :=
  ⟨by decide, by decide,
    ((listing_pagination (fun _ _ => true) 600 twoJobsStore 1 secondPageQuery.paging
      (by decide) (by decide)).2.1 secondPageQuery rfl).1,
    by decide, by decide⟩

/-! ## The filter of `getJobseekers` -/

/-- The `where` object of `getJobseekers` keeps the two literal conditions: the
three `if` blocks spread the object under `jobSeekerProfile` and add a key. -/
theorem JobseekersQuery.where_literal (q : JobseekersQuery) :
    q.where.userType = "JOB_SEEKER" ∧ q.where.jobSeekerProfile.visibility = some "PUBLIC" := by
  unfold JobseekersQuery.where
  simp only
  split
  · split <;> split <;> split <;> exact ⟨rfl, rfl⟩
  · split <;> split <;> exact ⟨rfl, rfl⟩

/-- A user that matches a `where` object with the two literal conditions is a
job seeker with a public profile. -/
theorem JobseekersWhere.matches_public (w : JobseekersWhere) (s : Store) (u : User)
    (hw : w.userType = "JOB_SEEKER" ∧ w.jobSeekerProfile.visibility = some "PUBLIC")
    (h : w.matches s u = true) :
    u.userType = "JOB_SEEKER" ∧ ∃ p, s.profileOf u = some p ∧ p.visibility = "PUBLIC" := by
  unfold JobseekersWhere.matches at h
  simp only [Bool.and_eq_true, decide_eq_true_eq] at h
  obtain ⟨⟨h1, h2⟩, -⟩ := h
  refine ⟨h1.trans hw.1, ?_⟩
  cases hp : s.profileOf u with
  | none => rw [hp] at h2; exact absurd h2 (by simp)
  | some p =>
    rw [hp] at h2
    refine ⟨p, rfl, ?_⟩
    unfold ProfileWhere.matches at h2
    simp only [Bool.and_eq_true, Bool.or_eq_true, decide_eq_true_eq, hw.2, Option.isNone_some,
      Bool.false_eq_true, false_or, Option.some.injEq] at h2
    exact h2.1.1.symm

/-- The rows of a listing answer are rows of the matching list. -/
theorem listingAnswer_rows {α : Type} (matching : List α) (p : Paging) (failure : String)
    (x : α) (h : x ∈ (listingAnswer matching p failure).rows) : x ∈ matching := by
  unfold listingAnswer at h
  split at h
  · simp at h
  · exact List.mem_of_mem_drop (List.mem_of_mem_take h)

/-- C30. For every query (search, profile type, skills, location, page, limit)
the filter that `getJobseekers` builds keeps the conditions `userType:
"JOB_SEEKER"` and `visibility: "PUBLIC"`, whatever the profile type and skills
filters add; every user in the answer is an account of type `JOB_SEEKER` whose
profile is public, so no job seeker with a private profile and no job seeker
without a profile is returned. -/
theorem getJobseekers_public_only (s : Store) (user : Option Nat) (q : JobseekersQuery) :
    (q.where.userType = "JOB_SEEKER" ∧ q.where.jobSeekerProfile.visibility = some "PUBLIC") ∧
    (∀ u ∈ (getJobseekers s user q).rows,
      u ∈ s.users ∧ u.userType = "JOB_SEEKER" ∧
        ∃ p, s.profileOf u = some p ∧ p.visibility = "PUBLIC") ∧
    (∀ u, s.profileOf u = none → u ∉ (getJobseekers s user q).rows) ∧
    ∀ u p, s.profileOf u = some p → p.visibility ≠ "PUBLIC" →
      u ∉ (getJobseekers s user q).rows := by
  have hrows : ∀ u ∈ (getJobseekers s user q).rows,
      u ∈ s.users ∧ u.userType = "JOB_SEEKER" ∧
        ∃ p, s.profileOf u = some p ∧ p.visibility = "PUBLIC" := by
    intro u hu
    unfold getJobseekers at hu
    split at hu
    · simp [listingNotAuthenticated] at hu
    · split at hu
      · simp at hu
      · have hm := listingAnswer_rows _ _ _ u hu
        rw [List.mem_reverse, List.mem_filter] at hm
        exact ⟨hm.1, JobseekersWhere.matches_public _ s u (JobseekersQuery.where_literal q) hm.2⟩
  refine ⟨JobseekersQuery.where_literal q, hrows, ?_, ?_⟩
  · intro u hnone hu
    obtain ⟨-, -, p, hp, -⟩ := hrows u hu
    rw [hnone] at hp
    exact absurd hp (by simp)
  · intro u p hsome hpriv hu
    obtain ⟨-, -, p1, hp1, hpub⟩ := hrows u hu
    rw [hsome] at hp1
    cases hp1
    exact hpriv hpub

/-- The theorem at work: both job seekers of `profilesStore` have the profile
type and the skill of `skilledQuery`, and only job seeker 1, whose profile is
public, is in the answer. -/
theorem getJobseekers_skilledQuery :
    skilledQuery.where =
      { userType := "JOB_SEEKER",
        jobSeekerProfile :=
          { visibility := some "PUBLIC", profileType := some "EMPLOYABLE",
            skillsHasSome := some ["lean"] },
        search := none } ∧
    (getJobseekers profilesStore (some 2) skilledQuery).rows.map (fun u => u.id) = [1] := by
  decide

/-! ## Requests without a session user -/

/-- C23. Every handler other than the two registrations and the login answers a
request whose session carries no user id with 401 "Not authenticated", returns
the store as it was (no write), and gives that answer whatever the store holds
(no read): the check of the session is the first statement of each handler that
could touch the store. -/
theorem unauthenticated_is_401 (q : ProtectedRequest) (s s1 : Store) :
    q.run s none = (s, { status := 401, success := false, message := "Not authenticated" }) ∧
      (q.run s none).2 = (q.run s1 none).2 := by
  cases q <;> exact ⟨rfl, rfl⟩

/-- The handlers behind the check, for a session with a user id: job seeker 1 of
`demoStore` has no active subscription (403), company 2 shares its job post 10
with job seeker 1 (500, the message of the notification cannot be built), job
seeker 4 saves a first profile (200, profile 100), and user 9, who has no row,
asks for the chat areas (500). -/
theorem protected_handlers_examples :
    (ProtectedRequest.applicationTracking.run demoStore (some 1)).2 =
      { status := 403, success := false,
        message := "Premium feature requires active subscription" } ∧
    (ProtectedRequest.shareJob 1 (some 10)).run demoStore (some 2) =
      (demoStore, { status := 500, success := false, message := "Failed to share job" }) ∧
    ((ProtectedRequest.profile
        { profileType := some "VIRTUAL_INTERN", bio := some "Student", skills := some (.text "sql"),
          education := some "BSc", visibility := none }).run demoStore (some 4)).2.status = 200 ∧
    ((ProtectedRequest.profile
        { profileType := some "VIRTUAL_INTERN", bio := some "Student", skills := some (.text "sql"),
          education := some "BSc", visibility := none }).run demoStore
          (some 4)).1.jobSeekerProfiles =
      demoStore.jobSeekerProfiles ++
        [{ id := 100, userId := 4, profileType := "VIRTUAL_INTERN", visibility := "PRIVATE",
           bio := some "Student", skills := ["sql"], education := some "BSc" }] ∧
    (ProtectedRequest.chatAreas.run demoStore (some 9)).2.status = 500 := by
  decide

end Joblify
